import Mathlib

/-!
XBoing ball physics (`ball_math.c`), scoring arithmetic (`score_logic.c`) and
path resolution (`paths.c`): embedding and verified properties.

The C code computes in single-precision `float`.  The embedding abstracts the
float type to an arbitrary linearly ordered field `F` with a floor function
(exact arithmetic), and takes the C library functions `sqrt`, `atan`, `sin`
and `cos` as explicit arguments, so that every definition below is an
executable function (for instance over `ℚ`).  Theorems that depend on what
the square root computes instantiate `F := ℝ` and `sqrt := Real.sqrt`.  Where
the rounding of the `float` operations decides a property, the function is
also given with explicit rounding functions, and `to_float` and `to_double`
are the IEEE 754 roundings.

C `int` fields are modelled as `Int`.  In the ball physics signed overflow is
outside the model; in the scoring arithmetic every product and difference of
`int`s is reduced to the 32-bit two's complement range.  A C division by zero
(which yields an infinity or a NaN in `float`) is the field's `x / 0 = 0` in
the model; a theorem whose conclusion depends on the value of a quotient has
hypotheses that make the divisor non-zero.
-/

namespace XBoing

/-! Data model (`ball_types.h`). -/

/-- The constant `MIN_DY_BALL` of `ball_types.h` (2). -/
def MIN_DY_BALL : Int := 2

/-- The constant `MIN_DX_BALL` of `ball_types.h` (2). -/
def MIN_DX_BALL : Int := 2

/-- The constant `MAX_X_VEL` of `ball_types.h` (14). -/
def MAX_X_VEL : Int := 14

/-- The constant `MAX_Y_VEL` of `ball_types.h` (14). -/
def MAX_Y_VEL : Int := 14

/-- The enumeration `BallStates` of `ball_types.h`. -/
inductive BallStates where
  | BALL_POP
  | BALL_ACTIVE
  | BALL_STOP
  | BALL_CREATE
  | BALL_DIE
  | BALL_WAIT
  | BALL_READY
  | BALL_NONE
  deriving DecidableEq, Repr

/-- The struct `BALL` of `ball_types.h`, with its two `float` fields in `F`. -/
structure BALL (F : Type) where
  waitMode : BallStates
  waitingFrame : Int
  newMode : Int
  nextFrame : Int
  active : Int
  oldx : Int
  oldy : Int
  ballx : Int
  bally : Int
  dx : Int
  dy : Int
  slide : Int
  radius : F
  mass : F
  lastPaddleHitFrame : Int
  ballState : BallStates

/-- The helper `make_ball` of `tests/test_ball_math.c`: a zero-initialised
`BALL` (`BALL b = {0}`, so both enum fields are `BALL_POP`) with position,
velocity, radius and mass set. -/
def make_ball {F : Type} (x y dx dy : Int) (radius mass : F) : BALL F :=
  { waitMode := BallStates.BALL_POP
    waitingFrame := 0
    newMode := 0
    nextFrame := 0
    active := 0
    oldx := 0
    oldy := 0
    ballx := x
    bally := y
    dx := dx
    dy := dy
    slide := 0
    radius := radius
    mass := mass
    lastPaddleHitFrame := 0
    ballState := BallStates.BALL_POP }

/-! Macros and casts of `ball_math.c`. -/

/-- The macro `SQR(x)`, defined as `((x)*(x))`. -/
def SQR {F : Type} [Mul F] (x : F) : F := x * x

/-- The macro `MIN(a,b)`, defined as `((a)<(b) ? (a):(b))`. -/
def MIN {F : Type} [LinearOrder F] (a b : F) : F := if a < b then a else b

/-- The C cast `(int)x` of a floating value: truncation toward zero.  (A value
outside the range of `int` is undefined behaviour in C and outside the model.) -/
def castInt {F : Type} [LinearOrderedField F] [FloorRing F] (x : F) : Int :=
  if 0 ≤ x then Int.floor x else Int.ceil x

/-! Floating-point rounding.

Where a property of the program depends on the rounding of its `float`
arithmetic, a function of `ball_math.c` is also given in a form that takes the
rounding functions as arguments (`ball_math_will_collide_rounded`,
`ball_math_collide_rounded`): `fl` stands where the program rounds a result to
`float`, `fd` where it rounds to `double`. The roundings of IEEE 754 single and
double precision are `to_float` and `to_double`. -/

/-- Rounding to the nearest integer, a tie going to the even neighbour. -/
def round_half_even {F : Type} [LinearOrderedField F] [FloorRing F] (x : F) : Int :=
  if x - (Int.floor x : F) < 1 / 2 then Int.floor x
  else if 1 / 2 < x - (Int.floor x : F) then Int.floor x + 1
  else if Int.floor x % 2 = 0 then Int.floor x
  else Int.floor x + 1

/-- Rounding of `x` to the nearest number with a binary significand of `p`
bits, a tie going to the even significand (the default rounding of IEEE 754
arithmetic). The exponent range is not bounded: overflow and subnormal numbers
are outside the model. -/
def round_to_bits {F : Type} [LinearOrderedField F] [FloorRing F] (p : Nat) (x : F) : F :=
  if x = 0 then 0
  else
    (round_half_even (x / 2 ^ (Int.log 2 |x| - ((p : Int) - 1))) : F)
      * 2 ^ (Int.log 2 |x| - ((p : Int) - 1))

/-- Rounding to a C `float` (IEEE 754 binary32, significand of 24 bits). -/
def to_float {F : Type} [LinearOrderedField F] [FloorRing F] (x : F) : F :=
  round_to_bits 24 x

/-- Rounding to a C `double` (IEEE 754 binary64, significand of 53 bits). -/
def to_double {F : Type} [LinearOrderedField F] [FloorRing F] (x : F) : F :=
  round_to_bits 53 x

/-! The collision predictor. -/

/-- The function `ball_math_will_collide(ball1, ball2, time, machine_eps)`:
the result is the pair (return value, value written to `*time`). -/
def ball_math_will_collide {F : Type} [LinearOrderedField F] (sqrt : F → F)
    (ball1 ball2 : BALL F) (machine_eps : F) : Int × F :=
  let px : F := ((ball1.ballx - ball2.ballx : Int) : F)
  let py : F := ((ball1.bally - ball2.bally : Int) : F)
  let vx : F := ((ball1.dx - ball2.dx : Int) : F)
  let vy : F := ((ball1.dy - ball2.dy : Int) : F)
  let v2 : F := SQR vx + SQR vy
  let r2 : F := SQR (ball1.radius + ball2.radius)
  let tmp2 : F := (v2 * r2) - SQR ((vx * py) - (vy * px))
  if tmp2 ≥ 0 ∧ v2 > machine_eps then
    let tmp2q : F := sqrt tmp2 / v2
    let tmp1 : F := -((px * vx) + (py * vy)) / v2
    let t1 : F := tmp1 - tmp2q
    let t2 : F := tmp1 + tmp2q
    let tmin : F := MIN t1 t2
    if tmin ≥ 0 ∧ tmin ≤ 1 then (1, tmin) else (0, 0)
  else (0, 0)

/-- The function `ball_math_will_collide` with the rounding of every
floating-point operation explicit: `fl` rounds a result to `float` and `fd` to
`double` (the square root and the quotient `sqrt((double)tmp2) / (double)v2`
are computed in `double` and then cast to `float`). With `fl` and `fd` the
identity this is `ball_math_will_collide`. -/
def ball_math_will_collide_rounded {F : Type} [LinearOrderedField F] (fl fd sqrt : F → F)
    (ball1 ball2 : BALL F) (machine_eps : F) : Int × F :=
  let px : F := fl ((ball1.ballx - ball2.ballx : Int) : F)
  let py : F := fl ((ball1.bally - ball2.bally : Int) : F)
  let vx : F := fl ((ball1.dx - ball2.dx : Int) : F)
  let vy : F := fl ((ball1.dy - ball2.dy : Int) : F)
  let v2 : F := fl (fl (SQR vx) + fl (SQR vy))
  let r2 : F := fl (SQR (fl (ball1.radius + ball2.radius)))
  let tmp2 : F := fl (fl (v2 * r2) - fl (SQR (fl (fl (vx * py) - fl (vy * px)))))
  if tmp2 ≥ 0 ∧ v2 > machine_eps then
    let tmp2q : F := fl (fd (fd (sqrt (fd tmp2)) / fd v2))
    let tmp1 : F := fl (-(fl (fl (px * vx) + fl (py * vy))) / v2)
    let t1 : F := fl (tmp1 - tmp2q)
    let t2 : F := fl (tmp1 + tmp2q)
    let tmin : F := MIN t1 t2
    if tmin ≥ 0 ∧ tmin ≤ 1 then (1, tmin) else (0, 0)
  else (0, 0)

/-- The predictor as the specification describes it: with `p = pos1 - pos2`,
`v = vel1 - vel2`, `v2 = |v|^2`, `R = radius1 + radius2` and
`D = v2*R^2 - (v.x*p.y - v.y*p.x)^2`, report `(1, tmin)` exactly when `D ≥ 0`,
`v2 > machine_eps` and `tmin = (-(p.v) - sqrt D)/v2` lies in `[0,1]`, and
`(0, 0)` in every other case. -/
def will_collide_spec {F : Type} [LinearOrderedField F] (sqrt : F → F)
    (b1 b2 : BALL F) (machine_eps : F) : Int × F :=
  let px : F := (b1.ballx : F) - (b2.ballx : F)
  let py : F := (b1.bally : F) - (b2.bally : F)
  let vx : F := (b1.dx : F) - (b2.dx : F)
  let vy : F := (b1.dy : F) - (b2.dy : F)
  let v2 : F := vx ^ 2 + vy ^ 2
  let R : F := b1.radius + b2.radius
  let D : F := v2 * R ^ 2 - (vx * py - vy * px) ^ 2
  let tmin : F := (-(px * vx + py * vy) - sqrt D) / v2
  if D ≥ 0 ∧ v2 > machine_eps ∧ 0 ≤ tmin ∧ tmin ≤ 1 then (1, tmin) else (0, 0)

/-- The discriminant `D = v2*R^2 - (v.x*p.y - v.y*p.x)^2` of the contact
equation, with `p = pos1 - pos2`, `v = vel1 - vel2`, `v2 = |v|^2` and
`R = radius1 + radius2`, as the specification writes it. -/
def contact_discriminant {F : Type} [LinearOrderedField F] (b1 b2 : BALL F) : F :=
  let px : F := (b1.ballx : F) - (b2.ballx : F)
  let py : F := (b1.bally : F) - (b2.bally : F)
  let vx : F := (b1.dx : F) - (b2.dx : F)
  let vy : F := (b1.dy : F) - (b2.dy : F)
  let v2 : F := vx ^ 2 + vy ^ 2
  let R : F := b1.radius + b2.radius
  v2 * R ^ 2 - (vx * py - vy * px) ^ 2

/-- The smaller root `tmin = (-(p.v) - sqrt D)/v2` of the contact equation, as
the specification writes it. -/
def contact_time {F : Type} [LinearOrderedField F] (sqrt : F → F) (b1 b2 : BALL F) : F :=
  let px : F := (b1.ballx : F) - (b2.ballx : F)
  let py : F := (b1.bally : F) - (b2.bally : F)
  let vx : F := (b1.dx : F) - (b2.dx : F)
  let vy : F := (b1.dy : F) - (b2.dy : F)
  let v2 : F := vx ^ 2 + vy ^ 2
  let R : F := b1.radius + b2.radius
  let D : F := v2 * R ^ 2 - (vx * py - vy * px) ^ 2
  (-(px * vx + py * vy) - sqrt D) / v2

/-- Relative speed squared of the two balls, `|vel1 - vel2|^2` (the quantity
`v2` of the predictor). -/
def rel_speed_sq {F : Type} [LinearOrderedField F] (b1 b2 : BALL F) : F :=
  SQR ((b1.dx - b2.dx : Int) : F) + SQR ((b1.dy - b2.dy : Int) : F)

/-- Distance between the two centres after both balls have moved in a straight
line for the fraction `t` of the step: each centre is advanced by `t` times the
ball's velocity. -/
def centre_dist {F : Type} [LinearOrderedField F] (sqrt : F → F)
    (b1 b2 : BALL F) (t : F) : F :=
  sqrt (SQR (((b1.ballx : F) + t * (b1.dx : F)) - ((b2.ballx : F) + t * (b2.dx : F)))
    + SQR (((b1.bally : F) + t * (b1.dy : F)) - ((b2.bally : F) + t * (b2.dy : F))))

/-! The collision resolver. -/

/-- The function `ball_math_collide(ball1, ball2)`: the result is the pair of
balls after the call.  The second component `py` of the separation is computed
from `ball1->ballx`, as in the source. -/
def ball_math_collide {F : Type} [LinearOrderedField F] [FloorRing F] (sqrt : F → F)
    (ball1 ball2 : BALL F) : BALL F × BALL F :=
  let px : F := ((ball1.ballx - ball2.ballx : Int) : F)
  let py : F := ((ball1.ballx - ball2.bally : Int) : F)
  let vx : F := ((ball1.dx - ball2.dx : Int) : F)
  let vy : F := ((ball1.dy - ball2.dy : Int) : F)
  let plen : F := sqrt (SQR px + SQR py)
  let px : F := px / plen
  let py : F := py / plen
  let massrate : F := ball1.mass / ball2.mass
  let k : F := -2 * ((vx * px) + (vy * py)) / (1 + massrate)
  let ball1 : BALL F := { ball1 with dx := ball1.dx + castInt (k * px) }
  let ball1 : BALL F := { ball1 with dy := ball1.dy + castInt (k * py) }
  let k : F := k * -massrate
  let ball2 : BALL F := { ball2 with dx := ball2.dx + castInt (k * px) }
  let ball2 : BALL F := { ball2 with dy := ball2.dy + castInt (k * py) }
  (ball1, ball2)

/-- The function `ball_math_collide` with the rounding of every floating-point
operation explicit: `fl` rounds a result to `float`, `fd` to `double` (the
square root is computed in `double`). With `fl` and `fd` the identity this is
`ball_math_collide`. -/
def ball_math_collide_rounded {F : Type} [LinearOrderedField F] [FloorRing F]
    (fl fd sqrt : F → F) (ball1 ball2 : BALL F) : BALL F × BALL F :=
  let px : F := fl ((ball1.ballx - ball2.ballx : Int) : F)
  let py : F := fl ((ball1.ballx - ball2.bally : Int) : F)
  let vx : F := fl ((ball1.dx - ball2.dx : Int) : F)
  let vy : F := fl ((ball1.dy - ball2.dy : Int) : F)
  let plen : F := fl (fd (sqrt (fd (fl (fl (SQR px) + fl (SQR py))))))
  let px : F := fl (px / plen)
  let py : F := fl (py / plen)
  let massrate : F := fl (ball1.mass / ball2.mass)
  let k : F := fl (fl (-2 * fl (fl (vx * px) + fl (vy * py))) / fl (1 + massrate))
  let ball1 : BALL F := { ball1 with dx := ball1.dx + castInt (fl (k * px)) }
  let ball1 : BALL F := { ball1 with dy := ball1.dy + castInt (fl (k * py)) }
  let k : F := fl (k * -massrate)
  let ball2 : BALL F := { ball2 with dx := ball2.dx + castInt (fl (k * px)) }
  let ball2 : BALL F := { ball2 with dy := ball2.dy + castInt (fl (k * py)) }
  (ball1, ball2)

/-- Truncation toward zero as the specification words it: the integer part of
the magnitude, with the sign of the argument. -/
def trunc_toward_zero {F : Type} [LinearOrderedField F] [FloorRing F] (x : F) : Int :=
  if x < 0 then -Int.floor (-x) else Int.floor x

/-- The resolver as the specification describes it, every operation rounded by
`fl` (and the square root by `fd`): with `px = x1 - x2`, `py = x1 - y2` (the
transposition), `(ux, uy) = (px, py)/sqrt(px^2 + py^2)`, `m = mass1/mass2` and
`k = -2*((dx1 - dx2)*ux + (dy1 - dy2)*uy)/(1 + m)`, the velocity of ball 1
becomes `(dx1 + trunc(k*ux), dy1 + trunc(k*uy))` and that of ball 2
`(dx2 + trunc(-m*k*ux), dy2 + trunc(-m*k*uy))`; nothing else changes. With
`fl` and `fd` the identity the formulas are evaluated in exact arithmetic. -/
def collide_spec {F : Type} [LinearOrderedField F] [FloorRing F] (fl fd sqrt : F → F)
    (b1 b2 : BALL F) : BALL F × BALL F :=
  let px : F := fl ((b1.ballx : F) - (b2.ballx : F))
  let py : F := fl ((b1.ballx : F) - (b2.bally : F))
  let len : F := fl (fd (sqrt (fd (fl (fl (px * px) + fl (py * py))))))
  let ux : F := fl (px / len)
  let uy : F := fl (py / len)
  let m : F := fl (b1.mass / b2.mass)
  let k : F := fl (fl (-2 * fl (fl (fl ((b1.dx : F) - (b2.dx : F)) * ux)
    + fl (fl ((b1.dy : F) - (b2.dy : F)) * uy))) / fl (1 + m))
  ({ b1 with dx := b1.dx + trunc_toward_zero (fl (k * ux)),
             dy := b1.dy + trunc_toward_zero (fl (k * uy)) },
   { b2 with dx := b2.dx + trunc_toward_zero (fl (fl (-m * k) * ux)),
             dy := b2.dy + trunc_toward_zero (fl (fl (-m * k) * uy)) })

/-! The paddle reflector. -/

/-- The floating-point velocity `(Vx, Vy)` that `ball_math_paddle_bounce`
computes before rounding (the source up to and including the line
`Vx += (float)(paddle_dx / 10.0)`). -/
def paddle_bounce_V {F : Type} [LinearOrderedField F] (sqrt atan sin cos : F → F)
    (vx vy hit_pos pad_size paddle_dx : Int) : F × F :=
  let Vx : F := (vx : F)
  let Vy : F := (vy : F)
  let Vs : F := sqrt (Vx * Vx + Vy * Vy)
  let alpha : F := atan (Vx / -Vy)
  let Vx : F := (hit_pos : F)
  let Vy : F := (pad_size : F) / 1
  let beta : F := atan (Vx / Vy)
  let gamma : F := 2 * beta - alpha
  let Vx : F := Vs * sin gamma
  let Vy : F := -Vs * cos gamma
  let Vx : F := Vx + (paddle_dx : F) / 10
  (Vx, Vy)

/-- The function `ball_math_paddle_bounce(vx, vy, hit_pos, pad_size, paddle_dx,
new_dx, new_dy)`: the result is the pair (`*new_dx`, `*new_dy`). -/
def ball_math_paddle_bounce {F : Type} [LinearOrderedField F] [FloorRing F]
    (sqrt atan sin cos : F → F) (vx vy hit_pos pad_size paddle_dx : Int) : Int × Int :=
  let V : F × F := paddle_bounce_V sqrt atan sin cos vx vy hit_pos pad_size paddle_dx
  let Vx : F := V.1
  let Vy : F := V.2
  let new_dx : Int := if Vx > 0 then castInt (Vx + 1 / 2) else castInt (Vx - 1 / 2)
  let new_dy : Int := if Vy < 0 then castInt (Vy - 1 / 2) else -MIN_DY_BALL
  let new_dy : Int := if new_dy > -MIN_DY_BALL then -MIN_DY_BALL else new_dy
  (new_dx, new_dy)

/-- The incoming speed of the paddle bounce, `sqrt(vx^2 + vy^2)` (`Vs` in the
source). -/
def paddle_speed {F : Type} [LinearOrderedField F] (sqrt : F → F) (vx vy : Int) : F :=
  sqrt ((vx : F) * (vx : F) + (vy : F) * (vy : F))

/-- The reflection angle of the paddle bounce,
`gamma = 2*atan(hit_pos/pad_size) - atan(vx / -vy)`, as in the source. -/
def paddle_gamma {F : Type} [LinearOrderedField F] (atan : F → F)
    (vx vy hit_pos pad_size : Int) : F :=
  2 * atan ((hit_pos : F) / ((pad_size : F) / 1)) - atan ((vx : F) / -(vy : F))

/-- Rounding to the nearest integer with ties away from zero, as the
specification words the sign-aware half-rounding: the nearest integer to the
magnitude (ties upward), with the sign of the argument. -/
def round_half_away {F : Type} [LinearOrderedField F] [FloorRing F] (x : F) : Int :=
  if x < 0 then -round (-x) else round x

/-! The speed normalizer. -/

/-- The function `ball_math_normalize_speed(dx, dy, speed_level)`: the result
is the pair of the values left in `*dx` and `*dy`. -/
def ball_math_normalize_speed {F : Type} [LinearOrderedField F] [FloorRing F]
    (sqrt : F → F) (dx dy speed_level : Int) : Int × Int :=
  let Vx : F := (dx : F)
  let Vy : F := (dy : F)
  let Vs : F := sqrt (Vx * Vx + Vy * Vy)
  let alpha : F := sqrt ((MAX_X_VEL : F) * (MAX_X_VEL : F) + (MAX_Y_VEL : F) * (MAX_Y_VEL : F))
  let alpha : F := alpha / 9
  let alpha : F := alpha * (speed_level : F)
  let Vs : F := if Vs = 0 then 1 else Vs
  let beta : F := alpha / Vs
  let Vx : F := Vx * beta
  let Vy : F := Vy * beta
  let dx : Int := if Vx > 0 then castInt (Vx + 1 / 2) else castInt (Vx - 1 / 2)
  let dy : Int := if Vy > 0 then castInt (Vy + 1 / 2) else castInt (Vy - 1 / 2)
  let dy : Int := if dy = 0 then MIN_DY_BALL else dy
  let dx : Int := if dx = 0 then MIN_DX_BALL else dx
  (dx, dy)

/-- The scale factor `beta = alpha / Vs` of the normalizer, as the source
computes it (with `Vs` replaced by 1 when it is 0). -/
def normalize_beta {F : Type} [LinearOrderedField F] (sqrt : F → F)
    (dx dy speed_level : Int) : F :=
  let Vx : F := (dx : F)
  let Vy : F := (dy : F)
  let Vs : F := sqrt (Vx * Vx + Vy * Vy)
  let alpha : F := sqrt ((MAX_X_VEL : F) * (MAX_X_VEL : F) + (MAX_Y_VEL : F) * (MAX_Y_VEL : F))
  let alpha : F := alpha / 9
  let alpha : F := alpha * (speed_level : F)
  let Vs : F := if Vs = 0 then 1 else Vs
  alpha / Vs

/-- The target speed of the specification,
`T = sqrt(MAX_X_VEL^2 + MAX_Y_VEL^2)/9 * speed_level`. -/
def normalize_target {F : Type} [LinearOrderedField F] (sqrt : F → F)
    (speed_level : Int) : F :=
  sqrt ((MAX_X_VEL : F) ^ 2 + (MAX_Y_VEL : F) ^ 2) / 9 * (speed_level : F)

/-- The current speed of the specification, `s = sqrt(dx^2 + dy^2)`. -/
def current_speed {F : Type} [LinearOrderedField F] (sqrt : F → F) (dx dy : Int) : F :=
  sqrt ((dx : F) ^ 2 + (dy : F) ^ 2)

/-- The normalizer as the specification describes it: with the target
`T = sqrt(MAX_X_VEL^2 + MAX_Y_VEL^2)/9 * speed_level` and the current speed
`s = sqrt(dx^2 + dy^2)`, each component is `T*d/s` rounded to the nearest
integer with ties away from zero, and a rounded value of 0 is replaced by
`+MIN_DX_BALL` (respectively `+MIN_DY_BALL`). -/
def normalize_speed_spec {F : Type} [LinearOrderedField F] [FloorRing F]
    (sqrt : F → F) (dx dy speed_level : Int) : Int × Int :=
  let T : F := normalize_target sqrt speed_level
  let s : F := current_speed sqrt dx dy
  let rx : Int := round_half_away (T * (dx : F) / s)
  let ry : Int := round_half_away (T * (dy : F) / s)
  (if rx = 0 then MIN_DX_BALL else rx, if ry = 0 then MIN_DY_BALL else ry)

/-! The grid locator. -/

/-- The function `ball_math_x_to_col(x, col_width)`, `x / col_width` on C
`int`s: division truncating toward zero. -/
def ball_math_x_to_col (x col_width : Int) : Int := Int.tdiv x col_width

/-- The function `ball_math_y_to_row(y, row_height)`, `y / row_height` on C
`int`s: division truncating toward zero. -/
def ball_math_y_to_row (y row_height : Int) : Int := Int.tdiv y row_height

/-! Scoring arithmetic (`score_logic.c`, `block_types.h`).

The type `u_long` is unsigned with `w` bits; its width comes from
`sys/types.h` and the platform, so `w` is a parameter of the functions that
compute in `u_long`. A C `int` has 32 bits: a product or difference of `int`s
is reduced to the 32-bit two's complement range (`int_mul`, `int_sub`) before
any conversion to `u_long`. -/

/-- The constant `NONE_BLK` of `block_types.h`. -/
def NONE_BLK : Int := -2

/-- The constant `KILL_BLK` of `block_types.h`. -/
def KILL_BLK : Int := -1

/-- The constant `RED_BLK` of `block_types.h`. -/
def RED_BLK : Int := 0

/-- The constant `BLUE_BLK` of `block_types.h`. -/
def BLUE_BLK : Int := 1

/-- The constant `GREEN_BLK` of `block_types.h`. -/
def GREEN_BLK : Int := 2

/-- The constant `TAN_BLK` of `block_types.h`. -/
def TAN_BLK : Int := 3

/-- The constant `YELLOW_BLK` of `block_types.h`. -/
def YELLOW_BLK : Int := 4

/-- The constant `PURPLE_BLK` of `block_types.h`. -/
def PURPLE_BLK : Int := 5

/-- The constant `BULLET_BLK` of `block_types.h`. -/
def BULLET_BLK : Int := 6

/-- The constant `BLACK_BLK` of `block_types.h`. -/
def BLACK_BLK : Int := 7

/-- The constant `COUNTER_BLK` of `block_types.h`. -/
def COUNTER_BLK : Int := 8

/-- The constant `BOMB_BLK` of `block_types.h`. -/
def BOMB_BLK : Int := 9

/-- The constant `DEATH_BLK` of `block_types.h`. -/
def DEATH_BLK : Int := 10

/-- The constant `REVERSE_BLK` of `block_types.h`. -/
def REVERSE_BLK : Int := 11

/-- The constant `HYPERSPACE_BLK` of `block_types.h`. -/
def HYPERSPACE_BLK : Int := 12

/-- The constant `EXTRABALL_BLK` of `block_types.h`. -/
def EXTRABALL_BLK : Int := 13

/-- The constant `MGUN_BLK` of `block_types.h`. -/
def MGUN_BLK : Int := 14

/-- The constant `WALLOFF_BLK` of `block_types.h`. -/
def WALLOFF_BLK : Int := 15

/-- The constant `MULTIBALL_BLK` of `block_types.h`. -/
def MULTIBALL_BLK : Int := 16

/-- The constant `STICKY_BLK` of `block_types.h`. -/
def STICKY_BLK : Int := 17

/-- The constant `PAD_SHRINK_BLK` of `block_types.h`. -/
def PAD_SHRINK_BLK : Int := 18

/-- The constant `PAD_EXPAND_BLK` of `block_types.h`. -/
def PAD_EXPAND_BLK : Int := 19

/-- The constant `DROP_BLK` of `block_types.h`. -/
def DROP_BLK : Int := 20

/-- The constant `MAXAMMO_BLK` of `block_types.h`. -/
def MAXAMMO_BLK : Int := 21

/-- The constant `ROAMER_BLK` of `block_types.h`. -/
def ROAMER_BLK : Int := 22

/-- The constant `TIMER_BLK` of `block_types.h`. -/
def TIMER_BLK : Int := 23

/-- The constant `RANDOM_BLK` of `block_types.h`. -/
def RANDOM_BLK : Int := 24

/-- The constant `DYNAMITE_BLK` of `block_types.h`. -/
def DYNAMITE_BLK : Int := 25

/-- The constant `BONUSX2_BLK` of `block_types.h`. -/
def BONUSX2_BLK : Int := 26

/-- The constant `BONUSX4_BLK` of `block_types.h`. -/
def BONUSX4_BLK : Int := 27

/-- The constant `BONUS_BLK` of `block_types.h`. -/
def BONUS_BLK : Int := 28

/-- The constant `BLACKHIT_BLK` of `block_types.h`. -/
def BLACKHIT_BLK : Int := 29

/-- The constant `MAX_ROW` of `block_types.h`. -/
def MAX_ROW : Int := 18

/-- The constant `NEW_LIVE_SCORE_INC` of `score_logic.c` (`100000L`). -/
def NEW_LIVE_SCORE_INC : Int := 100000

/-- The constant `BONUS_COIN_SCORE` of `score_logic.c`. -/
def BONUS_COIN_SCORE : Int := 3000

/-- The constant `SUPER_BONUS_SCORE` of `score_logic.c`. -/
def SUPER_BONUS_SCORE : Int := 50000

/-- The constant `BULLET_SCORE` of `score_logic.c`. -/
def BULLET_SCORE : Int := 500

/-- The constant `LEVEL_SCORE` of `score_logic.c`. -/
def LEVEL_SCORE : Int := 100

/-- The constant `TIME_BONUS_POINTS` of `score_logic.c`. -/
def TIME_BONUS_POINTS : Int := 100

/-- The C conversion `(u_long)x` of a signed integer to a `w`-bit unsigned
type: reduction modulo `2^w`. -/
def to_u_long (w : Nat) (x : Int) : Nat := (x % (2 : Int) ^ w).toNat

/-- The C conversion `(int)x` of a `long` to a 32-bit `int`: two's complement
wrap-around where the value is out of range. -/
def to_int32 (x : Int) : Int := (x + 2 ^ 31) % 2 ^ 32 - 2 ^ 31

/-- The product `a * b` of two C `int`s, computed in 32-bit `int`. Signed
overflow is undefined behaviour in C; the compiled code wraps in two's
complement, which is what the reduction models. -/
def int_mul (a b : Int) : Int := to_int32 (a * b)

/-- The difference `a - b` of two C `int`s, computed in 32-bit `int` (wrapping
like `int_mul`). -/
def int_sub (a b : Int) : Int := to_int32 (a - b)

/-- The function `score_apply_multiplier(inc, x2_active, x4_active)`, computing
in `w`-bit unsigned arithmetic. -/
def score_apply_multiplier (w : Nat) (inc : Nat) (x2_active x4_active : Int) : Nat :=
  if x2_active ≠ 0 then (inc * 2) % 2 ^ w
  else if x4_active ≠ 0 then (inc * 4) % 2 ^ w
  else inc

/-- The function `score_extra_life_threshold(score_value)`:
`(int)(score_value / NEW_LIVE_SCORE_INC)` with C division on `long`. -/
def score_extra_life_threshold (score_value : Int) : Int :=
  to_int32 (Int.tdiv score_value NEW_LIVE_SCORE_INC)

/-- The function `score_compute_bonus(time_bonus, num_bonus, max_bonus,
num_bullets, level_adj)`: each product is formed in 32-bit `int`, converted to
`u_long` and accumulated in `w`-bit unsigned arithmetic. -/
def score_compute_bonus (w : Nat)
    (time_bonus num_bonus max_bonus num_bullets level_adj : Int) : Nat :=
  let total : Nat := 0
  let total : Nat :=
    if time_bonus > 0 then
      let total : Nat :=
        if num_bonus > max_bonus then (total + to_u_long w SUPER_BONUS_SCORE) % 2 ^ w
        else (total + to_u_long w (int_mul num_bonus BONUS_COIN_SCORE)) % 2 ^ w
      (total + to_u_long w (int_mul LEVEL_SCORE level_adj)) % 2 ^ w
    else total
  let total : Nat :=
    if num_bullets ≠ 0 then (total + to_u_long w (int_mul num_bullets BULLET_SCORE)) % 2 ^ w
    else total
  let total : Nat :=
    if time_bonus > 0 then (total + to_u_long w (int_mul TIME_BONUS_POINTS time_bonus)) % 2 ^ w
    else total
  total

/-- The function `score_block_hit_points(block_type, row)`: the `switch` of the
source, case by case in source order; the `DROP_BLK` value `(MAX_ROW - row) *
100` is formed in 32-bit `int`. -/
def score_block_hit_points (block_type row : Int) : Int :=
  if block_type = BULLET_BLK ∨ block_type = MAXAMMO_BLK then 50
  else if block_type = RED_BLK then 100
  else if block_type = GREEN_BLK then 120
  else if block_type = BLUE_BLK then 110
  else if block_type = TAN_BLK then 130
  else if block_type = YELLOW_BLK then 140
  else if block_type = PURPLE_BLK then 150
  else if block_type = BOMB_BLK then 50
  else if block_type = ROAMER_BLK then 400
  else if block_type = DROP_BLK then int_mul (int_sub MAX_ROW row) 100
  else if block_type = COUNTER_BLK then 200
  else if block_type = EXTRABALL_BLK ∨ block_type = TIMER_BLK
      ∨ block_type = HYPERSPACE_BLK ∨ block_type = MGUN_BLK
      ∨ block_type = WALLOFF_BLK ∨ block_type = REVERSE_BLK
      ∨ block_type = MULTIBALL_BLK ∨ block_type = STICKY_BLK
      ∨ block_type = PAD_SHRINK_BLK ∨ block_type = PAD_EXPAND_BLK then 100
  else if block_type = DEATH_BLK then 0
  else 0

/-! Path resolution (`paths.c`, `paths.h`).

A C string is the list of its characters, without the terminating NUL; a
`const char *` argument that may be `NULL` is an `Option`. The fixed-size
buffers of `paths_config_t` are lists, the array `xdg_data_dirs` is a list of
`PATHS_MAX_DATA_DIRS` strings, and a function writing through its `cfg`
pointer returns the new configuration. -/

/-- The constant `PATHS_MAX_DATA_DIRS` of `paths.h`. -/
def PATHS_MAX_DATA_DIRS : Nat := 8

/-- The constant `PATHS_MAX_PATH` of `paths.h`. -/
def PATHS_MAX_PATH : Nat := 1024

/-- The enumeration `paths_status_t` of `paths.h`. -/
inductive paths_status_t where
  | PATHS_OK
  | PATHS_NOT_FOUND
  | PATHS_TRUNCATED
  | PATHS_NO_HOME
  deriving DecidableEq, Repr

/-- The struct `paths_config_t` of `paths.h`. -/
structure paths_config_t where
  home : List Char
  xdg_data_home : List Char
  xdg_config_home : List Char
  xdg_data_dirs : List (List Char)
  xdg_data_dirs_count : Nat
  xboing_levels_dir : List Char
  xboing_sound_dir : List Char
  xboing_score_file : List Char
  deriving DecidableEq, Repr

/-- The configuration after `memset(cfg, 0, sizeof(*cfg))`: every buffer holds
the empty string and the count is 0. -/
def paths_config_zero : paths_config_t :=
  { home := []
    xdg_data_home := []
    xdg_config_home := []
    xdg_data_dirs := List.replicate PATHS_MAX_DATA_DIRS []
    xdg_data_dirs_count := 0
    xboing_levels_dir := []
    xboing_sound_dir := []
    xboing_score_file := [] }

/-- The helper `safe_copy(dst, dstsize, src)`: the result is the pair (return
value, new contents of `dst`). -/
def safe_copy (dst : List Char) (dstsize : Nat) (src : Option (List Char)) :
    Int × List Char :=
  if dstsize = 0 then (-1, dst)
  else
    match src with
    | none => (0, [])
    | some str =>
      let len := str.length
      if len ≥ dstsize then (-1, str.take (dstsize - 1))
      else (0, str)

/-- The library call `snprintf(buf, bufsize, ...)` for a format whose complete
output is `out` and a non-zero `bufsize`: the result is the pair (return value,
new contents of `buf`). -/
def snprintf (bufsize : Nat) (out : List Char) : Int × List Char :=
  ((out.length : Int), out.take (bufsize - 1))

/-- The helper `strip_trailing_slash(str)`: drop the last character when the
string is longer than 1 and its last character is a slash. -/
def strip_trailing_slash (str : List Char) : List Char :=
  let len := str.length
  if len > 1 ∧ str.getLast? = some '/' then str.dropLast else str

/-- One call of the library function `strtok_r(str, delim, &saveptr)` with a
single delimiter character, on the text `s` at which the scan starts: leading
delimiters are skipped; the result is the pair (token or `NULL`, new text of
`saveptr`). -/
def strtok_r (delim : Char) (s : List Char) : Option (List Char) × List Char :=
  let s1 := s.dropWhile (fun c => c == delim)
  if s1 = [] then (none, [])
  else (some (s1.takeWhile (fun c => c != delim)),
        (s1.dropWhile (fun c => c != delim)).drop 1)

/-- The `while` loop of `parse_data_dirs`, with the current token `tok` and the
`saveptr` text as state; `fuel` bounds the number of iterations. -/
def parse_data_dirs_loop :
    Nat → paths_config_t → Option (List Char) → List Char → paths_config_t
  | 0, cfg, _, _ => cfg
  | fuel + 1, cfg, tok, saveptr =>
    match tok with
    | none => cfg
    | some t =>
      if cfg.xdg_data_dirs_count < PATHS_MAX_DATA_DIRS then
        let cfg : paths_config_t :=
          if t ≠ [] then
            let i := cfg.xdg_data_dirs_count
            let copied := (safe_copy (cfg.xdg_data_dirs.getD i []) PATHS_MAX_PATH (some t)).2
            { cfg with
              xdg_data_dirs := cfg.xdg_data_dirs.set i (strip_trailing_slash copied)
              xdg_data_dirs_count := cfg.xdg_data_dirs_count + 1 }
          else cfg
        let r := strtok_r ':' saveptr
        parse_data_dirs_loop fuel cfg r.1 r.2
      else cfg

/-- The helper `parse_data_dirs(cfg, dirs)`. The loop is given one more
iteration than the local copy `tmp` has characters, which is more than it has
tokens. -/
def parse_data_dirs (cfg : paths_config_t) (dirs : Option (List Char)) : paths_config_t :=
  let cfg : paths_config_t := { cfg with xdg_data_dirs_count := 0 }
  match dirs with
  | none => cfg
  | some d =>
    if d = [] then cfg
    else
      let len := d.length
      let len := if len ≥ PATHS_MAX_PATH * PATHS_MAX_DATA_DIRS
        then PATHS_MAX_PATH * PATHS_MAX_DATA_DIRS - 1 else len
      let tmp := d.take len
      let r := strtok_r ':' tmp
      parse_data_dirs_loop (tmp.length + 1) cfg r.1 r.2

/-- The last part of `paths_init_explicit`: the `XBOING_SCORE_FILE` override
and the final `return PATHS_OK`. -/
def init_score_file (cfg : paths_config_t) (xboing_scores : Option (List Char)) :
    paths_status_t × paths_config_t :=
  if xboing_scores ≠ none ∧ xboing_scores ≠ some [] then
    let r := safe_copy cfg.xboing_score_file PATHS_MAX_PATH xboing_scores
    let cfg : paths_config_t := { cfg with xboing_score_file := r.2 }
    if r.1 ≠ 0 then (paths_status_t.PATHS_TRUNCATED, cfg)
    else (paths_status_t.PATHS_OK, cfg)
  else (paths_status_t.PATHS_OK, cfg)

/-- The part of `paths_init_explicit` from the `XBOING_SOUND_DIR` override
on. -/
def init_sound_dir (cfg : paths_config_t) (xboing_sounds xboing_scores : Option (List Char)) :
    paths_status_t × paths_config_t :=
  if xboing_sounds ≠ none ∧ xboing_sounds ≠ some [] then
    let r := safe_copy cfg.xboing_sound_dir PATHS_MAX_PATH xboing_sounds
    let cfg : paths_config_t := { cfg with xboing_sound_dir := r.2 }
    if r.1 ≠ 0 then (paths_status_t.PATHS_TRUNCATED, cfg)
    else
      let cfg : paths_config_t :=
        { cfg with xboing_sound_dir := strip_trailing_slash cfg.xboing_sound_dir }
      init_score_file cfg xboing_scores
  else init_score_file cfg xboing_scores

/-- The part of `paths_init_explicit` from the `XBOING_LEVELS_DIR` override
on. -/
def init_levels_dir (cfg : paths_config_t)
    (xboing_levels xboing_sounds xboing_scores : Option (List Char)) :
    paths_status_t × paths_config_t :=
  if xboing_levels ≠ none ∧ xboing_levels ≠ some [] then
    let r := safe_copy cfg.xboing_levels_dir PATHS_MAX_PATH xboing_levels
    let cfg : paths_config_t := { cfg with xboing_levels_dir := r.2 }
    if r.1 ≠ 0 then (paths_status_t.PATHS_TRUNCATED, cfg)
    else
      let cfg : paths_config_t :=
        { cfg with xboing_levels_dir := strip_trailing_slash cfg.xboing_levels_dir }
      init_sound_dir cfg xboing_sounds xboing_scores
  else init_sound_dir cfg xboing_sounds xboing_scores

/-- The part of `paths_init_explicit` from the `XDG_DATA_DIRS` step on. -/
def init_data_dirs (cfg : paths_config_t)
    (xdg_data_dirs xboing_levels xboing_sounds xboing_scores : Option (List Char)) :
    paths_status_t × paths_config_t :=
  let cfg : paths_config_t :=
    if xdg_data_dirs ≠ none ∧ xdg_data_dirs ≠ some [] then
      parse_data_dirs cfg xdg_data_dirs
    else
      parse_data_dirs cfg (some "/usr/local/share:/usr/share".toList)
  init_levels_dir cfg xboing_levels xboing_sounds xboing_scores

/-- The part of `paths_init_explicit` from the `XDG_CONFIG_HOME` step on. -/
def init_config_home (cfg : paths_config_t)
    (xdg_config_home xdg_data_dirs xboing_levels xboing_sounds xboing_scores :
      Option (List Char)) : paths_status_t × paths_config_t :=
  let r : Int × List Char :=
    if xdg_config_home ≠ none ∧ xdg_config_home ≠ some [] then
      safe_copy cfg.xdg_config_home PATHS_MAX_PATH xdg_config_home
    else
      let n := snprintf PATHS_MAX_PATH (cfg.home ++ "/.config".toList)
      (if n.1 < 0 ∨ n.1 ≥ (PATHS_MAX_PATH : Int) then -1 else 0, n.2)
  let cfg : paths_config_t := { cfg with xdg_config_home := r.2 }
  if r.1 ≠ 0 then (paths_status_t.PATHS_TRUNCATED, cfg)
  else
    let cfg : paths_config_t :=
      { cfg with xdg_config_home := strip_trailing_slash cfg.xdg_config_home }
    init_data_dirs cfg xdg_data_dirs xboing_levels xboing_sounds xboing_scores

/-- The part of `paths_init_explicit` from the `XDG_DATA_HOME` step on. -/
def init_data_home (cfg : paths_config_t)
    (xdg_data_home xdg_config_home xdg_data_dirs xboing_levels xboing_sounds xboing_scores :
      Option (List Char)) : paths_status_t × paths_config_t :=
  let r : Int × List Char :=
    if xdg_data_home ≠ none ∧ xdg_data_home ≠ some [] then
      safe_copy cfg.xdg_data_home PATHS_MAX_PATH xdg_data_home
    else
      let n := snprintf PATHS_MAX_PATH (cfg.home ++ "/.local/share".toList)
      (if n.1 < 0 ∨ n.1 ≥ (PATHS_MAX_PATH : Int) then -1 else 0, n.2)
  let cfg : paths_config_t := { cfg with xdg_data_home := r.2 }
  if r.1 ≠ 0 then (paths_status_t.PATHS_TRUNCATED, cfg)
  else
    let cfg : paths_config_t :=
      { cfg with xdg_data_home := strip_trailing_slash cfg.xdg_data_home }
    init_config_home cfg xdg_config_home xdg_data_dirs xboing_levels xboing_sounds
      xboing_scores

/-- The function `paths_init_explicit(cfg, home, xdg_data_home,
xdg_config_home, xdg_data_dirs, xboing_levels, xboing_sounds, xboing_scores)`:
the result is the pair (return value, configuration left in `*cfg`). The body
of the source is cut into the steps `init_data_home`, `init_config_home`,
`init_data_dirs`, `init_levels_dir`, `init_sound_dir` and `init_score_file`,
each of which runs the rest of the function. -/
def paths_init_explicit
    (home xdg_data_home xdg_config_home xdg_data_dirs xboing_levels xboing_sounds
      xboing_scores : Option (List Char)) : paths_status_t × paths_config_t :=
  let cfg : paths_config_t := paths_config_zero
  if home = none ∨ home = some [] then (paths_status_t.PATHS_NO_HOME, cfg)
  else
    let r := safe_copy cfg.home PATHS_MAX_PATH home
    let cfg : paths_config_t := { cfg with home := r.2 }
    if r.1 ≠ 0 then (paths_status_t.PATHS_TRUNCATED, cfg)
    else
      let cfg : paths_config_t := { cfg with home := strip_trailing_slash cfg.home }
      init_data_home cfg xdg_data_home xdg_config_home xdg_data_dirs xboing_levels
        xboing_sounds xboing_scores

/-- The non-empty segments of a colon-separated string, in order, as the
specification speaks of them. -/
def data_dir_segments (d : List Char) : List (List Char) :=
  (d.splitOn ':').filter (fun seg => seg ≠ [])

/-! Further views of the collision resolver. -/

/-- The normalising length `plen` of `ball_math_collide`:
`sqrt(SQR(px) + SQR(py))`, with `py` computed from `ball1->ballx` as in the
source. -/
def collide_plen {F : Type} [LinearOrderedField F] (sqrt : F → F)
    (ball1 ball2 : BALL F) : F :=
  let px : F := ((ball1.ballx - ball2.ballx : Int) : F)
  let py : F := ((ball1.ballx - ball2.bally : Int) : F)
  sqrt (SQR px + SQR py)

/-- The divisors of `ball_math_collide`, in the order of the source: `plen` in
`px /= plen` and in `py /= plen`, `ball2->mass` in `massrate`, and
`1.0f + massrate` in `k`. -/
def collide_divisors {F : Type} [LinearOrderedField F] (sqrt : F → F)
    (ball1 ball2 : BALL F) : List F :=
  let plen : F := collide_plen sqrt ball1 ball2
  let massrate : F := ball1.mass / ball2.mass
  [plen, plen, ball2.mass, 1 + massrate]

/-- Total kinetic energy of two balls as the specification computes it from
the integer velocities: `mass1*(dx1^2 + dy1^2) + mass2*(dx2^2 + dy2^2)`. -/
def kinetic_energy {F : Type} [LinearOrderedField F] (b1 b2 : BALL F) : F :=
  b1.mass * ((b1.dx : F) ^ 2 + (b1.dy : F) ^ 2)
    + b2.mass * ((b2.dx : F) ^ 2 + (b2.dy : F) ^ 2)

/-! Path resolution (`paths.c`): assets and writable state. -/

/-- The helper `build_path(buf, bufsize, base, a, b, c)`: the path
`base/a/b/c` without the segments that are `NULL`, written by `snprintf`; the
result is the pair (return value, new contents of `buf`). With `bufsize` 0
nothing is written. -/
def build_path (buf : List Char) (bufsize : Nat) (base : List Char)
    (a b c : Option (List Char)) : paths_status_t × List Char :=
  let out : List Char :=
    base ++ (if a ≠ none then "/".toList else []) ++ (a.getD [])
      ++ (if b ≠ none then "/".toList else []) ++ (b.getD [])
      ++ (if c ≠ none then "/".toList else []) ++ (c.getD [])
  let n := snprintf bufsize out
  let buf : List Char := if bufsize = 0 then buf else n.2
  if n.1 < 0 ∨ n.1 ≥ (bufsize : Int) then (paths_status_t.PATHS_TRUNCATED, buf)
  else (paths_status_t.PATHS_OK, buf)

/-- Step 4 of `resolve_asset`, the fallback to the current directory, and the
final `return PATHS_NOT_FOUND`. The function `file_exists` of the source, which
asks the file system, is the parameter `file_exists`. -/
def resolve_asset_cwd (file_exists : List Char → Bool) (subdir filename : List Char)
    (buf : List Char) (bufsize : Nat) : paths_status_t × List Char :=
  let r := build_path buf bufsize subdir (some filename) none none
  if r.1 = paths_status_t.PATHS_TRUNCATED then (paths_status_t.PATHS_TRUNCATED, r.2)
  else if file_exists r.2 then (paths_status_t.PATHS_OK, r.2)
  else (paths_status_t.PATHS_NOT_FOUND, r.2)

/-- Step 3 of `resolve_asset`, the candidate under `XDG_DATA_HOME`, followed by
the rest of the function. -/
def resolve_asset_data_home (file_exists : List Char → Bool) (cfg : paths_config_t)
    (subdir filename : List Char) (buf : List Char) (bufsize : Nat) :
    paths_status_t × List Char :=
  let r := build_path buf bufsize cfg.xdg_data_home (some "xboing".toList) (some subdir)
    (some filename)
  if r.1 = paths_status_t.PATHS_TRUNCATED then (paths_status_t.PATHS_TRUNCATED, r.2)
  else if file_exists r.2 then (paths_status_t.PATHS_OK, r.2)
  else resolve_asset_cwd file_exists subdir filename r.2 bufsize

/-- Step 2 of `resolve_asset`, the `for` loop over the `XDG_DATA_DIRS` entries
from index `i` on, followed by the rest of the function; `fuel` bounds the
number of iterations. -/
def resolve_asset_data_dirs (file_exists : List Char → Bool) (cfg : paths_config_t)
    (subdir filename : List Char) (bufsize : Nat) :
    Nat → Nat → List Char → paths_status_t × List Char
  | 0, _, buf => resolve_asset_data_home file_exists cfg subdir filename buf bufsize
  | fuel + 1, i, buf =>
    if i < cfg.xdg_data_dirs_count then
      let r := build_path buf bufsize (cfg.xdg_data_dirs.getD i []) (some "xboing".toList)
        (some subdir) (some filename)
      if r.1 = paths_status_t.PATHS_TRUNCATED then (paths_status_t.PATHS_TRUNCATED, r.2)
      else if file_exists r.2 then (paths_status_t.PATHS_OK, r.2)
      else resolve_asset_data_dirs file_exists cfg subdir filename bufsize fuel (i + 1) r.2
    else resolve_asset_data_home file_exists cfg subdir filename buf bufsize

/-- The helper `resolve_asset(cfg, subdir, filename, legacy_dir, buf, bufsize)`:
the result is the pair (return value, contents of `buf`). The loop gets as
many iterations as there are entries. -/
def resolve_asset (file_exists : List Char → Bool) (cfg : paths_config_t)
    (subdir : List Char) (filename : Option (List Char)) (legacy_dir : List Char)
    (buf : List Char) (bufsize : Nat) : paths_status_t × List Char :=
  match filename with
  | none => (paths_status_t.PATHS_NOT_FOUND, buf)
  | some f =>
    if f = [] then (paths_status_t.PATHS_NOT_FOUND, buf)
    else if legacy_dir ≠ [] then
      let r := build_path buf bufsize legacy_dir (some f) none none
      if r.1 = paths_status_t.PATHS_TRUNCATED then (paths_status_t.PATHS_TRUNCATED, r.2)
      else if file_exists r.2 then (paths_status_t.PATHS_OK, r.2)
      else resolve_asset_data_dirs file_exists cfg subdir f bufsize
        cfg.xdg_data_dirs_count 0 r.2
    else resolve_asset_data_dirs file_exists cfg subdir f bufsize
      cfg.xdg_data_dirs_count 0 buf

/-- The function `paths_level_file(cfg, filename, buf, bufsize)`. -/
def paths_level_file (file_exists : List Char → Bool) (cfg : paths_config_t)
    (filename : Option (List Char)) (buf : List Char) (bufsize : Nat) :
    paths_status_t × List Char :=
  resolve_asset file_exists cfg "levels".toList filename cfg.xboing_levels_dir buf bufsize

/-- The candidate paths of a level file in the order in which the
specification lists them: `<XBOING_LEVELS_DIR>/<filename>` when the override
is set, `<dir>/xboing/levels/<filename>` for each stored data directory,
`<XDG_DATA_HOME>/xboing/levels/<filename>`, and `levels/<filename>`. -/
def level_candidates (cfg : paths_config_t) (filename : List Char) : List (List Char) :=
  (if cfg.xboing_levels_dir ≠ [] then [cfg.xboing_levels_dir ++ "/".toList ++ filename]
    else [])
  ++ (cfg.xdg_data_dirs.take cfg.xdg_data_dirs_count).map
      (fun dir => dir ++ "/xboing/levels/".toList ++ filename)
  ++ [cfg.xdg_data_home ++ "/xboing/levels/".toList ++ filename,
      "levels/".toList ++ filename]

/-- The helper `xdg_user_path(cfg, leaf, buf, bufsize)`. -/
def xdg_user_path (cfg : paths_config_t) (leaf : List Char) (buf : List Char)
    (bufsize : Nat) : paths_status_t × List Char :=
  build_path buf bufsize cfg.xdg_data_home (some "xboing".toList) (some leaf) none

/-- The function `paths_score_file_global(cfg, buf, bufsize)`, with the file
system as the parameter `file_exists`. -/
def paths_score_file_global (file_exists : List Char → Bool) (cfg : paths_config_t)
    (buf : List Char) (bufsize : Nat) : paths_status_t × List Char :=
  if cfg.xboing_score_file ≠ [] then
    let r := safe_copy buf bufsize (some cfg.xboing_score_file)
    if r.1 ≠ 0 then (paths_status_t.PATHS_TRUNCATED, r.2)
    else (paths_status_t.PATHS_OK, r.2)
  else
    let r := build_path buf bufsize cfg.home (some ".xboing.scr".toList) none none
    if r.1 = paths_status_t.PATHS_TRUNCATED then (paths_status_t.PATHS_TRUNCATED, r.2)
    else if file_exists r.2 then (paths_status_t.PATHS_OK, r.2)
    else xdg_user_path cfg "scores.dat".toList r.2 bufsize

/-- The function `paths_score_file_personal(cfg, buf, bufsize)`. -/
def paths_score_file_personal (file_exists : List Char → Bool) (cfg : paths_config_t)
    (buf : List Char) (bufsize : Nat) : paths_status_t × List Char :=
  let r := build_path buf bufsize cfg.home (some ".xboing-scores".toList) none none
  if r.1 = paths_status_t.PATHS_TRUNCATED then (paths_status_t.PATHS_TRUNCATED, r.2)
  else if file_exists r.2 then (paths_status_t.PATHS_OK, r.2)
  else xdg_user_path cfg "personal-scores.dat".toList r.2 bufsize

/-- The function `paths_save_info(cfg, buf, bufsize)`. -/
def paths_save_info (file_exists : List Char → Bool) (cfg : paths_config_t)
    (buf : List Char) (bufsize : Nat) : paths_status_t × List Char :=
  let r := build_path buf bufsize cfg.home (some ".xboing-savinf".toList) none none
  if r.1 = paths_status_t.PATHS_TRUNCATED then (paths_status_t.PATHS_TRUNCATED, r.2)
  else if file_exists r.2 then (paths_status_t.PATHS_OK, r.2)
  else xdg_user_path cfg "save-info.dat".toList r.2 bufsize

/-- The function `paths_save_level(cfg, buf, bufsize)`. -/
def paths_save_level (file_exists : List Char → Bool) (cfg : paths_config_t)
    (buf : List Char) (bufsize : Nat) : paths_status_t × List Char :=
  let r := build_path buf bufsize cfg.home (some ".xboing-savlev".toList) none none
  if r.1 = paths_status_t.PATHS_TRUNCATED then (paths_status_t.PATHS_TRUNCATED, r.2)
  else if file_exists r.2 then (paths_status_t.PATHS_OK, r.2)
  else xdg_user_path cfg "save-level.dat".toList r.2 bufsize


/-! Properties of the collision predictor. -/

/-- C1. The predictor is order-independent: for every pair of balls and every
`machine_eps`, swapping the two balls gives the same return flag and the same
value written to `*time` (for every square-root function). -/
theorem will_collide_symm {F : Type} [LinearOrderedField F] (sqrt : F → F)
    (b1 b2 : BALL F) (machine_eps : F) :
    ball_math_will_collide sqrt b1 b2 machine_eps
      = ball_math_will_collide sqrt b2 b1 machine_eps := by
  have hx : ((b2.ballx - b1.ballx : Int) : F) = -((b1.ballx - b2.ballx : Int) : F) := by
    push_cast; ring
  have hy : ((b2.bally - b1.bally : Int) : F) = -((b1.bally - b2.bally : Int) : F) := by
    push_cast; ring
  have hvx : ((b2.dx - b1.dx : Int) : F) = -((b1.dx - b2.dx : Int) : F) := by
    push_cast; ring
  have hvy : ((b2.dy - b1.dy : Int) : F) = -((b1.dy - b2.dy : Int) : F) := by
    push_cast; ring
  simp only [ball_math_will_collide, SQR, hx, hy, hvx, hvy, neg_mul_neg,
    add_comm b2.radius b1.radius]

/-- The square root of 40000 is 200. -/
lemma sqrt_40000 : Real.sqrt 40000 = 200 := by
  rw [show (40000 : ℝ) = 200 ^ 2 by norm_num]
  exact Real.sqrt_sq (by norm_num)

/-- The head-on fixture of `test_collide_head_on` (balls at (0,100) and
(30,100), radius 10, velocities (5,0) and (-5,0)) with `machine_eps = 0`:
the predictor returns 1 and writes the time 1. -/
lemma will_collide_head_on_eval :
    ball_math_will_collide Real.sqrt (make_ball 0 100 5 0 (10 : ℝ) 1)
      (make_ball 30 100 (-5) 0 (10 : ℝ) 1) 0 = (1, 1) := by
  simp only [ball_math_will_collide, make_ball, SQR, MIN]
  norm_num
  simp only [sqrt_40000]
  norm_num

/-- C2. Whenever the predictor returns 1, the time it writes satisfies
`0 ≤ t ≤ 1`, for every pair of balls and every `machine_eps` (and every
square-root function). -/
theorem will_collide_time_bounds {F : Type} [LinearOrderedField F] (sqrt : F → F)
    (b1 b2 : BALL F) (machine_eps : F)
    (h : (ball_math_will_collide sqrt b1 b2 machine_eps).1 = 1) :
    0 ≤ (ball_math_will_collide sqrt b1 b2 machine_eps).2
      ∧ (ball_math_will_collide sqrt b1 b2 machine_eps).2 ≤ 1 := by
  unfold ball_math_will_collide at h ⊢
  simp only at h ⊢
  split_ifs at h ⊢ with h1 h2
  · exact h2
  · simp at h
  · simp at h

/-- Witness for C2 on the head-on fixture. -/
theorem will_collide_time_bounds_witness :
    (ball_math_will_collide Real.sqrt (make_ball 0 100 5 0 (10 : ℝ) 1)
        (make_ball 30 100 (-5) 0 (10 : ℝ) 1) 0).1 = 1
    ∧ 0 ≤ (ball_math_will_collide Real.sqrt (make_ball 0 100 5 0 (10 : ℝ) 1)
        (make_ball 30 100 (-5) 0 (10 : ℝ) 1) 0).2
    ∧ (ball_math_will_collide Real.sqrt (make_ball 0 100 5 0 (10 : ℝ) 1)
        (make_ball 30 100 (-5) 0 (10 : ℝ) 1) 0).2 ≤ 1 :=
  ⟨by rw [will_collide_head_on_eval],
   will_collide_time_bounds Real.sqrt _ _ 0 (by rw [will_collide_head_on_eval])⟩

/-- C3. For every `machine_eps ≥ 0` and any positions and radii, two balls with
identical velocity vectors are never reported as colliding: the predictor
returns 0 (and writes the time 0). -/
theorem will_collide_same_velocity {F : Type} [LinearOrderedField F] (sqrt : F → F)
    (b1 b2 : BALL F) (machine_eps : F) (heps : 0 ≤ machine_eps)
    (hdx : b1.dx = b2.dx) (hdy : b1.dy = b2.dy) :
    ball_math_will_collide sqrt b1 b2 machine_eps = (0, 0) := by
  have hv : ¬ (0 : F) > machine_eps := not_lt.mpr heps
  simp [ball_math_will_collide, SQR, hdx, hdy, hv]

/-- Witness for C3 on the fixture of `test_no_collide_stationary`: two
stationary, overlapping balls. -/
theorem will_collide_same_velocity_witness :
    ball_math_will_collide Real.sqrt (make_ball 50 100 0 0 (10 : ℝ) 1)
      (make_ball 55 100 0 0 (10 : ℝ) 1) 0 = (0, 0) :=
  will_collide_same_velocity Real.sqrt _ _ 0 (le_refl 0) rfl rfl

/-- With a non-negative second summand, `MIN (x - y) (x + y)` is `x - y`. -/
lemma MIN_sub_add {F : Type} [LinearOrderedField F] (x y : F) (hy : 0 ≤ y) :
    MIN (x - y) (x + y) = x - y := by
  unfold MIN
  split_ifs with h
  · rfl
  · have : x + y ≤ x - y := not_lt.mp h
    linarith

/-- Over the reals and for `machine_eps ≥ 0`, the code of the predictor
computes what `will_collide_spec` describes. -/
lemma will_collide_eq_spec (b1 b2 : BALL ℝ) (machine_eps : ℝ) (heps : 0 ≤ machine_eps) :
    ball_math_will_collide Real.sqrt b1 b2 machine_eps
      = will_collide_spec Real.sqrt b1 b2 machine_eps := by
  simp only [ball_math_will_collide, will_collide_spec, SQR]
  push_cast
  simp only [← pow_two]
  set px : ℝ := (b1.ballx : ℝ) - (b2.ballx : ℝ)
  set py : ℝ := (b1.bally : ℝ) - (b2.bally : ℝ)
  set vx : ℝ := (b1.dx : ℝ) - (b2.dx : ℝ)
  set vy : ℝ := (b1.dy : ℝ) - (b2.dy : ℝ)
  set v2 : ℝ := vx ^ 2 + vy ^ 2
  set D : ℝ := v2 * (b1.radius + b2.radius) ^ 2 - (vx * py - vy * px) ^ 2
  by_cases hg : D ≥ 0 ∧ v2 > machine_eps
  · obtain ⟨hD, hv⟩ := hg
    have hv2 : 0 < v2 := lt_of_le_of_lt heps hv
    have hq : 0 ≤ Real.sqrt D / v2 := div_nonneg (Real.sqrt_nonneg D) hv2.le
    have ht : -(px * vx + py * vy) / v2 - Real.sqrt D / v2
        = (-(px * vx + py * vy) - Real.sqrt D) / v2 := by ring
    rw [if_pos ⟨hD, hv⟩, MIN_sub_add _ _ hq, ht]
    by_cases hr : (-(px * vx + py * vy) - Real.sqrt D) / v2 ≥ 0
        ∧ (-(px * vx + py * vy) - Real.sqrt D) / v2 ≤ 1
    · rw [if_pos hr, if_pos ⟨hD, hv, hr.1, hr.2⟩]
    · rw [if_neg hr, if_neg (fun h => hr ⟨h.2.2.1, h.2.2.2⟩)]
  · rw [if_neg hg, if_neg (fun h => hg ⟨h.1, h.2.1⟩)]

/-- A value within half a unit of the integer `m` rounds to `m`. -/
lemma round_half_even_eq (x : ℝ) (m : Int) (h1 : (m : ℝ) - 1 / 2 < x)
    (h2 : x < (m : ℝ) + 1 / 2) : round_half_even x = m := by
  unfold round_half_even
  have hf1 : m - 1 ≤ Int.floor x := Int.le_floor.mpr (by push_cast; linarith)
  have hf2 : Int.floor x < m + 1 := Int.floor_lt.mpr (by push_cast; linarith)
  have hfl := Int.floor_le x
  have hlt := Int.lt_floor_add_one x
  rcases (by omega : Int.floor x = m - 1 ∨ Int.floor x = m) with h | h
  · rw [h] at hfl hlt ⊢
    push_cast at hfl hlt ⊢
    rw [if_neg (by linarith), if_pos (by linarith)]
    ring
  · rw [h] at hfl hlt ⊢
    rw [if_pos (by linarith)]

/-- A value half-way between `m` and `m + 1` rounds to the even one of them. -/
lemma round_half_even_tie (x : ℝ) (m : Int) (h : x = (m : ℝ) + 1 / 2) :
    round_half_even x = if m % 2 = 0 then m else m + 1 := by
  have hf : Int.floor x = m := by
    rw [Int.floor_eq_iff]
    constructor <;> linarith
  unfold round_half_even
  rw [hf, h]
  rw [if_neg (by linarith), if_neg (by linarith)]

/-- The binary logarithm of a real number in `[2^e, 2^(e+1))` is `e`. -/
lemma log_two_eq (x : ℝ) (e : Int) (h1 : (2 : ℝ) ^ e ≤ x) (h2 : x < (2 : ℝ) ^ (e + 1)) :
    Int.log 2 x = e := by
  have hx : 0 < x := lt_of_lt_of_le (zpow_pos (by norm_num) e) h1
  have a : e ≤ Int.log 2 x :=
    (Int.zpow_le_iff_le_log (by norm_num) hx).mp (by exact_mod_cast h1)
  have b : Int.log 2 x < e + 1 :=
    (Int.lt_zpow_iff_log_lt (by norm_num) hx).mp (by exact_mod_cast h2)
  omega

/-- Rounding to `p` bits of a value whose magnitude lies in
`[2^(k+p-1), 2^(k+p))` and which is within half a unit of `m` after scaling by
`2^k`: the result is `m * 2^k`. -/
lemma round_to_bits_eq (p : Nat) (x : ℝ) (k m : Int)
    (h1 : (2 : ℝ) ^ (k + ((p : Int) - 1)) ≤ |x|)
    (h2 : |x| < (2 : ℝ) ^ (k + ((p : Int) - 1) + 1))
    (hlo : (m : ℝ) - 1 / 2 < x / 2 ^ k) (hhi : x / 2 ^ k < (m : ℝ) + 1 / 2) :
    round_to_bits p x = (m : ℝ) * 2 ^ k := by
  have hx : x ≠ 0 := by
    intro h
    rw [h, abs_zero] at h1
    exact absurd h1 (not_le.mpr (zpow_pos (by norm_num) _))
  unfold round_to_bits
  rw [if_neg hx, log_two_eq |x| _ h1 h2]
  have hk : k + ((p : Int) - 1) - ((p : Int) - 1) = k := by ring
  rw [hk, round_half_even_eq _ m hlo hhi]

/-- Rounding to `p` bits of a value half-way between two neighbours: the
significand becomes the even one of `m` and `m + 1`. -/
lemma round_to_bits_tie (p : Nat) (x : ℝ) (k m : Int)
    (h1 : (2 : ℝ) ^ (k + ((p : Int) - 1)) ≤ |x|)
    (h2 : |x| < (2 : ℝ) ^ (k + ((p : Int) - 1) + 1))
    (h : x / 2 ^ k = (m : ℝ) + 1 / 2) :
    round_to_bits p x = ((if m % 2 = 0 then m else m + 1 : Int) : ℝ) * 2 ^ k := by
  have hx : x ≠ 0 := by
    intro h
    rw [h, abs_zero] at h1
    exact absurd h1 (not_le.mpr (zpow_pos (by norm_num) _))
  unfold round_to_bits
  rw [if_neg hx, log_two_eq |x| _ h1 h2]
  have hk : k + ((p : Int) - 1) - ((p : Int) - 1) = k := by ring
  rw [hk, round_half_even_tie _ m h]

/-- Zero is a `float`. -/
lemma to_float_zero : to_float (0 : ℝ) = 0 := by
  simp [to_float, round_to_bits]

/-- Without rounding, `ball_math_will_collide_rounded` is
`ball_math_will_collide`. -/
lemma will_collide_rounded_id {F : Type} [LinearOrderedField F] (sqrt : F → F)
    (b1 b2 : BALL F) (machine_eps : F) :
    ball_math_will_collide_rounded id id sqrt b1 b2 machine_eps
      = ball_math_will_collide sqrt b1 b2 machine_eps := rfl

/-- The real square root of 51984 is 228. -/
lemma sqrt_51984 : Real.sqrt 51984 = 228 := by
  rw [show (51984 : ℝ) = 228 * 228 by norm_num]
  exact Real.sqrt_mul_self (by norm_num)

/-- The real square root of 14400 is 120. -/
lemma sqrt_14400 : Real.sqrt 14400 = 120 := by
  rw [show (14400 : ℝ) = 120 * 120 by norm_num]
  exact Real.sqrt_mul_self (by norm_num)

/-- The predictor in `float` arithmetic on balls of radius 10 at (47,48) with
velocity (-8,-10) and at (58,17) with velocity (-7,5), `machine_eps = 0`: the
quotients `tmp1 = 454/226` and `tmp2 = 228/226` round to
`4212863/2097152` and `8462843/8388608`, their difference rounds to
`1 + 2^-23`, above 1, and the function returns 0. -/
lemma will_collide_rounded_end_of_step :
    ball_math_will_collide_rounded to_float to_double Real.sqrt
        (make_ball 47 48 (-8) (-10) (10 : ℝ) 1) (make_ball 58 17 (-7) 5 (10 : ℝ) 1) 0
      = (0, 0) := by
  have f0 : to_float (-11 : ℝ) = -11 := by
    rw [to_float, round_to_bits_eq 24 (-11 : ℝ) (-20) (-11534336)
      (by rw [abs_of_neg (by norm_num)]; norm_num) (by rw [abs_of_neg (by norm_num)]; norm_num)
      (by norm_num) (by norm_num)]
    norm_num
  have f1 : to_float (31 : ℝ) = 31 := by
    rw [to_float, round_to_bits_eq 24 (31 : ℝ) (-19) (16252928)
      (by rw [abs_of_pos (by norm_num)]; norm_num) (by rw [abs_of_pos (by norm_num)]; norm_num)
      (by norm_num) (by norm_num)]
    norm_num
  have f2 : to_float (-1 : ℝ) = -1 := by
    rw [to_float, round_to_bits_eq 24 (-1 : ℝ) (-23) (-8388608)
      (by rw [abs_of_neg (by norm_num)]; norm_num) (by rw [abs_of_neg (by norm_num)]; norm_num)
      (by norm_num) (by norm_num)]
    norm_num
  have f3 : to_float (-15 : ℝ) = -15 := by
    rw [to_float, round_to_bits_eq 24 (-15 : ℝ) (-20) (-15728640)
      (by rw [abs_of_neg (by norm_num)]; norm_num) (by rw [abs_of_neg (by norm_num)]; norm_num)
      (by norm_num) (by norm_num)]
    norm_num
  have f4 : to_float (1 : ℝ) = 1 := by
    rw [to_float, round_to_bits_eq 24 (1 : ℝ) (-23) (8388608)
      (by rw [abs_of_pos (by norm_num)]; norm_num) (by rw [abs_of_pos (by norm_num)]; norm_num)
      (by norm_num) (by norm_num)]
    norm_num
  have f5 : to_float (225 : ℝ) = 225 := by
    rw [to_float, round_to_bits_eq 24 (225 : ℝ) (-16) (14745600)
      (by rw [abs_of_pos (by norm_num)]; norm_num) (by rw [abs_of_pos (by norm_num)]; norm_num)
      (by norm_num) (by norm_num)]
    norm_num
  have f6 : to_float (226 : ℝ) = 226 := by
    rw [to_float, round_to_bits_eq 24 (226 : ℝ) (-16) (14811136)
      (by rw [abs_of_pos (by norm_num)]; norm_num) (by rw [abs_of_pos (by norm_num)]; norm_num)
      (by norm_num) (by norm_num)]
    norm_num
  have f7 : to_float (20 : ℝ) = 20 := by
    rw [to_float, round_to_bits_eq 24 (20 : ℝ) (-19) (10485760)
      (by rw [abs_of_pos (by norm_num)]; norm_num) (by rw [abs_of_pos (by norm_num)]; norm_num)
      (by norm_num) (by norm_num)]
    norm_num
  have f8 : to_float (400 : ℝ) = 400 := by
    rw [to_float, round_to_bits_eq 24 (400 : ℝ) (-15) (13107200)
      (by rw [abs_of_pos (by norm_num)]; norm_num) (by rw [abs_of_pos (by norm_num)]; norm_num)
      (by norm_num) (by norm_num)]
    norm_num
  have f9 : to_float (90400 : ℝ) = 90400 := by
    rw [to_float, round_to_bits_eq 24 (90400 : ℝ) (-7) (11571200)
      (by rw [abs_of_pos (by norm_num)]; norm_num) (by rw [abs_of_pos (by norm_num)]; norm_num)
      (by norm_num) (by norm_num)]
    norm_num
  have f10 : to_float (-31 : ℝ) = -31 := by
    rw [to_float, round_to_bits_eq 24 (-31 : ℝ) (-19) (-16252928)
      (by rw [abs_of_neg (by norm_num)]; norm_num) (by rw [abs_of_neg (by norm_num)]; norm_num)
      (by norm_num) (by norm_num)]
    norm_num
  have f11 : to_float (165 : ℝ) = 165 := by
    rw [to_float, round_to_bits_eq 24 (165 : ℝ) (-16) (10813440)
      (by rw [abs_of_pos (by norm_num)]; norm_num) (by rw [abs_of_pos (by norm_num)]; norm_num)
      (by norm_num) (by norm_num)]
    norm_num
  have f12 : to_float (-196 : ℝ) = -196 := by
    rw [to_float, round_to_bits_eq 24 (-196 : ℝ) (-16) (-12845056)
      (by rw [abs_of_neg (by norm_num)]; norm_num) (by rw [abs_of_neg (by norm_num)]; norm_num)
      (by norm_num) (by norm_num)]
    norm_num
  have f13 : to_float (38416 : ℝ) = 38416 := by
    rw [to_float, round_to_bits_eq 24 (38416 : ℝ) (-8) (9834496)
      (by rw [abs_of_pos (by norm_num)]; norm_num) (by rw [abs_of_pos (by norm_num)]; norm_num)
      (by norm_num) (by norm_num)]
    norm_num
  have f14 : to_float (51984 : ℝ) = 51984 := by
    rw [to_float, round_to_bits_eq 24 (51984 : ℝ) (-8) (13307904)
      (by rw [abs_of_pos (by norm_num)]; norm_num) (by rw [abs_of_pos (by norm_num)]; norm_num)
      (by norm_num) (by norm_num)]
    norm_num
  have f15 : to_double (51984 : ℝ) = 51984 := by
    rw [to_double, round_to_bits_eq 53 (51984 : ℝ) (-37) (7144626557288448)
      (by rw [abs_of_pos (by norm_num)]; norm_num) (by rw [abs_of_pos (by norm_num)]; norm_num)
      (by norm_num) (by norm_num)]
    norm_num
  have f16 : to_double (228 : ℝ) = 228 := by
    rw [to_double, round_to_bits_eq 53 (228 : ℝ) (-45) (8022036836253696)
      (by rw [abs_of_pos (by norm_num)]; norm_num) (by rw [abs_of_pos (by norm_num)]; norm_num)
      (by norm_num) (by norm_num)]
    norm_num
  have f17 : to_double (226 : ℝ) = 226 := by
    rw [to_double, round_to_bits_eq 53 (226 : ℝ) (-45) (7951668092076032)
      (by rw [abs_of_pos (by norm_num)]; norm_num) (by rw [abs_of_pos (by norm_num)]; norm_num)
      (by norm_num) (by norm_num)]
    norm_num
  have f18 : to_double (114 / 113 : ℝ) = 4543454491329527 / 4503599627370496 := by
    rw [to_double, round_to_bits_eq 53 (114 / 113 : ℝ) (-52) (4543454491329527)
      (by rw [abs_of_pos (by norm_num)]; norm_num) (by rw [abs_of_pos (by norm_num)]; norm_num)
      (by norm_num) (by norm_num)]
    norm_num
  have f19 : to_float (4543454491329527 / 4503599627370496 : ℝ) = 8462843 / 8388608 := by
    rw [to_float, round_to_bits_eq 24 (4543454491329527 / 4503599627370496 : ℝ) (-23) (8462843)
      (by rw [abs_of_pos (by norm_num)]; norm_num) (by rw [abs_of_pos (by norm_num)]; norm_num)
      (by norm_num) (by norm_num)]
    norm_num
  have f20 : to_float (11 : ℝ) = 11 := by
    rw [to_float, round_to_bits_eq 24 (11 : ℝ) (-20) (11534336)
      (by rw [abs_of_pos (by norm_num)]; norm_num) (by rw [abs_of_pos (by norm_num)]; norm_num)
      (by norm_num) (by norm_num)]
    norm_num
  have f21 : to_float (-465 : ℝ) = -465 := by
    rw [to_float, round_to_bits_eq 24 (-465 : ℝ) (-15) (-15237120)
      (by rw [abs_of_neg (by norm_num)]; norm_num) (by rw [abs_of_neg (by norm_num)]; norm_num)
      (by norm_num) (by norm_num)]
    norm_num
  have f22 : to_float (-454 : ℝ) = -454 := by
    rw [to_float, round_to_bits_eq 24 (-454 : ℝ) (-15) (-14876672)
      (by rw [abs_of_neg (by norm_num)]; norm_num) (by rw [abs_of_neg (by norm_num)]; norm_num)
      (by norm_num) (by norm_num)]
    norm_num
  have f23 : to_float (227 / 113 : ℝ) = 4212863 / 2097152 := by
    rw [to_float, round_to_bits_eq 24 (227 / 113 : ℝ) (-22) (8425726)
      (by rw [abs_of_pos (by norm_num)]; norm_num) (by rw [abs_of_pos (by norm_num)]; norm_num)
      (by norm_num) (by norm_num)]
    norm_num
  have f24 : to_float (8388609 / 8388608 : ℝ) = 8388609 / 8388608 := by
    rw [to_float, round_to_bits_eq 24 (8388609 / 8388608 : ℝ) (-23) (8388609)
      (by rw [abs_of_pos (by norm_num)]; norm_num) (by rw [abs_of_pos (by norm_num)]; norm_num)
      (by norm_num) (by norm_num)]
    norm_num
  have f25 : to_float (25314295 / 8388608 : ℝ) = 3164287 / 1048576 := by
    rw [to_float, round_to_bits_tie 24 (25314295 / 8388608 : ℝ) (-22) (12657147)
      (by rw [abs_of_pos (by norm_num)]; norm_num) (by rw [abs_of_pos (by norm_num)]; norm_num)
      (by norm_num)]
    norm_num
  simp only [ball_math_will_collide_rounded, make_ball, SQR, MIN]
  norm_num [f0, f1, f2, f3, f4, f5, f6, f7, f8, f9, f10, f11, f12, f13, f14, f15, f16, f17, f18,
    f19, f20, f21, f22, f23, f24, f25, sqrt_51984]

/-- The predictor in `float` arithmetic on the head-on pair of radius 10 at
(0,100) with velocity (6,0) and at (26,100) at rest, `machine_eps = 0`: the
quotients `tmp1 = 26/6` and `tmp2 = 20/6` round to `4.3333335` and
`3.3333333`, their difference rounds above 1, and the function returns 0. -/
lemma will_collide_rounded_head_on_end :
    ball_math_will_collide_rounded to_float to_double Real.sqrt
        (make_ball 0 100 6 0 (10 : ℝ) 1) (make_ball 26 100 0 0 (10 : ℝ) 1) 0
      = (0, 0) := by
  have f0 : to_float (-26 : ℝ) = -26 := by
    rw [to_float, round_to_bits_eq 24 (-26 : ℝ) (-19) (-13631488)
      (by rw [abs_of_neg (by norm_num)]; norm_num) (by rw [abs_of_neg (by norm_num)]; norm_num)
      (by norm_num) (by norm_num)]
    norm_num
  have f1 : to_float (6 : ℝ) = 6 := by
    rw [to_float, round_to_bits_eq 24 (6 : ℝ) (-21) (12582912)
      (by rw [abs_of_pos (by norm_num)]; norm_num) (by rw [abs_of_pos (by norm_num)]; norm_num)
      (by norm_num) (by norm_num)]
    norm_num
  have f2 : to_float (36 : ℝ) = 36 := by
    rw [to_float, round_to_bits_eq 24 (36 : ℝ) (-18) (9437184)
      (by rw [abs_of_pos (by norm_num)]; norm_num) (by rw [abs_of_pos (by norm_num)]; norm_num)
      (by norm_num) (by norm_num)]
    norm_num
  have f3 : to_float (20 : ℝ) = 20 := by
    rw [to_float, round_to_bits_eq 24 (20 : ℝ) (-19) (10485760)
      (by rw [abs_of_pos (by norm_num)]; norm_num) (by rw [abs_of_pos (by norm_num)]; norm_num)
      (by norm_num) (by norm_num)]
    norm_num
  have f4 : to_float (400 : ℝ) = 400 := by
    rw [to_float, round_to_bits_eq 24 (400 : ℝ) (-15) (13107200)
      (by rw [abs_of_pos (by norm_num)]; norm_num) (by rw [abs_of_pos (by norm_num)]; norm_num)
      (by norm_num) (by norm_num)]
    norm_num
  have f5 : to_float (14400 : ℝ) = 14400 := by
    rw [to_float, round_to_bits_eq 24 (14400 : ℝ) (-10) (14745600)
      (by rw [abs_of_pos (by norm_num)]; norm_num) (by rw [abs_of_pos (by norm_num)]; norm_num)
      (by norm_num) (by norm_num)]
    norm_num
  have f6 : to_double (14400 : ℝ) = 14400 := by
    rw [to_double, round_to_bits_eq 53 (14400 : ℝ) (-39) (7916483719987200)
      (by rw [abs_of_pos (by norm_num)]; norm_num) (by rw [abs_of_pos (by norm_num)]; norm_num)
      (by norm_num) (by norm_num)]
    norm_num
  have f7 : to_double (120 : ℝ) = 120 := by
    rw [to_double, round_to_bits_eq 53 (120 : ℝ) (-46) (8444249301319680)
      (by rw [abs_of_pos (by norm_num)]; norm_num) (by rw [abs_of_pos (by norm_num)]; norm_num)
      (by norm_num) (by norm_num)]
    norm_num
  have f8 : to_double (36 : ℝ) = 36 := by
    rw [to_double, round_to_bits_eq 53 (36 : ℝ) (-47) (5066549580791808)
      (by rw [abs_of_pos (by norm_num)]; norm_num) (by rw [abs_of_pos (by norm_num)]; norm_num)
      (by norm_num) (by norm_num)]
    norm_num
  have f9 : to_double (10 / 3 : ℝ) = 7505999378950827 / 2251799813685248 := by
    rw [to_double, round_to_bits_eq 53 (10 / 3 : ℝ) (-51) (7505999378950827)
      (by rw [abs_of_pos (by norm_num)]; norm_num) (by rw [abs_of_pos (by norm_num)]; norm_num)
      (by norm_num) (by norm_num)]
    norm_num
  have f10 : to_float (7505999378950827 / 2251799813685248 : ℝ) = 13981013 / 4194304 := by
    rw [to_float, round_to_bits_eq 24 (7505999378950827 / 2251799813685248 : ℝ) (-22) (13981013)
      (by rw [abs_of_pos (by norm_num)]; norm_num) (by rw [abs_of_pos (by norm_num)]; norm_num)
      (by norm_num) (by norm_num)]
    norm_num
  have f11 : to_float (-156 : ℝ) = -156 := by
    rw [to_float, round_to_bits_eq 24 (-156 : ℝ) (-16) (-10223616)
      (by rw [abs_of_neg (by norm_num)]; norm_num) (by rw [abs_of_neg (by norm_num)]; norm_num)
      (by norm_num) (by norm_num)]
    norm_num
  have f12 : to_float (13 / 3 : ℝ) = 9087659 / 2097152 := by
    rw [to_float, round_to_bits_eq 24 (13 / 3 : ℝ) (-21) (9087659)
      (by rw [abs_of_pos (by norm_num)]; norm_num) (by rw [abs_of_pos (by norm_num)]; norm_num)
      (by norm_num) (by norm_num)]
    norm_num
  have f13 : to_float (4194305 / 4194304 : ℝ) = 4194305 / 4194304 := by
    rw [to_float, round_to_bits_eq 24 (4194305 / 4194304 : ℝ) (-23) (8388610)
      (by rw [abs_of_pos (by norm_num)]; norm_num) (by rw [abs_of_pos (by norm_num)]; norm_num)
      (by norm_num) (by norm_num)]
    norm_num
  have f14 : to_float (32156331 / 4194304 : ℝ) = 8039083 / 1048576 := by
    rw [to_float, round_to_bits_tie 24 (32156331 / 4194304 : ℝ) (-21) (16078165)
      (by rw [abs_of_pos (by norm_num)]; norm_num) (by rw [abs_of_pos (by norm_num)]; norm_num)
      (by norm_num)]
    norm_num
  simp only [ball_math_will_collide_rounded, make_ball, SQR, MIN]
  norm_num [f0, f1, f2, f3, f4, f5, f6, f7, f8, f9, f10, f11, f12, f13, f14, sqrt_14400,
    to_float_zero]

/-- The predictor in `float` arithmetic on the head-on fixture of
`test_collide_head_on` with `machine_eps = 0`: every operation is exact,
`tmp1 = 3`, `tmp2 = 2`, and the function returns 1 with the time 1. -/
lemma will_collide_rounded_head_on_eval :
    ball_math_will_collide_rounded to_float to_double Real.sqrt
        (make_ball 0 100 5 0 (10 : ℝ) 1) (make_ball 30 100 (-5) 0 (10 : ℝ) 1) 0
      = (1, 1) := by
  have f0 : to_float (-30 : ℝ) = -30 := by
    rw [to_float, round_to_bits_eq 24 (-30 : ℝ) (-19) (-15728640)
      (by rw [abs_of_neg (by norm_num)]; norm_num) (by rw [abs_of_neg (by norm_num)]; norm_num)
      (by norm_num) (by norm_num)]
    norm_num
  have f1 : to_float (10 : ℝ) = 10 := by
    rw [to_float, round_to_bits_eq 24 (10 : ℝ) (-20) (10485760)
      (by rw [abs_of_pos (by norm_num)]; norm_num) (by rw [abs_of_pos (by norm_num)]; norm_num)
      (by norm_num) (by norm_num)]
    norm_num
  have f2 : to_float (100 : ℝ) = 100 := by
    rw [to_float, round_to_bits_eq 24 (100 : ℝ) (-17) (13107200)
      (by rw [abs_of_pos (by norm_num)]; norm_num) (by rw [abs_of_pos (by norm_num)]; norm_num)
      (by norm_num) (by norm_num)]
    norm_num
  have f3 : to_float (20 : ℝ) = 20 := by
    rw [to_float, round_to_bits_eq 24 (20 : ℝ) (-19) (10485760)
      (by rw [abs_of_pos (by norm_num)]; norm_num) (by rw [abs_of_pos (by norm_num)]; norm_num)
      (by norm_num) (by norm_num)]
    norm_num
  have f4 : to_float (400 : ℝ) = 400 := by
    rw [to_float, round_to_bits_eq 24 (400 : ℝ) (-15) (13107200)
      (by rw [abs_of_pos (by norm_num)]; norm_num) (by rw [abs_of_pos (by norm_num)]; norm_num)
      (by norm_num) (by norm_num)]
    norm_num
  have f5 : to_float (40000 : ℝ) = 40000 := by
    rw [to_float, round_to_bits_eq 24 (40000 : ℝ) (-8) (10240000)
      (by rw [abs_of_pos (by norm_num)]; norm_num) (by rw [abs_of_pos (by norm_num)]; norm_num)
      (by norm_num) (by norm_num)]
    norm_num
  have f6 : to_double (40000 : ℝ) = 40000 := by
    rw [to_double, round_to_bits_eq 53 (40000 : ℝ) (-37) (5497558138880000)
      (by rw [abs_of_pos (by norm_num)]; norm_num) (by rw [abs_of_pos (by norm_num)]; norm_num)
      (by norm_num) (by norm_num)]
    norm_num
  have f7 : to_double (200 : ℝ) = 200 := by
    rw [to_double, round_to_bits_eq 53 (200 : ℝ) (-45) (7036874417766400)
      (by rw [abs_of_pos (by norm_num)]; norm_num) (by rw [abs_of_pos (by norm_num)]; norm_num)
      (by norm_num) (by norm_num)]
    norm_num
  have f8 : to_double (100 : ℝ) = 100 := by
    rw [to_double, round_to_bits_eq 53 (100 : ℝ) (-46) (7036874417766400)
      (by rw [abs_of_pos (by norm_num)]; norm_num) (by rw [abs_of_pos (by norm_num)]; norm_num)
      (by norm_num) (by norm_num)]
    norm_num
  have f9 : to_double (2 : ℝ) = 2 := by
    rw [to_double, round_to_bits_eq 53 (2 : ℝ) (-51) (4503599627370496)
      (by rw [abs_of_pos (by norm_num)]; norm_num) (by rw [abs_of_pos (by norm_num)]; norm_num)
      (by norm_num) (by norm_num)]
    norm_num
  have f10 : to_float (2 : ℝ) = 2 := by
    rw [to_float, round_to_bits_eq 24 (2 : ℝ) (-22) (8388608)
      (by rw [abs_of_pos (by norm_num)]; norm_num) (by rw [abs_of_pos (by norm_num)]; norm_num)
      (by norm_num) (by norm_num)]
    norm_num
  have f11 : to_float (-300 : ℝ) = -300 := by
    rw [to_float, round_to_bits_eq 24 (-300 : ℝ) (-15) (-9830400)
      (by rw [abs_of_neg (by norm_num)]; norm_num) (by rw [abs_of_neg (by norm_num)]; norm_num)
      (by norm_num) (by norm_num)]
    norm_num
  have f12 : to_float (3 : ℝ) = 3 := by
    rw [to_float, round_to_bits_eq 24 (3 : ℝ) (-22) (12582912)
      (by rw [abs_of_pos (by norm_num)]; norm_num) (by rw [abs_of_pos (by norm_num)]; norm_num)
      (by norm_num) (by norm_num)]
    norm_num
  have f13 : to_float (1 : ℝ) = 1 := by
    rw [to_float, round_to_bits_eq 24 (1 : ℝ) (-23) (8388608)
      (by rw [abs_of_pos (by norm_num)]; norm_num) (by rw [abs_of_pos (by norm_num)]; norm_num)
      (by norm_num) (by norm_num)]
    norm_num
  have f14 : to_float (5 : ℝ) = 5 := by
    rw [to_float, round_to_bits_eq 24 (5 : ℝ) (-21) (10485760)
      (by rw [abs_of_pos (by norm_num)]; norm_num) (by rw [abs_of_pos (by norm_num)]; norm_num)
      (by norm_num) (by norm_num)]
    norm_num
  simp only [ball_math_will_collide_rounded, make_ball, SQR, MIN]
  norm_num [f0, f1, f2, f3, f4, f5, f6, f7, f8, f9, f10, f11, f12, f13, f14, sqrt_40000,
    to_float_zero]

/-- The squared relative speed in the form of the specification. -/
lemma rel_speed_sq_eq (b1 b2 : BALL ℝ) :
    rel_speed_sq b1 b2 = ((b1.dx : ℝ) - b2.dx) ^ 2 + ((b1.dy : ℝ) - b2.dy) ^ 2 := by
  simp only [rel_speed_sq, SQR]
  push_cast
  ring

/-- C4 as stated fails in the `float` arithmetic of the program: for balls of
radius 10 at (47,48) with velocity (-8,-10) and at (58,17) with velocity
(-7,5), with `machine_eps = 0`, the discriminant is `D = 51984 ≥ 0`,
`v2 = 226 > machine_eps` and `tmin = (454 - 228)/226 = 1` lies in `[0,1]`, yet
the function returns 0. -/
theorem will_collide_characterisation_counterexample :
    contact_discriminant (make_ball 47 48 (-8) (-10) (10 : ℝ) 1)
        (make_ball 58 17 (-7) 5 (10 : ℝ) 1) = 51984
    ∧ (0 : ℝ) ≤ contact_discriminant (make_ball 47 48 (-8) (-10) (10 : ℝ) 1)
        (make_ball 58 17 (-7) 5 (10 : ℝ) 1)
    ∧ (0 : ℝ) < rel_speed_sq (make_ball 47 48 (-8) (-10) (10 : ℝ) 1)
        (make_ball 58 17 (-7) 5 (10 : ℝ) 1)
    ∧ contact_time Real.sqrt (make_ball 47 48 (-8) (-10) (10 : ℝ) 1)
        (make_ball 58 17 (-7) 5 (10 : ℝ) 1) = 1
    ∧ ball_math_will_collide_rounded to_float to_double Real.sqrt
        (make_ball 47 48 (-8) (-10) (10 : ℝ) 1) (make_ball 58 17 (-7) 5 (10 : ℝ) 1) 0
      = (0, 0) := by
  have hD : contact_discriminant (make_ball 47 48 (-8) (-10) (10 : ℝ) 1)
      (make_ball 58 17 (-7) 5 (10 : ℝ) 1) = 51984 := by
    norm_num [contact_discriminant, make_ball]
  have ht : contact_time Real.sqrt (make_ball 47 48 (-8) (-10) (10 : ℝ) 1)
      (make_ball 58 17 (-7) 5 (10 : ℝ) 1) = 1 := by
    simp only [contact_time, make_ball]
    norm_num [sqrt_51984]
  refine ⟨hD, by rw [hD]; norm_num, ?_, ht, will_collide_rounded_end_of_step⟩
  rw [rel_speed_sq_eq]
  norm_num [make_ball]

/-- C4, amended. With `D`, `v2` and `tmin` as in the specification and
`machine_eps ≥ 0`, in exact arithmetic: when `D ≥ 0`, `v2 > machine_eps` and
`0 ≤ tmin < 1` the predictor returns 1 and writes `t = tmin`; when `D < 0`,
`v2 ≤ machine_eps`, `tmin < 0` or `tmin > 1` it returns 0 and writes
`t = 0`. -/
theorem will_collide_characterisation (b1 b2 : BALL ℝ) (machine_eps : ℝ)
    (heps : 0 ≤ machine_eps) :
    (0 ≤ contact_discriminant b1 b2 → machine_eps < rel_speed_sq b1 b2 →
      0 ≤ contact_time Real.sqrt b1 b2 → contact_time Real.sqrt b1 b2 < 1 →
      ball_math_will_collide Real.sqrt b1 b2 machine_eps
        = (1, contact_time Real.sqrt b1 b2))
    ∧ ((contact_discriminant b1 b2 < 0 ∨ rel_speed_sq b1 b2 ≤ machine_eps
          ∨ contact_time Real.sqrt b1 b2 < 0 ∨ 1 < contact_time Real.sqrt b1 b2) →
      ball_math_will_collide Real.sqrt b1 b2 machine_eps = (0, 0)) := by
  rw [will_collide_eq_spec b1 b2 machine_eps heps, rel_speed_sq_eq]
  simp only [will_collide_spec, contact_discriminant, contact_time]
  refine ⟨fun hD hv h0 h1 => ?_, fun h => ?_⟩
  · rw [if_pos ⟨hD, hv, h0, h1.le⟩]
  · rw [if_neg]
    rintro ⟨hD, hv, h0, h1⟩
    rcases h with h | h | h | h
    · exact absurd hD (not_le.mpr h)
    · exact absurd hv (not_lt.mpr h)
    · exact absurd h0 (not_le.mpr h)
    · exact absurd h1 (not_le.mpr h)

/-- Witness for the amended C4: balls of radius 10 at (0,100) and (25,100) with
velocities (5,0) and (-5,0), `machine_eps = 0`; `D = 40000`, `v2 = 100`,
`tmin = 1/2`, and the predictor returns 1 with that time. -/
theorem will_collide_characterisation_witness :
    contact_time Real.sqrt (make_ball 0 100 5 0 (10 : ℝ) 1) (make_ball 25 100 (-5) 0 (10 : ℝ) 1)
      = 1 / 2
    ∧ ball_math_will_collide Real.sqrt (make_ball 0 100 5 0 (10 : ℝ) 1)
        (make_ball 25 100 (-5) 0 (10 : ℝ) 1) 0
      = (1, contact_time Real.sqrt (make_ball 0 100 5 0 (10 : ℝ) 1)
          (make_ball 25 100 (-5) 0 (10 : ℝ) 1)) := by
  have hD : contact_discriminant (make_ball 0 100 5 0 (10 : ℝ) 1)
      (make_ball 25 100 (-5) 0 (10 : ℝ) 1) = 40000 := by
    norm_num [contact_discriminant, make_ball]
  have ht : contact_time Real.sqrt (make_ball 0 100 5 0 (10 : ℝ) 1)
      (make_ball 25 100 (-5) 0 (10 : ℝ) 1) = 1 / 2 := by
    simp only [contact_time, make_ball]
    norm_num [sqrt_40000]
  exact ⟨ht,
    (will_collide_characterisation (make_ball 0 100 5 0 (10 : ℝ) 1)
      (make_ball 25 100 (-5) 0 (10 : ℝ) 1) 0 (le_refl 0)).1 (by rw [hD]; norm_num)
      (by rw [rel_speed_sq_eq]; norm_num [make_ball]) (by rw [ht]; norm_num)
      (by rw [ht]; norm_num)⟩

/-- The swept-circle identity: `v2` times the excess of the squared centre
distance at time `t` over `R^2` is `(v2*t + p.v)^2 - D`. -/
lemma sweep_identity (px py vx vy R t : ℝ) :
    (vx ^ 2 + vy ^ 2) * ((px + t * vx) ^ 2 + (py + t * vy) ^ 2 - R ^ 2)
      = ((vx ^ 2 + vy ^ 2) * t + (px * vx + py * vy)) ^ 2
        - ((vx ^ 2 + vy ^ 2) * R ^ 2 - (vx * py - vy * px) ^ 2) := by
  ring

/-- The centre distance in terms of the relative position and velocity. -/
lemma centre_dist_eq (b1 b2 : BALL ℝ) (t : ℝ) :
    centre_dist Real.sqrt b1 b2 t
      = Real.sqrt ((((b1.ballx : ℝ) - b2.ballx) + t * ((b1.dx : ℝ) - b2.dx)) ^ 2
        + (((b1.bally : ℝ) - b2.bally) + t * ((b1.dy : ℝ) - b2.dy)) ^ 2) := by
  unfold centre_dist SQR
  congr 1
  ring

/-- When the predictor returns 1 (over the reals, `machine_eps ≥ 0`), the
guards of `will_collide_spec` hold and the time written is the smaller root. -/
lemma will_collide_one_inv (b1 b2 : BALL ℝ) (machine_eps : ℝ) (heps : 0 ≤ machine_eps)
    (h : (ball_math_will_collide Real.sqrt b1 b2 machine_eps).1 = 1) :
    0 ≤ (((b1.dx : ℝ) - b2.dx) ^ 2 + ((b1.dy : ℝ) - b2.dy) ^ 2)
          * (b1.radius + b2.radius) ^ 2
        - (((b1.dx : ℝ) - b2.dx) * ((b1.bally : ℝ) - b2.bally)
            - ((b1.dy : ℝ) - b2.dy) * ((b1.ballx : ℝ) - b2.ballx)) ^ 2
    ∧ 0 < ((b1.dx : ℝ) - b2.dx) ^ 2 + ((b1.dy : ℝ) - b2.dy) ^ 2
    ∧ (ball_math_will_collide Real.sqrt b1 b2 machine_eps).2
        = (-((((b1.ballx : ℝ) - b2.ballx)) * ((b1.dx : ℝ) - b2.dx)
              + ((b1.bally : ℝ) - b2.bally) * ((b1.dy : ℝ) - b2.dy))
            - Real.sqrt ((((b1.dx : ℝ) - b2.dx) ^ 2 + ((b1.dy : ℝ) - b2.dy) ^ 2)
                * (b1.radius + b2.radius) ^ 2
              - (((b1.dx : ℝ) - b2.dx) * ((b1.bally : ℝ) - b2.bally)
                  - ((b1.dy : ℝ) - b2.dy) * ((b1.ballx : ℝ) - b2.ballx)) ^ 2))
          / (((b1.dx : ℝ) - b2.dx) ^ 2 + ((b1.dy : ℝ) - b2.dy) ^ 2) := by
  rw [will_collide_eq_spec b1 b2 machine_eps heps] at h ⊢
  simp only [will_collide_spec] at h ⊢
  split_ifs at h ⊢ with hc
  · exact ⟨hc.1, lt_of_le_of_lt heps hc.2.1, rfl⟩
  · simp at h

/-- The smaller root of the contact equation is a contact time, and the squared
centre distance exceeds `R^2` strictly before it. -/
lemma first_contact_core (px py vx vy R t : ℝ) (ha : 0 < vx ^ 2 + vy ^ 2)
    (hD : 0 ≤ (vx ^ 2 + vy ^ 2) * R ^ 2 - (vx * py - vy * px) ^ 2)
    (ht : t = (-(px * vx + py * vy)
        - Real.sqrt ((vx ^ 2 + vy ^ 2) * R ^ 2 - (vx * py - vy * px) ^ 2))
          / (vx ^ 2 + vy ^ 2)) :
    (px + t * vx) ^ 2 + (py + t * vy) ^ 2 = R ^ 2
    ∧ ∀ s : ℝ, s < t → R ^ 2 < (px + s * vx) ^ 2 + (py + s * vy) ^ 2 := by
  set a : ℝ := vx ^ 2 + vy ^ 2 with ha_def
  set D : ℝ := a * R ^ 2 - (vx * py - vy * px) ^ 2 with hD_def
  have hsq : Real.sqrt D ^ 2 = D := Real.sq_sqrt hD
  have hsn : 0 ≤ Real.sqrt D := Real.sqrt_nonneg D
  have hat : a * t + (px * vx + py * vy) = -Real.sqrt D := by
    rw [ht]
    field_simp
    ring
  constructor
  · have hid := sweep_identity px py vx vy R t
    rw [← ha_def, ← hD_def, hat] at hid
    have h0 : a * ((px + t * vx) ^ 2 + (py + t * vy) ^ 2 - R ^ 2) = 0 := by
      rw [hid]; nlinarith
    rcases mul_eq_zero.mp h0 with h | h
    · exact absurd h ha.ne'
    · linarith
  · intro s hs
    have hid := sweep_identity px py vx vy R s
    rw [← ha_def, ← hD_def] at hid
    have hlt : a * s + (px * vx + py * vy) < -Real.sqrt D := by
      rw [← hat]
      have := mul_lt_mul_of_pos_left hs ha
      linarith
    have hpos : 0 < a * ((px + s * vx) ^ 2 + (py + s * vy) ^ 2 - R ^ 2) := by
      rw [hid]; nlinarith
    have := (pos_iff_pos_of_mul_pos hpos).mp ha
    linarith

/-- C5. In exact arithmetic with `machine_eps ≥ 0` and a non-negative radius
sum (the data model has `radius > 0`): whenever the predictor returns 1 with
time `t`, the two centres, each advanced by `t` times its ball's velocity, are
exactly `radius1 + radius2` apart, and they are strictly farther apart than
that at every earlier time `s` in `[0, t)`: `t` is the first moment of contact
within the step. -/
theorem will_collide_first_contact (b1 b2 : BALL ℝ) (machine_eps : ℝ)
    (heps : 0 ≤ machine_eps) (hR : 0 ≤ b1.radius + b2.radius)
    (h : (ball_math_will_collide Real.sqrt b1 b2 machine_eps).1 = 1) :
    centre_dist Real.sqrt b1 b2 (ball_math_will_collide Real.sqrt b1 b2 machine_eps).2
        = b1.radius + b2.radius
    ∧ ∀ s : ℝ, 0 ≤ s → s < (ball_math_will_collide Real.sqrt b1 b2 machine_eps).2 →
        b1.radius + b2.radius < centre_dist Real.sqrt b1 b2 s := by
  obtain ⟨hD, ha, ht⟩ := will_collide_one_inv b1 b2 machine_eps heps h
  obtain ⟨hc, hbefore⟩ :=
    first_contact_core _ _ _ _ (b1.radius + b2.radius) _ ha hD ht
  constructor
  · rw [centre_dist_eq, hc, Real.sqrt_sq hR]
  · intro s _ hs
    rw [centre_dist_eq]
    calc b1.radius + b2.radius
        = Real.sqrt ((b1.radius + b2.radius) ^ 2) := (Real.sqrt_sq hR).symm
      _ < _ := Real.sqrt_lt_sqrt (sq_nonneg _) (hbefore s hs)

/-- Witness for C5 on the head-on fixture (contact at `t = 1`). -/
theorem will_collide_first_contact_witness :
    (0 : ℝ) ≤ 0
    ∧ (0 : ℝ) ≤ (make_ball 0 100 5 0 (10 : ℝ) 1).radius
        + (make_ball 30 100 (-5) 0 (10 : ℝ) 1).radius
    ∧ (ball_math_will_collide Real.sqrt (make_ball 0 100 5 0 (10 : ℝ) 1)
        (make_ball 30 100 (-5) 0 (10 : ℝ) 1) 0).1 = 1
    ∧ (centre_dist Real.sqrt (make_ball 0 100 5 0 (10 : ℝ) 1)
          (make_ball 30 100 (-5) 0 (10 : ℝ) 1)
          (ball_math_will_collide Real.sqrt (make_ball 0 100 5 0 (10 : ℝ) 1)
            (make_ball 30 100 (-5) 0 (10 : ℝ) 1) 0).2
        = (make_ball 0 100 5 0 (10 : ℝ) 1).radius
          + (make_ball 30 100 (-5) 0 (10 : ℝ) 1).radius
      ∧ ∀ s : ℝ, 0 ≤ s →
        s < (ball_math_will_collide Real.sqrt (make_ball 0 100 5 0 (10 : ℝ) 1)
            (make_ball 30 100 (-5) 0 (10 : ℝ) 1) 0).2 →
        (make_ball 0 100 5 0 (10 : ℝ) 1).radius
            + (make_ball 30 100 (-5) 0 (10 : ℝ) 1).radius
          < centre_dist Real.sqrt (make_ball 0 100 5 0 (10 : ℝ) 1)
              (make_ball 30 100 (-5) 0 (10 : ℝ) 1) s) :=
  ⟨le_refl 0, by norm_num [make_ball], by rw [will_collide_head_on_eval],
   will_collide_first_contact _ _ 0 (le_refl 0) (by norm_num [make_ball])
     (by rw [will_collide_head_on_eval])⟩

/-- If the centres start farther apart than `R` and are within `R` at some time
`s ≥ 0`, the contact equation has real roots and the smaller one lies in
`[0, s]`. -/
lemma no_tunnel_core (px py vx vy R s : ℝ) (ha : 0 < vx ^ 2 + vy ^ 2) (hs : 0 ≤ s)
    (h0 : R ^ 2 < px ^ 2 + py ^ 2)
    (h1 : (px + s * vx) ^ 2 + (py + s * vy) ^ 2 ≤ R ^ 2) :
    0 ≤ (vx ^ 2 + vy ^ 2) * R ^ 2 - (vx * py - vy * px) ^ 2
    ∧ 0 ≤ (-(px * vx + py * vy)
        - Real.sqrt ((vx ^ 2 + vy ^ 2) * R ^ 2 - (vx * py - vy * px) ^ 2))
          / (vx ^ 2 + vy ^ 2)
    ∧ (-(px * vx + py * vy)
        - Real.sqrt ((vx ^ 2 + vy ^ 2) * R ^ 2 - (vx * py - vy * px) ^ 2))
          / (vx ^ 2 + vy ^ 2) ≤ s := by
  have hids := sweep_identity px py vx vy R s
  have hid0 := sweep_identity px py vx vy R 0
  set a : ℝ := vx ^ 2 + vy ^ 2 with ha_def
  set b : ℝ := px * vx + py * vy with hb_def
  set D : ℝ := a * R ^ 2 - (vx * py - vy * px) ^ 2 with hD_def
  have hsD : (a * s + b) ^ 2 ≤ D := by
    have : a * ((px + s * vx) ^ 2 + (py + s * vy) ^ 2 - R ^ 2) ≤ 0 :=
      mul_nonpos_of_nonneg_of_nonpos ha.le (by linarith)
    linarith
  have hD : 0 ≤ D := le_trans (sq_nonneg _) hsD
  have hDb : D < b ^ 2 := by
    have : 0 < a * ((px + 0 * vx) ^ 2 + (py + 0 * vy) ^ 2 - R ^ 2) := by
      apply mul_pos ha
      simp only [zero_mul, add_zero]
      linarith
    rw [hid0] at this
    simp only [mul_zero, zero_add] at this
    linarith
  have hexp : (px + s * vx) ^ 2 + (py + s * vy) ^ 2
      = px ^ 2 + py ^ 2 + 2 * s * b + s ^ 2 * a := by
    rw [ha_def, hb_def]; ring
  have hsb : 2 * s * b + s ^ 2 * a < 0 := by linarith
  have hbneg : b < 0 := by
    by_contra hb
    have hb0 : 0 ≤ b := not_lt.mp hb
    have h2 : 0 ≤ 2 * s * b := by positivity
    have h3 : 0 ≤ s ^ 2 * a := by positivity
    linarith
  have hsqrt_lt : Real.sqrt D < -b := by
    rw [Real.sqrt_lt' (by linarith)]
    linarith [neg_sq b]
  have hsqrt_ge : -(a * s + b) ≤ Real.sqrt D :=
    le_trans (neg_le_abs _) (Real.abs_le_sqrt hsD)
  refine ⟨hD, ?_, ?_⟩
  · exact div_nonneg (by linarith) ha.le
  · rw [div_le_iff₀ ha]
    linarith

/-- C6 as stated fails in the `float` arithmetic of the program: balls of radius
10 at (47,48) with velocity (-8,-10) and at (58,17) with velocity (-7,5) start
strictly separated, their squared relative speed 226 exceeds `machine_eps = 0`
and at `s = 1` their centres are exactly `radius1 + radius2 = 20` apart, yet
the function returns 0. -/
theorem will_collide_no_tunnelling_counterexample :
    (make_ball 47 48 (-8) (-10) (10 : ℝ) 1).radius
        + (make_ball 58 17 (-7) 5 (10 : ℝ) 1).radius
      < centre_dist Real.sqrt (make_ball 47 48 (-8) (-10) (10 : ℝ) 1)
          (make_ball 58 17 (-7) 5 (10 : ℝ) 1) 0
    ∧ (0 : ℝ) < rel_speed_sq (make_ball 47 48 (-8) (-10) (10 : ℝ) 1)
        (make_ball 58 17 (-7) 5 (10 : ℝ) 1)
    ∧ centre_dist Real.sqrt (make_ball 47 48 (-8) (-10) (10 : ℝ) 1)
          (make_ball 58 17 (-7) 5 (10 : ℝ) 1) 1
      ≤ (make_ball 47 48 (-8) (-10) (10 : ℝ) 1).radius
          + (make_ball 58 17 (-7) 5 (10 : ℝ) 1).radius
    ∧ (ball_math_will_collide_rounded to_float to_double Real.sqrt
        (make_ball 47 48 (-8) (-10) (10 : ℝ) 1) (make_ball 58 17 (-7) 5 (10 : ℝ) 1) 0).1
      = 0 := by
  refine ⟨?_, ?_, ?_, by rw [will_collide_rounded_end_of_step]⟩
  · rw [centre_dist_eq, Real.lt_sqrt (by norm_num [make_ball])]
    norm_num [make_ball]
  · rw [rel_speed_sq_eq]
    norm_num [make_ball]
  · rw [centre_dist_eq, Real.sqrt_le_iff]
    norm_num [make_ball]

/-- C6, amended. No tunnelling before the end of the step, in exact arithmetic
with `machine_eps ≥ 0`: if the balls start strictly separated (centre distance
above `radius1 + radius2`), their relative speed squared exceeds
`machine_eps`, and at some time `s` with `0 ≤ s < 1` of straight-line motion
the centres are within `radius1 + radius2` of each other, then the predictor
returns 1 with a time `t ≤ s`. -/
theorem will_collide_no_tunnelling (b1 b2 : BALL ℝ) (machine_eps s : ℝ)
    (heps : 0 ≤ machine_eps)
    (hsep : b1.radius + b2.radius < centre_dist Real.sqrt b1 b2 0)
    (hv : machine_eps < rel_speed_sq b1 b2)
    (hs0 : 0 ≤ s) (hs1 : s < 1)
    (hcontact : centre_dist Real.sqrt b1 b2 s ≤ b1.radius + b2.radius) :
    (ball_math_will_collide Real.sqrt b1 b2 machine_eps).1 = 1
    ∧ (ball_math_will_collide Real.sqrt b1 b2 machine_eps).2 ≤ s := by
  rw [centre_dist_eq] at hsep hcontact
  obtain ⟨hR, hle⟩ := Real.sqrt_le_iff.mp hcontact
  have hv2 : machine_eps < ((b1.dx : ℝ) - b2.dx) ^ 2 + ((b1.dy : ℝ) - b2.dy) ^ 2 := by
    rw [← rel_speed_sq_eq]
    exact hv
  have ha : 0 < ((b1.dx : ℝ) - b2.dx) ^ 2 + ((b1.dy : ℝ) - b2.dy) ^ 2 :=
    lt_of_le_of_lt heps hv2
  have h0 : (b1.radius + b2.radius) ^ 2
      < ((b1.ballx : ℝ) - b2.ballx) ^ 2 + ((b1.bally : ℝ) - b2.bally) ^ 2 := by
    have := (Real.lt_sqrt hR).mp hsep
    simpa only [zero_mul, add_zero] using this
  obtain ⟨hD, ht0, hts⟩ := no_tunnel_core _ _ _ _ _ s ha hs0 h0 hle
  rw [will_collide_eq_spec b1 b2 machine_eps heps]
  simp only [will_collide_spec]
  rw [if_pos ⟨hD, hv2, ht0, le_trans hts hs1.le⟩]
  exact ⟨rfl, hts⟩

/-- Witness for the amended C6: balls of radius 10 at (0,100) and (25,100) with
velocities (5,0) and (-5,0) start 25 apart and are 20 apart at `s = 1/2`. -/
theorem will_collide_no_tunnelling_witness :
    ((make_ball 0 100 5 0 (10 : ℝ) 1).radius + (make_ball 25 100 (-5) 0 (10 : ℝ) 1).radius
      < centre_dist Real.sqrt (make_ball 0 100 5 0 (10 : ℝ) 1)
          (make_ball 25 100 (-5) 0 (10 : ℝ) 1) 0)
    ∧ (centre_dist Real.sqrt (make_ball 0 100 5 0 (10 : ℝ) 1)
          (make_ball 25 100 (-5) 0 (10 : ℝ) 1) (1 / 2)
      ≤ (make_ball 0 100 5 0 (10 : ℝ) 1).radius + (make_ball 25 100 (-5) 0 (10 : ℝ) 1).radius)
    ∧ (ball_math_will_collide Real.sqrt (make_ball 0 100 5 0 (10 : ℝ) 1)
        (make_ball 25 100 (-5) 0 (10 : ℝ) 1) 0).1 = 1
    ∧ (ball_math_will_collide Real.sqrt (make_ball 0 100 5 0 (10 : ℝ) 1)
        (make_ball 25 100 (-5) 0 (10 : ℝ) 1) 0).2 ≤ 1 / 2 := by
  have hsep : (make_ball 0 100 5 0 (10 : ℝ) 1).radius
        + (make_ball 25 100 (-5) 0 (10 : ℝ) 1).radius
      < centre_dist Real.sqrt (make_ball 0 100 5 0 (10 : ℝ) 1)
          (make_ball 25 100 (-5) 0 (10 : ℝ) 1) 0 := by
    rw [centre_dist_eq, Real.lt_sqrt (by norm_num [make_ball])]
    norm_num [make_ball]
  have hcon : centre_dist Real.sqrt (make_ball 0 100 5 0 (10 : ℝ) 1)
        (make_ball 25 100 (-5) 0 (10 : ℝ) 1) (1 / 2)
      ≤ (make_ball 0 100 5 0 (10 : ℝ) 1).radius + (make_ball 25 100 (-5) 0 (10 : ℝ) 1).radius := by
    rw [centre_dist_eq, Real.sqrt_le_iff]
    norm_num [make_ball]
  exact ⟨hsep, hcon,
    will_collide_no_tunnelling (make_ball 0 100 5 0 (10 : ℝ) 1)
      (make_ball 25 100 (-5) 0 (10 : ℝ) 1) 0 (1 / 2) (le_refl 0) hsep
      (by rw [rel_speed_sq_eq]; norm_num [make_ball]) (by norm_num) (by norm_num) hcon⟩

/-! Properties of the collision resolver. -/

/-- The cast of a non-negative value lying in `[z, z+1)` is `z`. -/
lemma castInt_of_nonneg {F : Type} [LinearOrderedField F] [FloorRing F] (x : F) (z : Int)
    (h0 : 0 ≤ x) (h1 : (z : F) ≤ x) (h2 : x < (z : F) + 1) : castInt x = z := by
  unfold castInt
  rw [if_pos h0]
  exact Int.floor_eq_iff.mpr ⟨h1, h2⟩

/-- The cast of a negative value lying in `(z-1, z]` is `z`. -/
lemma castInt_of_neg {F : Type} [LinearOrderedField F] [FloorRing F] (x : F) (z : Int)
    (h0 : x < 0) (h1 : (z : F) - 1 < x) (h2 : x ≤ (z : F)) : castInt x = z := by
  unfold castInt
  rw [if_neg (not_le.mpr h0)]
  exact Int.ceil_eq_iff.mpr ⟨h1, h2⟩

/-- The C cast to `int` is truncation toward zero. -/
lemma castInt_eq_trunc {F : Type} [LinearOrderedField F] [FloorRing F] (x : F) :
    castInt x = trunc_toward_zero x := by
  unfold castInt trunc_toward_zero
  by_cases h : x < 0
  · rw [if_neg (not_le.mpr h), if_pos h, Int.floor_neg, neg_neg]
  · rw [if_pos (not_lt.mp h), if_neg h]

/-- Without rounding, `ball_math_collide_rounded` is `ball_math_collide`. -/
lemma collide_rounded_id {F : Type} [LinearOrderedField F] [FloorRing F] (sqrt : F → F)
    (b1 b2 : BALL F) :
    ball_math_collide_rounded id id sqrt b1 b2 = ball_math_collide sqrt b1 b2 := rfl

/-- The real square root of 625 is 25. -/
lemma sqrt_625 : Real.sqrt 625 = 25 := by
  rw [show (625 : ℝ) = 25 * 25 by norm_num]
  exact Real.sqrt_mul_self (by norm_num)

/-- The resolver in `float` arithmetic on balls of mass 1 at (100,50) with
velocity (-9,0) and at (80,85) with velocity (14,-14): the unit vector rounds
to `(13421773/2^24, 5033165/2^23)`, `k` to `10485759/2^20`, the products
`k*px` and `k*py` to `16777215/2^21` and `12582911/2^21`, just below 8 and 6,
and the casts add 7, 5, -7 and -5. -/
lemma collide_rounded_eval (radius : ℝ) :
    ball_math_collide_rounded to_float to_double Real.sqrt
        (make_ball 100 50 (-9) 0 radius 1) (make_ball 80 85 14 (-14) radius 1)
      = (make_ball 100 50 (-2) 5 radius 1, make_ball 80 85 7 (-19) radius 1) := by
  have f0 : to_float (20 : ℝ) = 20 := by
    rw [to_float, round_to_bits_eq 24 (20 : ℝ) (-19) (10485760)
      (by rw [abs_of_pos (by norm_num)]; norm_num) (by rw [abs_of_pos (by norm_num)]; norm_num)
      (by norm_num) (by norm_num)]
    norm_num
  have f1 : to_float (15 : ℝ) = 15 := by
    rw [to_float, round_to_bits_eq 24 (15 : ℝ) (-20) (15728640)
      (by rw [abs_of_pos (by norm_num)]; norm_num) (by rw [abs_of_pos (by norm_num)]; norm_num)
      (by norm_num) (by norm_num)]
    norm_num
  have f2 : to_float (-23 : ℝ) = -23 := by
    rw [to_float, round_to_bits_eq 24 (-23 : ℝ) (-19) (-12058624)
      (by rw [abs_of_neg (by norm_num)]; norm_num) (by rw [abs_of_neg (by norm_num)]; norm_num)
      (by norm_num) (by norm_num)]
    norm_num
  have f3 : to_float (14 : ℝ) = 14 := by
    rw [to_float, round_to_bits_eq 24 (14 : ℝ) (-20) (14680064)
      (by rw [abs_of_pos (by norm_num)]; norm_num) (by rw [abs_of_pos (by norm_num)]; norm_num)
      (by norm_num) (by norm_num)]
    norm_num
  have f4 : to_float (400 : ℝ) = 400 := by
    rw [to_float, round_to_bits_eq 24 (400 : ℝ) (-15) (13107200)
      (by rw [abs_of_pos (by norm_num)]; norm_num) (by rw [abs_of_pos (by norm_num)]; norm_num)
      (by norm_num) (by norm_num)]
    norm_num
  have f5 : to_float (225 : ℝ) = 225 := by
    rw [to_float, round_to_bits_eq 24 (225 : ℝ) (-16) (14745600)
      (by rw [abs_of_pos (by norm_num)]; norm_num) (by rw [abs_of_pos (by norm_num)]; norm_num)
      (by norm_num) (by norm_num)]
    norm_num
  have f6 : to_float (625 : ℝ) = 625 := by
    rw [to_float, round_to_bits_eq 24 (625 : ℝ) (-14) (10240000)
      (by rw [abs_of_pos (by norm_num)]; norm_num) (by rw [abs_of_pos (by norm_num)]; norm_num)
      (by norm_num) (by norm_num)]
    norm_num
  have f7 : to_double (625 : ℝ) = 625 := by
    rw [to_double, round_to_bits_eq 53 (625 : ℝ) (-43) (5497558138880000)
      (by rw [abs_of_pos (by norm_num)]; norm_num) (by rw [abs_of_pos (by norm_num)]; norm_num)
      (by norm_num) (by norm_num)]
    norm_num
  have f8 : to_double (25 : ℝ) = 25 := by
    rw [to_double, round_to_bits_eq 53 (25 : ℝ) (-48) (7036874417766400)
      (by rw [abs_of_pos (by norm_num)]; norm_num) (by rw [abs_of_pos (by norm_num)]; norm_num)
      (by norm_num) (by norm_num)]
    norm_num
  have f9 : to_float (25 : ℝ) = 25 := by
    rw [to_float, round_to_bits_eq 24 (25 : ℝ) (-19) (13107200)
      (by rw [abs_of_pos (by norm_num)]; norm_num) (by rw [abs_of_pos (by norm_num)]; norm_num)
      (by norm_num) (by norm_num)]
    norm_num
  have f10 : to_float (4 / 5 : ℝ) = 13421773 / 16777216 := by
    rw [to_float, round_to_bits_eq 24 (4 / 5 : ℝ) (-24) (13421773)
      (by rw [abs_of_pos (by norm_num)]; norm_num) (by rw [abs_of_pos (by norm_num)]; norm_num)
      (by norm_num) (by norm_num)]
    norm_num
  have f11 : to_float (3 / 5 : ℝ) = 5033165 / 8388608 := by
    rw [to_float, round_to_bits_eq 24 (3 / 5 : ℝ) (-24) (10066330)
      (by rw [abs_of_pos (by norm_num)]; norm_num) (by rw [abs_of_pos (by norm_num)]; norm_num)
      (by norm_num) (by norm_num)]
    norm_num
  have f12 : to_float (1 : ℝ) = 1 := by
    rw [to_float, round_to_bits_eq 24 (1 : ℝ) (-23) (8388608)
      (by rw [abs_of_pos (by norm_num)]; norm_num) (by rw [abs_of_pos (by norm_num)]; norm_num)
      (by norm_num) (by norm_num)]
    norm_num
  have f13 : to_float (-(308700779 / 16777216) : ℝ) = -(9646899 / 524288) := by
    rw [to_float, round_to_bits_eq 24 (-(308700779 / 16777216) : ℝ) (-19) (-9646899)
      (by rw [abs_of_neg (by norm_num)]; norm_num) (by rw [abs_of_neg (by norm_num)]; norm_num)
      (by norm_num) (by norm_num)]
    norm_num
  have f14 : to_float (35232155 / 4194304 : ℝ) = 8808039 / 1048576 := by
    rw [to_float, round_to_bits_eq 24 (35232155 / 4194304 : ℝ) (-20) (8808039)
      (by rw [abs_of_pos (by norm_num)]; norm_num) (by rw [abs_of_pos (by norm_num)]; norm_num)
      (by norm_num) (by norm_num)]
    norm_num
  have f15 : to_float (-(10485759 / 1048576) : ℝ) = -(10485759 / 1048576) := by
    rw [to_float, round_to_bits_eq 24 (-(10485759 / 1048576) : ℝ) (-20) (-10485759)
      (by rw [abs_of_neg (by norm_num)]; norm_num) (by rw [abs_of_neg (by norm_num)]; norm_num)
      (by norm_num) (by norm_num)]
    norm_num
  have f16 : to_float (10485759 / 524288 : ℝ) = 10485759 / 524288 := by
    rw [to_float, round_to_bits_eq 24 (10485759 / 524288 : ℝ) (-19) (10485759)
      (by rw [abs_of_pos (by norm_num)]; norm_num) (by rw [abs_of_pos (by norm_num)]; norm_num)
      (by norm_num) (by norm_num)]
    norm_num
  have f17 : to_float (2 : ℝ) = 2 := by
    rw [to_float, round_to_bits_eq 24 (2 : ℝ) (-22) (8388608)
      (by rw [abs_of_pos (by norm_num)]; norm_num) (by rw [abs_of_pos (by norm_num)]; norm_num)
      (by norm_num) (by norm_num)]
    norm_num
  have f18 : to_float (10485759 / 1048576 : ℝ) = 10485759 / 1048576 := by
    rw [to_float, round_to_bits_eq 24 (10485759 / 1048576 : ℝ) (-20) (10485759)
      (by rw [abs_of_pos (by norm_num)]; norm_num) (by rw [abs_of_pos (by norm_num)]; norm_num)
      (by norm_num) (by norm_num)]
    norm_num
  have f19 : to_float (140737477030707 / 17592186044416 : ℝ) = 16777215 / 2097152 := by
    rw [to_float, round_to_bits_eq 24 (140737477030707 / 17592186044416 : ℝ) (-21) (16777215)
      (by rw [abs_of_pos (by norm_num)]; norm_num) (by rw [abs_of_pos (by norm_num)]; norm_num)
      (by norm_num) (by norm_num)]
    norm_num
  have f20 : to_float (52776555197235 / 8796093022208 : ℝ) = 12582911 / 2097152 := by
    rw [to_float, round_to_bits_eq 24 (52776555197235 / 8796093022208 : ℝ) (-21) (12582911)
      (by rw [abs_of_pos (by norm_num)]; norm_num) (by rw [abs_of_pos (by norm_num)]; norm_num)
      (by norm_num) (by norm_num)]
    norm_num
  have f21 : to_float (-(140737477030707 / 17592186044416) : ℝ) = -(16777215 / 2097152) := by
    rw [to_float, round_to_bits_eq 24 (-(140737477030707 / 17592186044416) : ℝ) (-21) (-16777215)
      (by rw [abs_of_neg (by norm_num)]; norm_num) (by rw [abs_of_neg (by norm_num)]; norm_num)
      (by norm_num) (by norm_num)]
    norm_num
  have f22 : to_float (-(52776555197235 / 8796093022208) : ℝ) = -(12582911 / 2097152) := by
    rw [to_float, round_to_bits_eq 24 (-(52776555197235 / 8796093022208) : ℝ) (-21) (-12582911)
      (by rw [abs_of_neg (by norm_num)]; norm_num) (by rw [abs_of_neg (by norm_num)]; norm_num)
      (by norm_num) (by norm_num)]
    norm_num
  have c0 : castInt (16777215 / 2097152 : ℝ) = 7 :=
    castInt_of_nonneg _ (7) (by norm_num) (by norm_num) (by norm_num)
  have c1 : castInt (12582911 / 2097152 : ℝ) = 5 :=
    castInt_of_nonneg _ (5) (by norm_num) (by norm_num) (by norm_num)
  have c2 : castInt (-(16777215 / 2097152) : ℝ) = -7 :=
    castInt_of_neg _ (-7) (by norm_num) (by norm_num) (by norm_num)
  have c3 : castInt (-(12582911 / 2097152) : ℝ) = -5 :=
    castInt_of_neg _ (-5) (by norm_num) (by norm_num) (by norm_num)
  simp only [ball_math_collide_rounded, make_ball, SQR]
  norm_num [f0, f1, f2, f3, f4, f5, f6, f7, f8, f9, f10, f11, f12, f13, f14, f15, f16, f17, f18,
    f19, f20, f21, f22, c0, c1, c2, c3, sqrt_625]

/-- The formulas of the specification in exact arithmetic on the same balls:
the unit vector is `(4/5, 3/5)`, `k = 10`, the products are 8 and 6, and the
velocities become (-1,6) and (6,-20). -/
lemma collide_exact_eval (radius : ℝ) :
    collide_spec id id Real.sqrt
        (make_ball 100 50 (-9) 0 radius 1) (make_ball 80 85 14 (-14) radius 1)
      = (make_ball 100 50 (-1) 6 radius 1, make_ball 80 85 6 (-20) radius 1) := by
  have c8 : castInt (8 : ℝ) = 8 :=
    castInt_of_nonneg _ 8 (by norm_num) (by norm_num) (by norm_num)
  have c6 : castInt (6 : ℝ) = 6 :=
    castInt_of_nonneg _ 6 (by norm_num) (by norm_num) (by norm_num)
  have d8 : castInt (-8 : ℝ) = -8 :=
    castInt_of_neg _ (-8) (by norm_num) (by norm_num) (by norm_num)
  have d6 : castInt (-6 : ℝ) = -6 :=
    castInt_of_neg _ (-6) (by norm_num) (by norm_num) (by norm_num)
  simp only [collide_spec, make_ball, id, ← castInt_eq_trunc]
  norm_num [sqrt_625, c8, c6, d8, d6]

/-- C8 as stated fails when its formulas are read in exact arithmetic: for balls
of mass 1 at (100,50) with velocity (-9,0) and at (80,85) with velocity
(14,-14) the formulas give the increments 8, 6, -8, -6, hence the velocities
(-1,6) and (6,-20), while the program, whose `float` products are just below 8
and 6, adds 7, 5, -7, -5 and leaves (-2,5) and (7,-19). -/
theorem collide_eq_spec_counterexample :
    collide_spec id id Real.sqrt
        (make_ball 100 50 (-9) 0 (10 : ℝ) 1) (make_ball 80 85 14 (-14) (10 : ℝ) 1)
      = (make_ball 100 50 (-1) 6 (10 : ℝ) 1, make_ball 80 85 6 (-20) (10 : ℝ) 1)
    ∧ ball_math_collide_rounded to_float to_double Real.sqrt
        (make_ball 100 50 (-9) 0 (10 : ℝ) 1) (make_ball 80 85 14 (-14) (10 : ℝ) 1)
      = (make_ball 100 50 (-2) 5 (10 : ℝ) 1, make_ball 80 85 7 (-19) (10 : ℝ) 1)
    ∧ ball_math_collide_rounded to_float to_double Real.sqrt
        (make_ball 100 50 (-9) 0 (10 : ℝ) 1) (make_ball 80 85 14 (-14) (10 : ℝ) 1)
      ≠ collide_spec id id Real.sqrt
        (make_ball 100 50 (-9) 0 (10 : ℝ) 1) (make_ball 80 85 14 (-14) (10 : ℝ) 1) := by
  refine ⟨collide_exact_eval 10, collide_rounded_eval 10, ?_⟩
  rw [collide_exact_eval, collide_rounded_eval]
  intro h
  have h2 := congrArg (fun q : BALL ℝ × BALL ℝ => q.1.dx) h
  simp only [make_ball] at h2
  exact absurd h2 (by decide)

/-- C8, amended. The resolver computes the formulas of the specification in
`float` arithmetic, every operation rounded: for all rounding functions `fl`
(to `float`) and `fd` (to `double`) and every square-root function, the
program equals `collide_spec`, that is the transposed `py = ball1.x - ball2.y`,
the unit vector `(ux, uy)`, `m = mass1/mass2`,
`k = -2*((dx1-dx2)*ux + (dy1-dy2)*uy)/(1+m)`, and velocity increments
`trunc(k*ux)`, `trunc(k*uy)` for ball 1 and `trunc(-m*k*ux)`, `trunc(-m*k*uy)`
for ball 2, each product rounded before the truncation toward zero. -/
theorem collide_eq_spec {F : Type} [LinearOrderedField F] [FloorRing F] (fl fd sqrt : F → F)
    (b1 b2 : BALL F) :
    ball_math_collide_rounded fl fd sqrt b1 b2 = collide_spec fl fd sqrt b1 b2 := by
  simp only [ball_math_collide_rounded, collide_spec, SQR, castInt_eq_trunc]
  push_cast
  simp only [mul_comm _ (-fl (b1.mass / b2.mass))]

/-- C7. Characterised defect output (exact arithmetic): for balls of equal
non-zero mass at (200,50) with velocity (14,0) and at (210,50) with velocity
(-14,0), the resolver leaves both `dx` unchanged and produces a spurious
vertical component: ball 1 ends with `(dx, dy) = (14, 1)` and ball 2 with
`(-14, -1)`. -/
theorem collide_defect_output (radius mass : ℝ) (hm : mass ≠ 0) :
    ball_math_collide Real.sqrt (make_ball 200 50 14 0 radius mass)
        (make_ball 210 50 (-14) 0 radius mass)
      = (make_ball 200 50 14 1 radius mass, make_ball 210 50 (-14) (-1) radius mass) := by
  have hP : Real.sqrt 22600 * Real.sqrt 22600 = 22600 := Real.mul_self_sqrt (by norm_num)
  have hP0 : Real.sqrt 22600 ≠ 0 := by
    intro h
    rw [h] at hP
    norm_num at hP
  simp only [ball_math_collide, make_ball, SQR]
  norm_num [div_self hm]
  have e1 : -(2 * (28 * (-10 / Real.sqrt 22600))) / 2 * (-10 / Real.sqrt 22600)
      = -2800 / (Real.sqrt 22600 * Real.sqrt 22600) := by
    field_simp
    nlinarith [hP]
  have e2 : -(2 * (28 * (-10 / Real.sqrt 22600))) / 2 * (150 / Real.sqrt 22600)
      = 42000 / (Real.sqrt 22600 * Real.sqrt 22600) := by
    field_simp
    nlinarith [hP]
  rw [e1, e2, hP]
  refine ⟨⟨?_, ?_⟩, ?_, ?_⟩
  · exact castInt_of_neg _ 0 (by norm_num) (by norm_num) (by norm_num)
  · exact castInt_of_nonneg _ 1 (by norm_num) (by norm_num) (by norm_num)
  · exact castInt_of_nonneg _ 0 (by norm_num) (by norm_num) (by norm_num)
  · exact castInt_of_neg _ (-1) (by norm_num) (by norm_num) (by norm_num)

/-- Witness for C7 with the masses and radii of `test_collide_bug_ballx_for_bally`
(mass 2, radius `BALL_WC = 10`). -/
theorem collide_defect_output_witness :
    ball_math_collide Real.sqrt (make_ball 200 50 14 0 (10 : ℝ) 2)
        (make_ball 210 50 (-14) 0 (10 : ℝ) 2)
      = (make_ball 200 50 14 1 (10 : ℝ) 2, make_ball 210 50 (-14) (-1) (10 : ℝ) 2) :=
  collide_defect_output 10 2 (by norm_num)

/-- C9. The resolver changes only the `dx` and `dy` fields of the two balls:
for every input, each resulting ball is the input ball with `dx` and `dy`
replaced, so the positions (`ballx`, `bally`, `oldx`, `oldy`), radius, mass and
every other field are the same after the call as before. -/
theorem collide_frame {F : Type} [LinearOrderedField F] [FloorRing F] (sqrt : F → F)
    (b1 b2 : BALL F) :
    (ball_math_collide sqrt b1 b2).1
        = { b1 with dx := (ball_math_collide sqrt b1 b2).1.dx,
                    dy := (ball_math_collide sqrt b1 b2).1.dy }
    ∧ (ball_math_collide sqrt b1 b2).2
        = { b2 with dx := (ball_math_collide sqrt b1 b2).2.dx,
                    dy := (ball_math_collide sqrt b1 b2).2.dy }
    ∧ (ball_math_collide sqrt b1 b2).1.ballx = b1.ballx
    ∧ (ball_math_collide sqrt b1 b2).1.bally = b1.bally
    ∧ (ball_math_collide sqrt b1 b2).1.oldx = b1.oldx
    ∧ (ball_math_collide sqrt b1 b2).1.oldy = b1.oldy
    ∧ (ball_math_collide sqrt b1 b2).1.radius = b1.radius
    ∧ (ball_math_collide sqrt b1 b2).1.mass = b1.mass
    ∧ (ball_math_collide sqrt b1 b2).2.ballx = b2.ballx
    ∧ (ball_math_collide sqrt b1 b2).2.bally = b2.bally
    ∧ (ball_math_collide sqrt b1 b2).2.oldx = b2.oldx
    ∧ (ball_math_collide sqrt b1 b2).2.oldy = b2.oldy
    ∧ (ball_math_collide sqrt b1 b2).2.radius = b2.radius
    ∧ (ball_math_collide sqrt b1 b2).2.mass = b2.mass := by
  simp [ball_math_collide]

/-! Properties of the paddle reflector. -/

/-- C10. For all inputs `(vx, vy, hit_pos, pad_size, paddle_dx)`, in particular
those with `vy > 0`, the paddle bounce returns `new_dy ≤ -MIN_DY_BALL = -2`, so
the ball travels strictly upward; and `new_dy` is exactly `-MIN_DY_BALL`
whenever the computed vertical component `Vy` is non-negative or rounds to a
value above `-MIN_DY_BALL` (for every `sqrt`, `atan`, `sin` and `cos`). -/
theorem paddle_bounce_upward {F : Type} [LinearOrderedField F] [FloorRing F]
    (sqrt atan sin cos : F → F) (vx vy hit_pos pad_size paddle_dx : Int) :
    (ball_math_paddle_bounce sqrt atan sin cos vx vy hit_pos pad_size paddle_dx).2
        ≤ -MIN_DY_BALL
    ∧ -MIN_DY_BALL = -2
    ∧ (ball_math_paddle_bounce sqrt atan sin cos vx vy hit_pos pad_size paddle_dx).2 < 0
    ∧ (0 ≤ (paddle_bounce_V sqrt atan sin cos vx vy hit_pos pad_size paddle_dx).2 →
        (ball_math_paddle_bounce sqrt atan sin cos vx vy hit_pos pad_size paddle_dx).2
          = -MIN_DY_BALL)
    ∧ (castInt ((paddle_bounce_V sqrt atan sin cos vx vy hit_pos pad_size paddle_dx).2
          - 1 / 2) > -MIN_DY_BALL →
        (ball_math_paddle_bounce sqrt atan sin cos vx vy hit_pos pad_size paddle_dx).2
          = -MIN_DY_BALL) := by
  simp only [ball_math_paddle_bounce, MIN_DY_BALL]
  refine ⟨?_, trivial, ?_, ?_, ?_⟩
  · split_ifs <;> omega
  · split_ifs <;> omega
  · intro h
    rw [if_neg (not_lt.mpr h)]
    simp
  · intro h
    split_ifs <;> omega

/-! Properties of the speed normalizer. -/

/-- The cast of `-1/2` is 0. -/
lemma castInt_neg_half {F : Type} [LinearOrderedField F] [FloorRing F] :
    castInt ((0 : F) - 1 / 2) = 0 :=
  castInt_of_neg _ 0 (by norm_num) (by norm_num) (by norm_num)

/-- C13. For every `speed_level` (in particular every `speed_level ≥ 0`), the
normalizer applied to `(dx, dy) = (0, 0)` yields exactly
`(MIN_DX_BALL, MIN_DY_BALL) = (2, 2)`, both positive (for every square-root
function). -/
theorem normalize_speed_zero {F : Type} [LinearOrderedField F] [FloorRing F]
    (sqrt : F → F) (speed_level : Int) :
    ball_math_normalize_speed sqrt 0 0 speed_level = (MIN_DX_BALL, MIN_DY_BALL)
    ∧ (MIN_DX_BALL, MIN_DY_BALL) = (2, 2) ∧ 0 < MIN_DX_BALL ∧ 0 < MIN_DY_BALL := by
  refine ⟨?_, rfl, by decide, by decide⟩
  simp only [ball_math_normalize_speed, Int.cast_zero, zero_mul, gt_iff_lt, lt_self_iff_false,
    if_false, castInt_neg_half, if_true]

/-- C14. For every input velocity `(dx, dy)` and every `speed_level`, neither
component is zero after the normalizer (for every square-root function). -/
theorem normalize_speed_nonzero {F : Type} [LinearOrderedField F] [FloorRing F]
    (sqrt : F → F) (dx dy speed_level : Int) :
    (ball_math_normalize_speed sqrt dx dy speed_level).1 ≠ 0
    ∧ (ball_math_normalize_speed sqrt dx dy speed_level).2 ≠ 0 := by
  simp only [ball_math_normalize_speed, MIN_DX_BALL, MIN_DY_BALL]
  constructor
  · split_ifs <;> first | assumption | decide
  · split_ifs <;> first | assumption | decide

/-! Properties of the grid locator. -/

/-- Truncating division of a non-negative integer by a positive one is floor
division. -/
lemma tdiv_of_nonneg (x w : Int) (hx : 0 ≤ x) (hw : 0 < w) : Int.tdiv x w = x / w :=
  Int.tdiv_eq_ediv hx hw.le

/-- Truncating division of a negative integer by a positive one is the negated
floor division of its magnitude. -/
lemma tdiv_of_neg (x w : Int) (hx : x < 0) (hw : 0 < w) : Int.tdiv x w = -((-x) / w) := by
  have h : Int.tdiv (-(-x)) w = -(Int.tdiv (-x) w) := Int.neg_tdiv (-x) w
  rw [neg_neg] at h
  rw [h, Int.tdiv_eq_ediv (by omega) hw.le]

/-- Truncating division by a positive integer is monotone in the dividend. -/
lemma tdiv_mono (x1 x2 w : Int) (hw : 0 < w) (h : x1 ≤ x2) : Int.tdiv x1 w ≤ Int.tdiv x2 w := by
  rcases lt_or_le x1 0 with h1 | h1
  · rcases lt_or_le x2 0 with h2 | h2
    · rw [tdiv_of_neg x1 w h1 hw, tdiv_of_neg x2 w h2 hw]
      have : (-x2) / w ≤ (-x1) / w := Int.ediv_le_ediv hw (by omega)
      omega
    · rw [tdiv_of_neg x1 w h1 hw, tdiv_of_nonneg x2 w h2 hw]
      have a1 : 0 ≤ (-x1) / w := Int.ediv_nonneg (by omega) hw.le
      have a2 : 0 ≤ x2 / w := Int.ediv_nonneg h2 hw.le
      omega
  · rw [tdiv_of_nonneg x1 w h1 hw, tdiv_of_nonneg x2 w (le_trans h1 h) hw]
    exact Int.ediv_le_ediv hw h

/-- C18. Grid mapping is monotone: for every fixed `col_width > 0` and all
integers `x1 ≤ x2` (negative values included),
`ball_math_x_to_col x1 col_width ≤ ball_math_x_to_col x2 col_width`; likewise
for `ball_math_y_to_row`. -/
theorem grid_mapping_monotone (x1 x2 w : Int) (hw : 0 < w) (h : x1 ≤ x2) :
    ball_math_x_to_col x1 w ≤ ball_math_x_to_col x2 w
    ∧ ball_math_y_to_row x1 w ≤ ball_math_y_to_row x2 w :=
  ⟨tdiv_mono x1 x2 w hw h, tdiv_mono x1 x2 w hw h⟩

/-- Witness for C18 with the column width 55 and a negative coordinate. -/
theorem grid_mapping_monotone_witness :
    ball_math_x_to_col (-60) 55 ≤ ball_math_x_to_col 54 55
    ∧ ball_math_y_to_row (-60) 55 ≤ ball_math_y_to_row 54 55 :=
  grid_mapping_monotone (-60) 54 55 (by decide) (by decide)

/-- The floor of the rational quotient of two integers with a positive divisor
is the integer floor division. -/
lemma floor_intCast_div (x w : Int) (hw : 0 < w) :
    Int.floor ((x : ℚ) / (w : ℚ)) = x / w := by
  have hwq : (0 : ℚ) < (w : ℚ) := by exact_mod_cast hw
  rw [Int.floor_eq_iff]
  constructor
  · rw [le_div_iff₀ hwq]
    exact_mod_cast Int.ediv_mul_le x hw.ne'
  · rw [div_lt_iff₀ hwq]
    exact_mod_cast Int.lt_ediv_add_one_mul_self x hw

/-- The ceiling of the rational quotient of two integers with a positive
divisor is the negated floor division of the negated dividend. -/
lemma ceil_intCast_div (x w : Int) (hw : 0 < w) :
    Int.ceil ((x : ℚ) / (w : ℚ)) = -((-x) / w) := by
  have h : (x : ℚ) / (w : ℚ) = -(((-x : Int) : ℚ) / (w : ℚ)) := by
    push_cast
    ring
  rw [h, Int.ceil_neg, floor_intCast_div (-x) w hw]

/-- Truncating division by a positive integer is negative exactly when the
dividend is at most the negated divisor. -/
lemma tdiv_neg_iff (x w : Int) (hw : 0 < w) : Int.tdiv x w < 0 ↔ x ≤ -w := by
  rcases lt_or_le x 0 with hx | hx
  · rw [tdiv_of_neg x w hx hw]
    have h := Int.le_ediv_iff_mul_le (a := 1) (b := -x) hw
    constructor
    · intro hlt
      have h1 : 1 ≤ (-x) / w := by omega
      have := h.mp h1
      omega
    · intro hle
      have h1 : 1 ≤ (-x) / w := h.mpr (by omega)
      omega
  · rw [tdiv_of_nonneg x w hx hw]
    have := Int.ediv_nonneg hx hw.le
    constructor
    · intro hlt
      omega
    · intro hle
      omega

/-- Counterexample to C19 as stated: the pixel coordinate `-1` with cell size
55 maps to index 0, while `floor(-1/55) = -1`; the negative coordinate does not
yield a negative index. -/
theorem grid_floor_counterexample :
    ball_math_x_to_col (-1) 55 = 0
    ∧ Int.floor (((-1 : Int) : ℚ) / ((55 : Int) : ℚ)) = -1
    ∧ ball_math_x_to_col (-1) 55 ≠ Int.floor (((-1 : Int) : ℚ) / ((55 : Int) : ℚ))
    ∧ ¬ ball_math_x_to_col (-1) 55 < 0 := by
  have hf : Int.floor (((-1 : Int) : ℚ) / ((55 : Int) : ℚ)) = -1 := by
    rw [floor_intCast_div (-1) 55 (by decide)]
    decide
  have hc : ball_math_x_to_col (-1) 55 = 0 := by decide
  refine ⟨hc, hf, ?_, ?_⟩
  · rw [hc, hf]
    decide
  · rw [hc]
    decide

/-- C19 (amended). The grid functions are C integer division, truncating toward
zero: for every positive cell size the result is `floor(x / col_width)` when
`x ≥ 0` and `ceil(x / col_width)` when `x < 0`; the index is negative exactly
when `x ≤ -col_width`, so coordinates in `(-col_width, 0)` map to index 0.
The same holds for `ball_math_y_to_row`. -/
theorem grid_mapping_truncates (x w : Int) (hw : 0 < w) :
    (0 ≤ x → ball_math_x_to_col x w = Int.floor ((x : ℚ) / (w : ℚ))
      ∧ ball_math_y_to_row x w = Int.floor ((x : ℚ) / (w : ℚ)))
    ∧ (x < 0 → ball_math_x_to_col x w = Int.ceil ((x : ℚ) / (w : ℚ))
      ∧ ball_math_y_to_row x w = Int.ceil ((x : ℚ) / (w : ℚ)))
    ∧ (ball_math_x_to_col x w < 0 ↔ x ≤ -w)
    ∧ (ball_math_y_to_row x w < 0 ↔ x ≤ -w) := by
  refine ⟨?_, ?_, tdiv_neg_iff x w hw, tdiv_neg_iff x w hw⟩
  · intro hx
    rw [floor_intCast_div x w hw]
    exact ⟨tdiv_of_nonneg x w hx hw, tdiv_of_nonneg x w hx hw⟩
  · intro hx
    rw [ceil_intCast_div x w hw]
    exact ⟨tdiv_of_neg x w hx hw, tdiv_of_neg x w hx hw⟩

/-- Witness for the amended C19 at the coordinate `-1` with cell size 55. -/
theorem grid_mapping_truncates_witness :
    ((0 : Int) ≤ -1 → ball_math_x_to_col (-1) 55
        = Int.floor (((-1 : Int) : ℚ) / ((55 : Int) : ℚ))
      ∧ ball_math_y_to_row (-1) 55 = Int.floor (((-1 : Int) : ℚ) / ((55 : Int) : ℚ)))
    ∧ ((-1 : Int) < 0 → ball_math_x_to_col (-1) 55
        = Int.ceil (((-1 : Int) : ℚ) / ((55 : Int) : ℚ))
      ∧ ball_math_y_to_row (-1) 55 = Int.ceil (((-1 : Int) : ℚ) / ((55 : Int) : ℚ)))
    ∧ (ball_math_x_to_col (-1) 55 < 0 ↔ (-1 : Int) ≤ -55)
    ∧ (ball_math_y_to_row (-1) 55 < 0 ↔ (-1 : Int) ≤ -55) :=
  grid_mapping_truncates (-1) 55 (by decide)

/-- C20. For every `x ≥ 0` and `col_width > 0`, `c = ball_math_x_to_col x
col_width` is the unique index with `c*col_width ≤ x < (c+1)*col_width` (with
width 55: 0 and 54 map to 0, 55 to 1, 494 to 8); the same holds for
`ball_math_y_to_row` (with height 32: 31 maps to 0, 32 to 1, 575 to 17). -/
theorem grid_cell_unique (x w : Int) (hx : 0 ≤ x) (hw : 0 < w) :
    (ball_math_x_to_col x w * w ≤ x ∧ x < (ball_math_x_to_col x w + 1) * w
      ∧ ∀ c : Int, c * w ≤ x → x < (c + 1) * w → c = ball_math_x_to_col x w)
    ∧ (ball_math_y_to_row x w * w ≤ x ∧ x < (ball_math_y_to_row x w + 1) * w
      ∧ ∀ r : Int, r * w ≤ x → x < (r + 1) * w → r = ball_math_y_to_row x w)
    ∧ ball_math_x_to_col 0 55 = 0 ∧ ball_math_x_to_col 54 55 = 0
    ∧ ball_math_x_to_col 55 55 = 1 ∧ ball_math_x_to_col 494 55 = 8
    ∧ ball_math_y_to_row 31 32 = 0 ∧ ball_math_y_to_row 32 32 = 1
    ∧ ball_math_y_to_row 575 32 = 17 := by
  have key : Int.tdiv x w * w ≤ x ∧ x < (Int.tdiv x w + 1) * w
      ∧ ∀ c : Int, c * w ≤ x → x < (c + 1) * w → c = Int.tdiv x w := by
    rw [tdiv_of_nonneg x w hx hw]
    have h1 : x / w * w ≤ x := Int.ediv_mul_le x hw.ne'
    have h2 : x < (x / w + 1) * w := Int.lt_ediv_add_one_mul_self x hw
    refine ⟨h1, h2, ?_⟩
    intro c hc1 hc2
    have a1 : c * w < (x / w + 1) * w := lt_of_le_of_lt hc1 h2
    have a2 : x / w * w < (c + 1) * w := lt_of_le_of_lt h1 hc2
    have b1 : c < x / w + 1 := lt_of_mul_lt_mul_right a1 hw.le
    have b2 : x / w < c + 1 := lt_of_mul_lt_mul_right a2 hw.le
    omega
  exact ⟨key, key, by decide, by decide, by decide, by decide, by decide, by decide,
    by decide⟩

/-- Witness for C20 at the last pixel of the play field, `x = 494` with width
55. -/
theorem grid_cell_unique_witness :
    (ball_math_x_to_col 494 55 * 55 ≤ 494 ∧ 494 < (ball_math_x_to_col 494 55 + 1) * 55
      ∧ ∀ c : Int, c * 55 ≤ 494 → 494 < (c + 1) * 55 → c = ball_math_x_to_col 494 55)
    ∧ (ball_math_y_to_row 494 55 * 55 ≤ 494 ∧ 494 < (ball_math_y_to_row 494 55 + 1) * 55
      ∧ ∀ r : Int, r * 55 ≤ 494 → 494 < (r + 1) * 55 → r = ball_math_y_to_row 494 55)
    ∧ ball_math_x_to_col 0 55 = 0 ∧ ball_math_x_to_col 54 55 = 0
    ∧ ball_math_x_to_col 55 55 = 1 ∧ ball_math_x_to_col 494 55 = 8
    ∧ ball_math_y_to_row 31 32 = 0 ∧ ball_math_y_to_row 32 32 = 1
    ∧ ball_math_y_to_row 575 32 = 17 :=
  grid_cell_unique 494 55 (by decide) (by decide)

/-! Further properties of the paddle reflector and the speed normalizer
(exact arithmetic over the reals). -/

/-- The cast of an integer plus one half is that integer, when it is
non-negative. -/
lemma castInt_int_add_half {F : Type} [LinearOrderedField F] [FloorRing F] (n : Int)
    (hn : 0 ≤ n) : castInt ((n : F) + 1 / 2) = n := by
  have h0 : (0 : F) ≤ (n : F) := by exact_mod_cast hn
  exact castInt_of_nonneg _ n (by linarith) (by linarith) (by linarith)

/-- The cast of an integer minus one half is that integer, when it is
non-positive. -/
lemma castInt_int_sub_half {F : Type} [LinearOrderedField F] [FloorRing F] (n : Int)
    (hn : n ≤ 0) : castInt ((n : F) - 1 / 2) = n := by
  have h0 : (n : F) ≤ 0 := by exact_mod_cast hn
  exact castInt_of_neg _ n (by linarith) (by linarith) (by linarith)

/-- The sign-aware half-rounding of the source leaves an integer value
unchanged. -/
lemma half_round_int {F : Type} [LinearOrderedField F] [FloorRing F] (n : Int) :
    (if (n : F) > 0 then castInt ((n : F) + 1 / 2) else castInt ((n : F) - 1 / 2)) = n := by
  split_ifs with h
  · have : 0 < n := by exact_mod_cast h
    exact castInt_int_add_half n this.le
  · have : n ≤ 0 := by exact_mod_cast not_lt.mp h
    exact castInt_int_sub_half n this

/-- The sign-aware half-rounding of the source is within one half of its
argument. -/
lemma half_round_err {F : Type} [LinearOrderedField F] [FloorRing F] (x : F) :
    |(((if x > 0 then castInt (x + 1 / 2) else castInt (x - 1 / 2) : Int) : F)) - x|
      ≤ 1 / 2 := by
  rw [abs_le]
  split_ifs with h
  · have h0 : (0 : F) ≤ x + 1 / 2 := by linarith
    unfold castInt
    rw [if_pos h0]
    have h1 := Int.floor_le (x + 1 / 2)
    have h2 := Int.lt_floor_add_one (x + 1 / 2)
    constructor <;> linarith
  · have h0 : ¬ (0 : F) ≤ x - 1 / 2 := by
      have := not_lt.mp h
      intro hc
      linarith
    unfold castInt
    rw [if_neg h0]
    have h1 := Int.le_ceil (x - 1 / 2)
    have h2 := Int.ceil_lt_add_one (x - 1 / 2)
    constructor <;> linarith

/-- The sign-aware half-rounding of the source is rounding to the nearest
integer with ties away from zero. -/
lemma half_round_eq {F : Type} [LinearOrderedField F] [FloorRing F] (x : F) :
    (if x > 0 then castInt (x + 1 / 2) else castInt (x - 1 / 2)) = round_half_away x := by
  unfold round_half_away castInt
  rcases lt_trichotomy x 0 with h | h | h
  · have h0 : ¬ (0 : F) ≤ x - 1 / 2 := by intro hc; linarith
    rw [if_neg (not_lt.mpr h.le), if_neg h0, if_pos h, round_eq]
    have : -x + 1 / 2 = -(x - 1 / 2) := by ring
    rw [this, Int.floor_neg, neg_neg]
  · subst h
    have h0 : ¬ (0 : F) ≤ 0 - 1 / 2 := by norm_num
    rw [if_neg (lt_irrefl 0), if_neg h0, if_neg (lt_irrefl 0), round_zero]
    exact Int.ceil_eq_iff.mpr ⟨by norm_num, by norm_num⟩
  · have h0 : (0 : F) ≤ x + 1 / 2 := by linarith
    rw [if_pos h, if_pos h0, if_neg (not_lt.mpr h.le), round_eq]

/-- A centre hit on a stationary paddle mirrors the velocity: in exact
arithmetic the computed `(Vx, Vy)` is `(vx, -vy)` when `vy > 0`. -/
lemma paddle_bounce_V_centre (vx vy pad_size : Int) (hvy : 0 < vy) :
    paddle_bounce_V Real.sqrt Real.arctan Real.sin Real.cos vx vy 0 pad_size 0
      = ((vx : ℝ), -(vy : ℝ)) := by
  have hy : (0 : ℝ) < (vy : ℝ) := by exact_mod_cast hvy
  set x : ℝ := (vx : ℝ) with hx_def
  set y : ℝ := (vy : ℝ) with hy_def
  have hS : 0 < Real.sqrt (x * x + y * y) := Real.sqrt_pos.mpr (by nlinarith)
  have hq : Real.sqrt (1 + (x / y) ^ 2) = Real.sqrt (x * x + y * y) / y := by
    have e : 1 + (x / y) ^ 2 = (x * x + y * y) / y ^ 2 := by
      field_simp
      ring
    rw [e, Real.sqrt_div (by nlinarith), Real.sqrt_sq hy.le]
  have hg : 2 * Real.arctan (((0 : Int) : ℝ) / ((pad_size : ℝ) / 1)) - Real.arctan (x / -y)
      = Real.arctan (x / y) := by
    rw [Int.cast_zero, zero_div, Real.arctan_zero, div_neg, Real.arctan_neg]
    ring
  simp only [paddle_bounce_V]
  rw [← hx_def, ← hy_def, hg, Real.sin_arctan, Real.cos_arctan, hq]
  refine Prod.ext ?_ ?_
  · simp only [Int.cast_zero, zero_div, add_zero]
    field_simp
  · simp only
    field_simp
    ring

/-- A centre hit on a stationary paddle returns `(vx, -vy)` when
`vy ≥ MIN_DY_BALL`, and `(vx, -MIN_DY_BALL)` when `vy = 1`. -/
lemma paddle_bounce_centre (vx vy pad_size : Int) (hvy : 0 < vy) :
    ball_math_paddle_bounce Real.sqrt Real.arctan Real.sin Real.cos vx vy 0 pad_size 0
      = (vx, if -vy > -MIN_DY_BALL then -MIN_DY_BALL else -vy) := by
  have hy : (0 : ℝ) < (vy : ℝ) := by exact_mod_cast hvy
  have hneg : (-(vy : ℝ)) < 0 := by linarith
  have hc : castInt (-(vy : ℝ) - 1 / 2) = -vy := by
    have := castInt_int_sub_half (F := ℝ) (-vy) (by omega)
    rwa [Int.cast_neg] at this
  simp only [ball_math_paddle_bounce, paddle_bounce_V_centre vx vy pad_size hvy]
  rw [half_round_int vx, if_pos hneg, hc]

/-- C11. Centre hit on a stationary paddle is a mirror reflection: in exact
arithmetic, for every integer `vx`, every `vy ≥ MIN_DY_BALL` and `pad_size > 0`,
`ball_math_paddle_bounce(vx, vy, 0, pad_size, 0)` returns `(vx, -vy)`; in
particular a straight-down ball (`vx = 0`) gets `new_dx = 0`, the input
`(0, 5, 0, 50, 0)` gives `(0, -5)`, and for `vy = 1` the result is
`(vx, -MIN_DY_BALL)`. -/
theorem paddle_bounce_centre_mirror (vx vy pad_size : Int) (hvy : MIN_DY_BALL ≤ vy)
    (_hpad : 0 < pad_size) :
    ball_math_paddle_bounce Real.sqrt Real.arctan Real.sin Real.cos vx vy 0 pad_size 0
        = (vx, -vy)
    ∧ (ball_math_paddle_bounce Real.sqrt Real.arctan Real.sin Real.cos 0 vy 0 pad_size 0).1
        = 0
    ∧ ball_math_paddle_bounce Real.sqrt Real.arctan Real.sin Real.cos 0 5 0 50 0 = (0, -5)
    ∧ ball_math_paddle_bounce Real.sqrt Real.arctan Real.sin Real.cos vx 1 0 pad_size 0
        = (vx, -MIN_DY_BALL) := by
  have h2 : (2 : Int) ≤ vy := hvy
  have hpos : 0 < vy := by omega
  have hif : ¬ (-vy > -MIN_DY_BALL) := by
    simp only [MIN_DY_BALL]
    omega
  refine ⟨?_, ?_, ?_, ?_⟩
  · rw [paddle_bounce_centre vx vy pad_size hpos, if_neg hif]
  · rw [paddle_bounce_centre 0 vy pad_size hpos]
  · rw [paddle_bounce_centre 0 5 50 (by decide)]
    rfl
  · rw [paddle_bounce_centre vx 1 pad_size (by decide)]
    rfl

/-- Witness for C11 on the fixture of `test_paddle_bounce_center`. -/
theorem paddle_bounce_centre_mirror_witness :
    ball_math_paddle_bounce Real.sqrt Real.arctan Real.sin Real.cos 0 5 0 50 0 = (0, -5)
    ∧ (ball_math_paddle_bounce Real.sqrt Real.arctan Real.sin Real.cos 0 5 0 50 0).1 = 0
    ∧ ball_math_paddle_bounce Real.sqrt Real.arctan Real.sin Real.cos 0 5 0 50 0 = (0, -5)
    ∧ ball_math_paddle_bounce Real.sqrt Real.arctan Real.sin Real.cos 0 1 0 50 0
        = (0, -MIN_DY_BALL) :=
  paddle_bounce_centre_mirror 0 5 50 (by decide) (by decide)

/-- Rounding both components of a plane vector of length `S` to within one half
changes its length by at most `sqrt 2 / 2`. -/
lemma norm_round_err (a b x y S : ℝ) (hS : 0 ≤ S) (hxy : x ^ 2 + y ^ 2 = S ^ 2)
    (ha : |a - x| ≤ 1 / 2) (hb : |b - y| ≤ 1 / 2) :
    |Real.sqrt (a ^ 2 + b ^ 2) - S| ≤ Real.sqrt 2 / 2 := by
  set N : ℝ := Real.sqrt (a ^ 2 + b ^ 2) with hN_def
  have hN0 : 0 ≤ N := Real.sqrt_nonneg _
  have hN2 : N ^ 2 = a ^ 2 + b ^ 2 := Real.sq_sqrt (by positivity)
  have ha2 : (a - x) ^ 2 ≤ 1 / 4 := by
    have := abs_le.mp ha
    nlinarith
  have hb2 : (b - y) ^ 2 ≤ 1 / 4 := by
    have := abs_le.mp hb
    nlinarith
  have hcs : a * x + b * y ≤ N * S := by
    have h1 : (a * x + b * y) ^ 2 ≤ (N * S) ^ 2 := by
      rw [mul_pow, hN2, ← hxy]
      nlinarith [sq_nonneg (a * y - b * x)]
    have h2 : 0 ≤ N * S := mul_nonneg hN0 hS
    exact le_trans (le_abs_self _) (abs_le_of_sq_le_sq h1 h2)
  have hsq : (N - S) ^ 2 ≤ 1 / 2 := by nlinarith
  have h2 : (Real.sqrt 2 / 2) ^ 2 = 1 / 2 := by
    rw [div_pow, Real.sq_sqrt (by norm_num)]
    norm_num
  have h3 : 0 ≤ Real.sqrt 2 / 2 := by positivity
  exact abs_le_of_sq_le_sq (by rw [h2]; exact hsq) h3

/-- The velocity computed before rounding, in terms of the incoming speed and
the reflection angle. -/
lemma paddle_bounce_V_eq {F : Type} [LinearOrderedField F] (sqrt atan sin cos : F → F)
    (vx vy hit_pos pad_size paddle_dx : Int) :
    paddle_bounce_V sqrt atan sin cos vx vy hit_pos pad_size paddle_dx
      = (paddle_speed sqrt vx vy * sin (paddle_gamma atan vx vy hit_pos pad_size)
          + (paddle_dx : F) / 10,
         -paddle_speed sqrt vx vy * cos (paddle_gamma atan vx vy hit_pos pad_size)) :=
  rfl

/-- C12. Paddle bounce preserves speed magnitude: in exact arithmetic, for
`paddle_dx = 0` and whenever the returned `new_dy` is below `-MIN_DY_BALL`,
`new_dx` is within 1/2 of `speed*sin(gamma)`, `new_dy` is within 1/2 of
`-speed*cos(gamma)`, and `sqrt(new_dx^2 + new_dy^2)` differs from the incoming
speed `sqrt(vx^2 + vy^2)` by at most `sqrt(2)/2`. -/
theorem paddle_bounce_speed (vx vy hit_pos pad_size : Int)
    (h : (ball_math_paddle_bounce Real.sqrt Real.arctan Real.sin Real.cos
        vx vy hit_pos pad_size 0).2 < -MIN_DY_BALL) :
    |(((ball_math_paddle_bounce Real.sqrt Real.arctan Real.sin Real.cos
          vx vy hit_pos pad_size 0).1 : Int) : ℝ)
        - paddle_speed Real.sqrt vx vy
          * Real.sin (paddle_gamma Real.arctan vx vy hit_pos pad_size)| ≤ 1 / 2
    ∧ |(((ball_math_paddle_bounce Real.sqrt Real.arctan Real.sin Real.cos
          vx vy hit_pos pad_size 0).2 : Int) : ℝ)
        - -paddle_speed Real.sqrt vx vy
          * Real.cos (paddle_gamma Real.arctan vx vy hit_pos pad_size)| ≤ 1 / 2
    ∧ |Real.sqrt ((((ball_math_paddle_bounce Real.sqrt Real.arctan Real.sin Real.cos
            vx vy hit_pos pad_size 0).1 : Int) : ℝ) ^ 2
          + (((ball_math_paddle_bounce Real.sqrt Real.arctan Real.sin Real.cos
            vx vy hit_pos pad_size 0).2 : Int) : ℝ) ^ 2)
        - Real.sqrt ((vx : ℝ) ^ 2 + (vy : ℝ) ^ 2)| ≤ Real.sqrt 2 / 2 := by
  set S : ℝ := paddle_speed Real.sqrt vx vy with hS_def
  set g : ℝ := paddle_gamma Real.arctan vx vy hit_pos pad_size with hg_def
  have hS0 : 0 ≤ S := Real.sqrt_nonneg _
  have hSeq : Real.sqrt ((vx : ℝ) ^ 2 + (vy : ℝ) ^ 2) = S := by
    rw [hS_def, paddle_speed, pow_two, pow_two]
  have hV : paddle_bounce_V Real.sqrt Real.arctan Real.sin Real.cos vx vy hit_pos pad_size 0
      = (S * Real.sin g, -S * Real.cos g) := by
    rw [paddle_bounce_V_eq, Int.cast_zero, zero_div, add_zero]
  simp only [ball_math_paddle_bounce, hV] at h ⊢
  have hx := half_round_err (S * Real.sin g)
  have hy := half_round_err (-S * Real.cos g)
  have hneg : -S * Real.cos g < 0 := by
    by_contra hc
    rw [if_neg hc] at h
    simp only [MIN_DY_BALL] at h
    split_ifs at h <;> omega
  rw [if_neg (not_lt.mpr hneg.le)] at hy
  rw [if_pos hneg] at h ⊢
  have hnc : ¬ castInt (-S * Real.cos g - 1 / 2) > -MIN_DY_BALL := by
    intro hc
    rw [if_pos hc] at h
    exact lt_irrefl _ h
  rw [if_neg hnc]
  refine ⟨hx, hy, ?_⟩
  rw [hSeq]
  refine norm_round_err _ _ (S * Real.sin g) (-S * Real.cos g) S hS0 ?_ hx hy
  have := Real.sin_sq_add_cos_sq g
  nlinarith

/-- Witness for C12 on the fixture of `test_paddle_bounce_center`, where the
bounce returns `(0, -5)`. -/
theorem paddle_bounce_speed_witness :
    (ball_math_paddle_bounce Real.sqrt Real.arctan Real.sin Real.cos 0 5 0 50 0).2
        < -MIN_DY_BALL
    ∧ |(((ball_math_paddle_bounce Real.sqrt Real.arctan Real.sin Real.cos
          0 5 0 50 0).1 : Int) : ℝ)
        - paddle_speed Real.sqrt 0 5 * Real.sin (paddle_gamma Real.arctan 0 5 0 50)| ≤ 1 / 2
    ∧ |(((ball_math_paddle_bounce Real.sqrt Real.arctan Real.sin Real.cos
          0 5 0 50 0).2 : Int) : ℝ)
        - -paddle_speed Real.sqrt 0 5 * Real.cos (paddle_gamma Real.arctan 0 5 0 50)| ≤ 1 / 2
    ∧ |Real.sqrt ((((ball_math_paddle_bounce Real.sqrt Real.arctan Real.sin Real.cos
            0 5 0 50 0).1 : Int) : ℝ) ^ 2
          + (((ball_math_paddle_bounce Real.sqrt Real.arctan Real.sin Real.cos
            0 5 0 50 0).2 : Int) : ℝ) ^ 2)
        - Real.sqrt (((0 : Int) : ℝ) ^ 2 + ((5 : Int) : ℝ) ^ 2)| ≤ Real.sqrt 2 / 2 :=
  have hlt : (ball_math_paddle_bounce Real.sqrt Real.arctan Real.sin Real.cos 0 5 0 50 0).2
      < -MIN_DY_BALL := by
    rw [paddle_bounce_centre 0 5 50 (by decide)]
    decide
  ⟨hlt, paddle_bounce_speed 0 5 0 50 hlt⟩

/-- The normalizer in terms of its scale factor: each component is the
sign-aware half-rounding of `d * beta`, with 0 replaced by the positive
minimum. -/
lemma normalize_speed_unfold {F : Type} [LinearOrderedField F] [FloorRing F]
    (sqrt : F → F) (dx dy speed_level : Int) :
    ball_math_normalize_speed sqrt dx dy speed_level
      = (if (if (dx : F) * normalize_beta sqrt dx dy speed_level > 0
              then castInt ((dx : F) * normalize_beta sqrt dx dy speed_level + 1 / 2)
              else castInt ((dx : F) * normalize_beta sqrt dx dy speed_level - 1 / 2)) = 0
            then MIN_DX_BALL
            else (if (dx : F) * normalize_beta sqrt dx dy speed_level > 0
              then castInt ((dx : F) * normalize_beta sqrt dx dy speed_level + 1 / 2)
              else castInt ((dx : F) * normalize_beta sqrt dx dy speed_level - 1 / 2)),
         if (if (dy : F) * normalize_beta sqrt dx dy speed_level > 0
              then castInt ((dy : F) * normalize_beta sqrt dx dy speed_level + 1 / 2)
              else castInt ((dy : F) * normalize_beta sqrt dx dy speed_level - 1 / 2)) = 0
            then MIN_DY_BALL
            else (if (dy : F) * normalize_beta sqrt dx dy speed_level > 0
              then castInt ((dy : F) * normalize_beta sqrt dx dy speed_level + 1 / 2)
              else castInt ((dy : F) * normalize_beta sqrt dx dy speed_level - 1 / 2))) :=
  rfl

/-- The sign-aware half-rounding of a value strictly within one half of the
integer `z` is `z`. -/
lemma half_round_of_bounds {F : Type} [LinearOrderedField F] [FloorRing F] (x : F) (z : Int)
    (h1 : (z : F) - 1 / 2 < x) (h2 : x < (z : F) + 1 / 2) :
    (if x > 0 then castInt (x + 1 / 2) else castInt (x - 1 / 2)) = z := by
  split_ifs with h
  · exact castInt_of_nonneg _ z (by linarith) (by linarith) (by linarith)
  · have h0 : x ≤ 0 := not_lt.mp h
    exact castInt_of_neg _ z (by linarith) (by linarith) (by linarith)

/-- Bounds on `sqrt(14^2 + 14^2)`. -/
lemma sqrt_392_bounds : (19.79 : ℝ) < Real.sqrt 392 ∧ Real.sqrt 392 < 19.8 := by
  constructor
  · rw [Real.lt_sqrt (by norm_num)]
    norm_num
  · rw [Real.sqrt_lt' (by norm_num)]
    norm_num

/-- The constant `alpha` of the normalizer before scaling is `sqrt 392`. -/
lemma max_vel_diag :
    Real.sqrt (((MAX_X_VEL : Int) : ℝ) * ((MAX_X_VEL : Int) : ℝ)
      + ((MAX_Y_VEL : Int) : ℝ) * ((MAX_Y_VEL : Int) : ℝ)) = Real.sqrt 392 := by
  congr 1
  simp only [MAX_X_VEL, MAX_Y_VEL]
  norm_num

/-- The scale factor over the reals, with the constant evaluated. -/
lemma normalize_beta_real (dx dy speed_level : Int) :
    normalize_beta Real.sqrt dx dy speed_level
      = Real.sqrt 392 / 9 * (speed_level : ℝ)
        / (if Real.sqrt ((dx : ℝ) * (dx : ℝ) + (dy : ℝ) * (dy : ℝ)) = 0 then 1
            else Real.sqrt ((dx : ℝ) * (dx : ℝ) + (dy : ℝ) * (dy : ℝ))) := by
  simp only [normalize_beta, max_vel_diag]

/-- The scale factor for the input `(3, -4)` at level 5 is `sqrt 392 / 9`. -/
lemma normalize_beta_3_4_5 : normalize_beta Real.sqrt 3 (-4) 5 = Real.sqrt 392 / 9 := by
  have h25 : Real.sqrt (((3 : Int) : ℝ) * ((3 : Int) : ℝ)
      + ((-4 : Int) : ℝ) * ((-4 : Int) : ℝ)) = 5 := by
    rw [show ((3 : Int) : ℝ) * ((3 : Int) : ℝ) + ((-4 : Int) : ℝ) * ((-4 : Int) : ℝ)
      = 5 ^ 2 by norm_num]
    exact Real.sqrt_sq (by norm_num)
  rw [normalize_beta_real, h25]
  norm_num

/-- The input `(3, -4)` at level 5 becomes `(7, -9)`. -/
lemma normalize_speed_3_4_5 : ball_math_normalize_speed Real.sqrt 3 (-4) 5 = (7, -9) := by
  obtain ⟨hl, hu⟩ := sqrt_392_bounds
  have hx : (if ((3 : Int) : ℝ) * (Real.sqrt 392 / 9) > 0
      then castInt (((3 : Int) : ℝ) * (Real.sqrt 392 / 9) + 1 / 2)
      else castInt (((3 : Int) : ℝ) * (Real.sqrt 392 / 9) - 1 / 2)) = 7 := by
    apply half_round_of_bounds <;> push_cast <;> linarith
  have hy : (if ((-4 : Int) : ℝ) * (Real.sqrt 392 / 9) > 0
      then castInt (((-4 : Int) : ℝ) * (Real.sqrt 392 / 9) + 1 / 2)
      else castInt (((-4 : Int) : ℝ) * (Real.sqrt 392 / 9) - 1 / 2)) = -9 := by
    apply half_round_of_bounds <;> push_cast <;> linarith
  rw [normalize_speed_unfold, normalize_beta_3_4_5, hx, hy]
  rfl

/-- The scale factor for the input `(1, 0)` at level 9 is `sqrt 392`. -/
lemma normalize_beta_1_0_9 : normalize_beta Real.sqrt 1 0 9 = Real.sqrt 392 := by
  have h1 : Real.sqrt (((1 : Int) : ℝ) * ((1 : Int) : ℝ)
      + ((0 : Int) : ℝ) * ((0 : Int) : ℝ)) = 1 := by
    rw [show ((1 : Int) : ℝ) * ((1 : Int) : ℝ) + ((0 : Int) : ℝ) * ((0 : Int) : ℝ)
      = 1 by norm_num]
    exact Real.sqrt_one
  rw [normalize_beta_real, h1]
  norm_num

/-- The input `(1, 0)` at level 9 becomes `(20, 2)`. -/
lemma normalize_speed_1_0_9 : ball_math_normalize_speed Real.sqrt 1 0 9 = (20, 2) := by
  obtain ⟨hl, hu⟩ := sqrt_392_bounds
  have hx : (if ((1 : Int) : ℝ) * Real.sqrt 392 > 0
      then castInt (((1 : Int) : ℝ) * Real.sqrt 392 + 1 / 2)
      else castInt (((1 : Int) : ℝ) * Real.sqrt 392 - 1 / 2)) = 20 := by
    apply half_round_of_bounds <;> push_cast <;> linarith
  have hy : (if ((0 : Int) : ℝ) * Real.sqrt 392 > 0
      then castInt (((0 : Int) : ℝ) * Real.sqrt 392 + 1 / 2)
      else castInt (((0 : Int) : ℝ) * Real.sqrt 392 - 1 / 2)) = 0 := by
    apply half_round_of_bounds <;> push_cast <;> linarith
  rw [normalize_speed_unfold, normalize_beta_1_0_9, hx, hy]
  rfl

/-- Bounds on `sqrt 10001`. -/
lemma sqrt_10001_bounds : (100 : ℝ) < Real.sqrt 10001 ∧ Real.sqrt 10001 < 100.01 := by
  constructor
  · rw [Real.lt_sqrt (by norm_num)]
    norm_num
  · rw [Real.sqrt_lt' (by norm_num)]
    norm_num

/-- Bounds on `sqrt 392 / 9 / sqrt 10001`, the scale factor at level 1 for an
input of speed `sqrt 10001`. -/
lemma beta_10001_bounds :
    (0.015 : ℝ) < Real.sqrt 392 / 9 * ((1 : Int) : ℝ) / Real.sqrt 10001
    ∧ Real.sqrt 392 / 9 * ((1 : Int) : ℝ) / Real.sqrt 10001 < 0.025 := by
  obtain ⟨hl, hu⟩ := sqrt_392_bounds
  obtain ⟨sl, su⟩ := sqrt_10001_bounds
  have hs : (0 : ℝ) < Real.sqrt 10001 := by linarith
  constructor
  · rw [lt_div_iff₀ hs]
    push_cast
    linarith
  · rw [div_lt_iff₀ hs]
    push_cast
    linarith

/-- The input `(-1, -100)` at level 1 becomes `(2, -2)`: the leftward `dx`
collapses to 0 and is floored to `+MIN_DX_BALL`. -/
lemma normalize_speed_m1_m100_1 :
    ball_math_normalize_speed Real.sqrt (-1) (-100) 1 = (2, -2) := by
  obtain ⟨bl, bu⟩ := beta_10001_bounds
  obtain ⟨sl, su⟩ := sqrt_10001_bounds
  have hs : Real.sqrt (((-1 : Int) : ℝ) * ((-1 : Int) : ℝ)
      + ((-100 : Int) : ℝ) * ((-100 : Int) : ℝ)) = Real.sqrt 10001 := by
    congr 1
    norm_num
  have hb : normalize_beta Real.sqrt (-1) (-100) 1
      = Real.sqrt 392 / 9 * ((1 : Int) : ℝ) / Real.sqrt 10001 := by
    rw [normalize_beta_real, hs, if_neg (by linarith)]
  have hx : (if ((-1 : Int) : ℝ) * normalize_beta Real.sqrt (-1) (-100) 1 > 0
      then castInt (((-1 : Int) : ℝ) * normalize_beta Real.sqrt (-1) (-100) 1 + 1 / 2)
      else castInt (((-1 : Int) : ℝ) * normalize_beta Real.sqrt (-1) (-100) 1 - 1 / 2))
      = 0 := by
    rw [hb]
    apply half_round_of_bounds <;> push_cast <;> linarith
  have hy : (if ((-100 : Int) : ℝ) * normalize_beta Real.sqrt (-1) (-100) 1 > 0
      then castInt (((-100 : Int) : ℝ) * normalize_beta Real.sqrt (-1) (-100) 1 + 1 / 2)
      else castInt (((-100 : Int) : ℝ) * normalize_beta Real.sqrt (-1) (-100) 1 - 1 / 2))
      = -2 := by
    rw [hb]
    apply half_round_of_bounds <;> push_cast <;> linarith
  rw [normalize_speed_unfold, hx, hy]
  rfl

/-- The input `(-100, -1)` at level 1 becomes `(-2, 2)`: the upward `dy`
collapses to 0 and is floored to `+MIN_DY_BALL`. -/
lemma normalize_speed_m100_m1_1 :
    ball_math_normalize_speed Real.sqrt (-100) (-1) 1 = (-2, 2) := by
  obtain ⟨bl, bu⟩ := beta_10001_bounds
  obtain ⟨sl, su⟩ := sqrt_10001_bounds
  have hs : Real.sqrt (((-100 : Int) : ℝ) * ((-100 : Int) : ℝ)
      + ((-1 : Int) : ℝ) * ((-1 : Int) : ℝ)) = Real.sqrt 10001 := by
    congr 1
    norm_num
  have hb : normalize_beta Real.sqrt (-100) (-1) 1
      = Real.sqrt 392 / 9 * ((1 : Int) : ℝ) / Real.sqrt 10001 := by
    rw [normalize_beta_real, hs, if_neg (by linarith)]
  have hx : (if ((-100 : Int) : ℝ) * normalize_beta Real.sqrt (-100) (-1) 1 > 0
      then castInt (((-100 : Int) : ℝ) * normalize_beta Real.sqrt (-100) (-1) 1 + 1 / 2)
      else castInt (((-100 : Int) : ℝ) * normalize_beta Real.sqrt (-100) (-1) 1 - 1 / 2))
      = -2 := by
    rw [hb]
    apply half_round_of_bounds <;> push_cast <;> linarith
  have hy : (if ((-1 : Int) : ℝ) * normalize_beta Real.sqrt (-100) (-1) 1 > 0
      then castInt (((-1 : Int) : ℝ) * normalize_beta Real.sqrt (-100) (-1) 1 + 1 / 2)
      else castInt (((-1 : Int) : ℝ) * normalize_beta Real.sqrt (-100) (-1) 1 - 1 / 2))
      = 0 := by
    rw [hb]
    apply half_round_of_bounds <;> push_cast <;> linarith
  rw [normalize_speed_unfold, hx, hy]
  rfl

/-- C17. The normalizer's floor clamp is always positive and can reverse
direction: the input `(dx, dy) = (-1, -100)` at speed level 1 has `dx < 0`, its
scaled `dx` rounds to 0, and the normalizer returns `dx' = +MIN_DX_BALL > 0`
(the result is `(2, -2)`); symmetrically the upward `dy` of `(-100, -1)`
collapses to 0 and becomes `+MIN_DY_BALL`, downward (the result is `(-2, 2)`).
Exact arithmetic. -/
theorem normalize_speed_floor_reverses :
    (-1 : Int) < 0
    ∧ round_half_away (normalize_target Real.sqrt 1 * ((-1 : Int) : ℝ)
        / current_speed Real.sqrt (-1) (-100)) = 0
    ∧ ball_math_normalize_speed Real.sqrt (-1) (-100) 1 = (MIN_DX_BALL, -2)
    ∧ 0 < MIN_DX_BALL
    ∧ round_half_away (normalize_target Real.sqrt 1 * ((-1 : Int) : ℝ)
        / current_speed Real.sqrt (-100) (-1)) = 0
    ∧ ball_math_normalize_speed Real.sqrt (-100) (-1) 1 = (-2, MIN_DY_BALL)
    ∧ 0 < MIN_DY_BALL := by
  obtain ⟨bl, bu⟩ := beta_10001_bounds
  have hT : normalize_target Real.sqrt 1 = Real.sqrt 392 / 9 * ((1 : Int) : ℝ) := by
    simp only [normalize_target, MAX_X_VEL, MAX_Y_VEL]
    norm_num
  have hs1 : current_speed Real.sqrt (-1) (-100) = Real.sqrt 10001 := by
    simp only [current_speed]
    congr 1
    norm_num
  have hs2 : current_speed Real.sqrt (-100) (-1) = Real.sqrt 10001 := by
    simp only [current_speed]
    congr 1
    norm_num
  have hr : round_half_away (Real.sqrt 392 / 9 * ((1 : Int) : ℝ) * ((-1 : Int) : ℝ)
      / Real.sqrt 10001) = 0 := by
    rw [← half_round_eq]
    have e : Real.sqrt 392 / 9 * ((1 : Int) : ℝ) * ((-1 : Int) : ℝ) / Real.sqrt 10001
        = -(Real.sqrt 392 / 9 * ((1 : Int) : ℝ) / Real.sqrt 10001) := by
      push_cast
      ring
    rw [e]
    apply half_round_of_bounds <;> push_cast <;> linarith
  refine ⟨by decide, ?_, normalize_speed_m1_m100_1, by decide, ?_,
    normalize_speed_m100_m1_1, by decide⟩
  · rw [hT, hs1, hr]
  · rw [hT, hs2, hr]

/-- Scaling a plane vector to the length `α ≥ 0` (with the zero-length guard of
the source) leaves each component at most `α` in magnitude. -/
lemma scaled_le_core (u v α : ℝ) (hα : 0 ≤ α) :
    |u * (α / (if Real.sqrt (u * u + v * v) = 0 then 1 else Real.sqrt (u * u + v * v)))|
      ≤ α := by
  have hu : |u| ≤ Real.sqrt (u * u + v * v) :=
    Real.abs_le_sqrt (by nlinarith [mul_self_nonneg v])
  by_cases hs : Real.sqrt (u * u + v * v) = 0
  · rw [hs] at hu
    have : u = 0 := abs_eq_zero.mp (le_antisymm hu (abs_nonneg u))
    rw [this, zero_mul, abs_zero]
    exact hα
  · rw [if_neg hs]
    have hpos : 0 < Real.sqrt (u * u + v * v) :=
      lt_of_le_of_ne (Real.sqrt_nonneg _) (Ne.symm hs)
    rw [abs_mul, abs_of_nonneg (div_nonneg hα hpos.le)]
    calc |u| * (α / Real.sqrt (u * u + v * v))
        ≤ Real.sqrt (u * u + v * v) * (α / Real.sqrt (u * u + v * v)) :=
          mul_le_mul_of_nonneg_right hu (div_nonneg hα hpos.le)
      _ = α := by field_simp

/-- A value of magnitude below 19.8 half-rounds to an integer of magnitude at
most 20, also after a zero result is replaced by 2. -/
lemma half_round_clamp_le (x : ℝ) (m : Int) (hm : m = 2) (hx : |x| < 19.8) :
    |(if (if x > 0 then castInt (x + 1 / 2) else castInt (x - 1 / 2)) = 0 then m
        else (if x > 0 then castInt (x + 1 / 2) else castInt (x - 1 / 2)))| ≤ 20 := by
  have he := half_round_err x
  set r : Int := (if x > 0 then castInt (x + 1 / 2) else castInt (x - 1 / 2)) with hr
  have h1 := abs_le.mp he
  have h2 := abs_lt.mp hx
  have hlo : (-21 : ℝ) < (r : ℝ) := by linarith [h1.1, h2.1]
  have hhi : (r : ℝ) < 21 := by linarith [h1.2, h2.2]
  have hlo' : (-21 : Int) < r := by exact_mod_cast hlo
  have hhi' : r < 21 := by exact_mod_cast hhi
  split_ifs with h0
  · rw [hm]
    decide
  · rw [abs_le]
    constructor <;> omega

/-- Counterexample to C16 as stated: the input `(1, 0)` at speed level 9 (within
0..9) becomes `(20, 2)`, and `|20| > MAX_X_VEL = 14`. -/
theorem normalize_speed_cap_counterexample :
    (0 : Int) ≤ 9 ∧ (9 : Int) ≤ 9
    ∧ ball_math_normalize_speed Real.sqrt 1 0 9 = (20, 2)
    ∧ ¬ (|(ball_math_normalize_speed Real.sqrt 1 0 9).1| ≤ MAX_X_VEL
        ∧ |(ball_math_normalize_speed Real.sqrt 1 0 9).2| ≤ MAX_Y_VEL) := by
  refine ⟨by decide, by decide, normalize_speed_1_0_9, ?_⟩
  rw [normalize_speed_1_0_9]
  decide

/-- C16 (amended). The normalizer bounds the speed magnitude, not each axis by
`MAX_X_VEL`: for every input velocity and every `speed_level` in 0..9 the
output satisfies `|dx'| ≤ 20` and `|dy'| ≤ 20` (the diagonal
`sqrt(MAX_X_VEL^2 + MAX_Y_VEL^2)`, about 19.8, rounded). Exact arithmetic. -/
theorem normalize_speed_axis_bound (dx dy speed_level : Int)
    (h0 : 0 ≤ speed_level) (h9 : speed_level ≤ 9) :
    |(ball_math_normalize_speed Real.sqrt dx dy speed_level).1| ≤ 20
    ∧ |(ball_math_normalize_speed Real.sqrt dx dy speed_level).2| ≤ 20 := by
  obtain ⟨hl, hu⟩ := sqrt_392_bounds
  have hl0 : (0 : ℝ) ≤ (speed_level : ℝ) := by exact_mod_cast h0
  have hl9 : (speed_level : ℝ) ≤ 9 := by exact_mod_cast h9
  have hα0 : 0 ≤ Real.sqrt 392 / 9 * (speed_level : ℝ) := by positivity
  have hα : Real.sqrt 392 / 9 * (speed_level : ℝ) < 19.8 := by nlinarith
  have hx : |(dx : ℝ) * normalize_beta Real.sqrt dx dy speed_level| < 19.8 := by
    rw [normalize_beta_real]
    exact lt_of_le_of_lt (scaled_le_core _ _ _ hα0) hα
  have hy : |(dy : ℝ) * normalize_beta Real.sqrt dx dy speed_level| < 19.8 := by
    rw [normalize_beta_real, add_comm ((dx : ℝ) * (dx : ℝ))]
    exact lt_of_le_of_lt (scaled_le_core _ _ _ hα0) hα
  rw [normalize_speed_unfold]
  exact ⟨half_round_clamp_le _ MIN_DX_BALL rfl hx, half_round_clamp_le _ MIN_DY_BALL rfl hy⟩

/-- Witness for the amended C16 at the input `(1, 0)` and speed level 9, where
the bound 20 is attained. -/
theorem normalize_speed_axis_bound_witness :
    |(ball_math_normalize_speed Real.sqrt 1 0 9).1| ≤ 20
    ∧ |(ball_math_normalize_speed Real.sqrt 1 0 9).2| ≤ 20 :=
  normalize_speed_axis_bound 1 0 9 (by decide) (by decide)

/-- Rounding with ties away from zero is within one half of its argument. -/
lemma round_half_away_err {F : Type} [LinearOrderedField F] [FloorRing F] (x : F) :
    |((round_half_away x : Int) : F) - x| ≤ 1 / 2 := by
  rw [← half_round_eq]
  exact half_round_err x

/-- The current speed of a non-zero integer velocity is positive. -/
lemma current_speed_pos (dx dy : Int) (hne : (dx, dy) ≠ ((0 : Int), (0 : Int))) :
    0 < current_speed Real.sqrt dx dy := by
  unfold current_speed
  apply Real.sqrt_pos.mpr
  have h : dx ≠ 0 ∨ dy ≠ 0 := by
    by_contra hc
    push_neg at hc
    exact hne (by rw [hc.1, hc.2])
  rcases h with h | h
  · have : (dx : ℝ) ≠ 0 := by exact_mod_cast h
    positivity
  · have : (dy : ℝ) ≠ 0 := by exact_mod_cast h
    positivity

/-- For a non-zero velocity the scale factor of the source is `T / s`. -/
lemma normalize_beta_eq (dx dy speed_level : Int)
    (hne : (dx, dy) ≠ ((0 : Int), (0 : Int))) :
    normalize_beta Real.sqrt dx dy speed_level
      = normalize_target Real.sqrt speed_level / current_speed Real.sqrt dx dy := by
  have hs := current_speed_pos dx dy hne
  simp only [current_speed] at hs
  simp only [normalize_beta, normalize_target, current_speed, ← pow_two]
  rw [if_neg hs.ne']

/-- Over the reals and for a non-zero velocity, the code of the normalizer
computes what `normalize_speed_spec` describes. -/
lemma normalize_speed_eq_spec (dx dy speed_level : Int)
    (hne : (dx, dy) ≠ ((0 : Int), (0 : Int))) :
    ball_math_normalize_speed Real.sqrt dx dy speed_level
      = normalize_speed_spec Real.sqrt dx dy speed_level := by
  have ex : (dx : ℝ) * normalize_beta Real.sqrt dx dy speed_level
      = normalize_target Real.sqrt speed_level * (dx : ℝ) / current_speed Real.sqrt dx dy := by
    rw [normalize_beta_eq dx dy speed_level hne]
    ring
  have ey : (dy : ℝ) * normalize_beta Real.sqrt dx dy speed_level
      = normalize_target Real.sqrt speed_level * (dy : ℝ) / current_speed Real.sqrt dx dy := by
    rw [normalize_beta_eq dx dy speed_level hne]
    ring
  rw [normalize_speed_unfold, ex, ey]
  simp only [half_round_eq, normalize_speed_spec]

/-- C15. In exact arithmetic, for every `(dx, dy) ≠ (0, 0)` and
`speed_level ≥ 0`, with `T = sqrt(MAX_X_VEL^2 + MAX_Y_VEL^2)/9 * speed_level`
and `s = sqrt(dx^2 + dy^2)`: the normalizer sets `dx'` to `T*dx/s` rounded to
the nearest integer with ties away from zero, with a rounded 0 replaced by
`+MIN_DX_BALL`, and likewise `dy'` from `T*dy/s` with `+MIN_DY_BALL`
(`normalize_speed_spec`); when no floor is applied the output speed
`sqrt(dx'^2 + dy'^2)` is within `sqrt(2)/2` of `T`; and `(3, -4)` at level 5
becomes `(7, -9)`. -/
theorem normalize_speed_rounds (dx dy speed_level : Int)
    (hne : (dx, dy) ≠ ((0 : Int), (0 : Int))) (hl : 0 ≤ speed_level) :
    ball_math_normalize_speed Real.sqrt dx dy speed_level
        = normalize_speed_spec Real.sqrt dx dy speed_level
    ∧ (round_half_away (normalize_target Real.sqrt speed_level * (dx : ℝ)
          / current_speed Real.sqrt dx dy) ≠ 0 →
       round_half_away (normalize_target Real.sqrt speed_level * (dy : ℝ)
          / current_speed Real.sqrt dx dy) ≠ 0 →
       |Real.sqrt ((((ball_math_normalize_speed Real.sqrt dx dy speed_level).1 : Int) : ℝ) ^ 2
            + (((ball_math_normalize_speed Real.sqrt dx dy speed_level).2 : Int) : ℝ) ^ 2)
          - normalize_target Real.sqrt speed_level| ≤ Real.sqrt 2 / 2)
    ∧ ball_math_normalize_speed Real.sqrt 3 (-4) 5 = (7, -9) := by
  refine ⟨normalize_speed_eq_spec dx dy speed_level hne, ?_, normalize_speed_3_4_5⟩
  intro hx hy
  rw [normalize_speed_eq_spec dx dy speed_level hne]
  simp only [normalize_speed_spec, if_neg hx, if_neg hy]
  have hs := current_speed_pos dx dy hne
  have hs2 : current_speed Real.sqrt dx dy ^ 2 = (dx : ℝ) ^ 2 + (dy : ℝ) ^ 2 := by
    unfold current_speed
    exact Real.sq_sqrt (by positivity)
  have hT : 0 ≤ normalize_target Real.sqrt speed_level := by
    unfold normalize_target
    have : (0 : ℝ) ≤ (speed_level : ℝ) := by exact_mod_cast hl
    have := Real.sqrt_nonneg (((MAX_X_VEL : Int) : ℝ) ^ 2 + ((MAX_Y_VEL : Int) : ℝ) ^ 2)
    positivity
  refine norm_round_err _ _ _ _ _ hT ?_ (round_half_away_err _) (round_half_away_err _)
  set T : ℝ := normalize_target Real.sqrt speed_level
  set c : ℝ := current_speed Real.sqrt dx dy
  have hc : c ≠ 0 := hs.ne'
  have e : (T * (dx : ℝ) / c) ^ 2 + (T * (dy : ℝ) / c) ^ 2
      = T ^ 2 * (((dx : ℝ) ^ 2 + (dy : ℝ) ^ 2) / c ^ 2) := by
    field_simp
    ring
  rw [e, ← hs2, div_self (pow_ne_zero 2 hc), mul_one]

/-- Witness for C15 on the fixture of `test_normalize_speed_level5`. -/
theorem normalize_speed_rounds_witness :
    ball_math_normalize_speed Real.sqrt 3 (-4) 5 = normalize_speed_spec Real.sqrt 3 (-4) 5
    ∧ (round_half_away (normalize_target Real.sqrt 5 * ((3 : Int) : ℝ)
          / current_speed Real.sqrt 3 (-4)) ≠ 0 →
       round_half_away (normalize_target Real.sqrt 5 * ((-4 : Int) : ℝ)
          / current_speed Real.sqrt 3 (-4)) ≠ 0 →
       |Real.sqrt ((((ball_math_normalize_speed Real.sqrt 3 (-4) 5).1 : Int) : ℝ) ^ 2
            + (((ball_math_normalize_speed Real.sqrt 3 (-4) 5).2 : Int) : ℝ) ^ 2)
          - normalize_target Real.sqrt 5| ≤ Real.sqrt 2 / 2)
    ∧ ball_math_normalize_speed Real.sqrt 3 (-4) 5 = (7, -9) :=
  normalize_speed_rounds 3 (-4) 5 (by decide) (by decide)

/-! Further properties of the collision predictor. -/

/-- C22. Diverging balls never collide: in exact arithmetic with
`machine_eps ≥ 0`, whenever the relative position `p = pos1 - pos2` and the
relative velocity `v = vel1 - vel2` have positive dot product, the predictor
returns 0 (and writes the time 0), whatever the radii and separation. -/
theorem will_collide_diverging (b1 b2 : BALL ℝ) (machine_eps : ℝ) (heps : 0 ≤ machine_eps)
    (hdot : 0 < (b1.ballx - b2.ballx) * (b1.dx - b2.dx)
      + (b1.bally - b2.bally) * (b1.dy - b2.dy)) :
    ball_math_will_collide Real.sqrt b1 b2 machine_eps = (0, 0) := by
  have hd : (0 : ℝ) < ((b1.ballx : ℝ) - b2.ballx) * ((b1.dx : ℝ) - b2.dx)
      + ((b1.bally : ℝ) - b2.bally) * ((b1.dy : ℝ) - b2.dy) := by
    exact_mod_cast hdot
  rw [will_collide_eq_spec b1 b2 machine_eps heps]
  simp only [will_collide_spec]
  rw [if_neg]
  rintro ⟨_, hv, h0, _⟩
  have hv2 : 0 < ((b1.dx : ℝ) - b2.dx) ^ 2 + ((b1.dy : ℝ) - b2.dy) ^ 2 :=
    lt_of_le_of_lt heps hv
  have hs := Real.sqrt_nonneg ((((b1.dx : ℝ) - b2.dx) ^ 2 + ((b1.dy : ℝ) - b2.dy) ^ 2)
    * (b1.radius + b2.radius) ^ 2
    - (((b1.dx : ℝ) - b2.dx) * ((b1.bally : ℝ) - b2.bally)
      - ((b1.dy : ℝ) - b2.dy) * ((b1.ballx : ℝ) - b2.ballx)) ^ 2)
  have hneg := div_neg_of_neg_of_pos (show -(((b1.ballx : ℝ) - b2.ballx) * ((b1.dx : ℝ) - b2.dx)
      + ((b1.bally : ℝ) - b2.bally) * ((b1.dy : ℝ) - b2.dy))
      - Real.sqrt ((((b1.dx : ℝ) - b2.dx) ^ 2 + ((b1.dy : ℝ) - b2.dy) ^ 2)
        * (b1.radius + b2.radius) ^ 2
        - (((b1.dx : ℝ) - b2.dx) * ((b1.bally : ℝ) - b2.bally)
          - ((b1.dy : ℝ) - b2.dy) * ((b1.ballx : ℝ) - b2.ballx)) ^ 2) < 0 by linarith) hv2
  linarith

/-- Witness for C22 on the fixture of `test_no_collide_diverging`: balls at
(0,100) and (100,100) moving apart with velocities (-5,0) and (5,0). -/
theorem will_collide_diverging_witness :
    ball_math_will_collide Real.sqrt (make_ball 0 100 (-5) 0 (10 : ℝ) 1)
      (make_ball 100 100 5 0 (10 : ℝ) 1) 0 = (0, 0) :=
  will_collide_diverging _ _ 0 (le_refl 0) (by decide)

/-- Head-on approach along one axis, over the reals: with equal heights, equal
`dy`, closing speed `c > 0` with `c^2 > machine_eps ≥ 0` and a non-negative
radius sum `R`, the predictor returns `(1, q)` when `q = (gap - R)/c` lies in
`[0,1]` and `(0, 0)` otherwise. -/
lemma will_collide_head_on_core (b1 b2 : BALL ℝ) (machine_eps : ℝ) (heps : 0 ≤ machine_eps)
    (hR : 0 ≤ b1.radius + b2.radius) (hy : b1.bally = b2.bally) (hdy : b1.dy = b2.dy)
    (hc : 0 < b1.dx - b2.dx)
    (hv : machine_eps < (((b1.dx - b2.dx : Int) : ℝ)) ^ 2) :
    ball_math_will_collide Real.sqrt b1 b2 machine_eps
      = if 0 ≤ (((b2.ballx - b1.ballx : Int) : ℝ) - (b1.radius + b2.radius))
              / ((b1.dx - b2.dx : Int) : ℝ)
            ∧ (((b2.ballx - b1.ballx : Int) : ℝ) - (b1.radius + b2.radius))
              / ((b1.dx - b2.dx : Int) : ℝ) ≤ 1
        then (1, (((b2.ballx - b1.ballx : Int) : ℝ) - (b1.radius + b2.radius))
              / ((b1.dx - b2.dx : Int) : ℝ))
        else (0, 0) := by
  have hcr : (0 : ℝ) < (b1.dx : ℝ) - (b2.dx : ℝ) := by exact_mod_cast hc
  rw [will_collide_eq_spec b1 b2 machine_eps heps]
  simp only [will_collide_spec]
  push_cast at hv ⊢
  rw [hy, hdy]
  simp only [sub_self, mul_zero, zero_mul, add_zero, sub_zero]
  set c : ℝ := (b1.dx : ℝ) - (b2.dx : ℝ) with hc_def
  set R : ℝ := b1.radius + b2.radius with hR_def
  have h0 : (0 : ℝ) ^ 2 = 0 := by norm_num
  rw [h0, add_zero, sub_zero]
  have hD : c ^ 2 * R ^ 2 = (c * R) ^ 2 := by ring
  have hsqrt : Real.sqrt (c ^ 2 * R ^ 2) = c * R := by
    rw [hD]
    exact Real.sqrt_sq (mul_nonneg hcr.le hR)
  have hDnn : c ^ 2 * R ^ 2 ≥ 0 := by positivity
  have hq : (-(((b1.ballx : ℝ) - (b2.ballx : ℝ)) * c) - c * R) / c ^ 2
      = ((b2.ballx : ℝ) - (b1.ballx : ℝ) - R) / c := by
    field_simp
    ring
  rw [hsqrt, hq]
  by_cases hr : 0 ≤ ((b2.ballx : ℝ) - (b1.ballx : ℝ) - R) / c
      ∧ ((b2.ballx : ℝ) - (b1.ballx : ℝ) - R) / c ≤ 1
  · rw [if_pos hr, if_pos ⟨hDnn, hv, hr.1, hr.2⟩]
  · rw [if_neg hr, if_neg (fun h => hr ⟨h.2.2.1, h.2.2.2⟩)]

/-- Counterexample to C21 as stated: on the head-on fixture (balls at (0,100)
and (30,100), radius 10, velocities (5,0) and (-5,0)) with `machine_eps = 100`,
all premises hold and the quotient `((x2 - x1) - (radius1 + radius2))/c` is 1,
inside `[0,1]`, yet the predictor returns 0, because the squared closing speed
100 does not exceed `machine_eps`; and in the `float` arithmetic of the program
the head-on pair at (0,100) with velocity (6,0) and (26,100) at rest, radius
10, `machine_eps = 0`, whose quotient is also 1, returns 0 as well. -/
theorem will_collide_head_on_counterexample :
    (0 : ℝ) ≤ 100
    ∧ (make_ball 0 100 5 0 (10 : ℝ) 1).bally = (make_ball 30 100 (-5) 0 (10 : ℝ) 1).bally
    ∧ (make_ball 0 100 5 0 (10 : ℝ) 1).dy = (make_ball 30 100 (-5) 0 (10 : ℝ) 1).dy
    ∧ (make_ball 0 100 5 0 (10 : ℝ) 1).ballx < (make_ball 30 100 (-5) 0 (10 : ℝ) 1).ballx
    ∧ 0 < (make_ball 0 100 5 0 (10 : ℝ) 1).dx - (make_ball 30 100 (-5) 0 (10 : ℝ) 1).dx
    ∧ (((30 - 0 : Int) : ℝ) - (10 + 10)) / ((5 - (-5) : Int) : ℝ) = 1
    ∧ ball_math_will_collide Real.sqrt (make_ball 0 100 5 0 (10 : ℝ) 1)
        (make_ball 30 100 (-5) 0 (10 : ℝ) 1) 100 = (0, 0)
    ∧ ¬ ((ball_math_will_collide Real.sqrt (make_ball 0 100 5 0 (10 : ℝ) 1)
          (make_ball 30 100 (-5) 0 (10 : ℝ) 1) 100).1 = 1
        ↔ (0 ≤ (((30 - 0 : Int) : ℝ) - (10 + 10)) / ((5 - (-5) : Int) : ℝ)
          ∧ (((30 - 0 : Int) : ℝ) - (10 + 10)) / ((5 - (-5) : Int) : ℝ) ≤ 1))
    ∧ (((26 - 0 : Int) : ℝ) - (10 + 10)) / ((6 - 0 : Int) : ℝ) = 1
    ∧ ball_math_will_collide_rounded to_float to_double Real.sqrt
        (make_ball 0 100 6 0 (10 : ℝ) 1) (make_ball 26 100 0 0 (10 : ℝ) 1) 0 = (0, 0) := by
  have hq : (((30 - 0 : Int) : ℝ) - (10 + 10)) / ((5 - (-5) : Int) : ℝ) = 1 := by
    norm_num
  have he : ball_math_will_collide Real.sqrt (make_ball 0 100 5 0 (10 : ℝ) 1)
      (make_ball 30 100 (-5) 0 (10 : ℝ) 1) 100 = (0, 0) := by
    simp only [ball_math_will_collide, make_ball, SQR]
    norm_num
  refine ⟨by norm_num, rfl, rfl, by decide, by decide, hq, he, ?_, by norm_num,
    will_collide_rounded_head_on_end⟩
  rw [he, hq]
  norm_num

/-- When the squared relative speed does not exceed `machine_eps`, the predictor
returns `(0, 0)`: the guard `v2 > machine_eps` of the source fails. -/
lemma will_collide_slow (b1 b2 : BALL ℝ) (machine_eps : ℝ) (heps : 0 ≤ machine_eps)
    (hv : ((b1.dx : ℝ) - b2.dx) ^ 2 + ((b1.dy : ℝ) - b2.dy) ^ 2 ≤ machine_eps) :
    ball_math_will_collide Real.sqrt b1 b2 machine_eps = (0, 0) := by
  rw [will_collide_eq_spec b1 b2 machine_eps heps]
  simp only [will_collide_spec]
  rw [if_neg]
  rintro ⟨_, h, _⟩
  exact absurd h (not_lt.mpr hv)

/-- C21 (amended). Head-on approach along one axis, for `machine_eps ≥ 0`, two
balls at the same height with equal `dy`, a non-negative radius sum (the data
model has `radius > 0`) and closing speed `c = dx1 - dx2 > 0`, with
`q = ((x2 - x1) - (radius1 + radius2))/c` the gap divided by the closing speed:
when `c*c ≤ machine_eps` the predictor returns 0 whatever the gap; when
`c*c > machine_eps` it returns 1 with `t = q` if `0 ≤ q < 1`, and returns 0 if
`q < 0` or `q > 1`; for the fixture (0,100),(30,100), radius 10, velocities
(5,0),(-5,0), where `q = 1`, it returns 1 with `t = 1` at `machine_eps = 0`,
in exact arithmetic and in the `float` arithmetic of the program. -/
theorem will_collide_head_on (b1 b2 : BALL ℝ) (machine_eps : ℝ) (heps : 0 ≤ machine_eps)
    (hR : 0 ≤ b1.radius + b2.radius) (hy : b1.bally = b2.bally) (hdy : b1.dy = b2.dy)
    (hc : 0 < b1.dx - b2.dx) :
    ((((b1.dx - b2.dx : Int) : ℝ)) ^ 2 ≤ machine_eps →
      ball_math_will_collide Real.sqrt b1 b2 machine_eps = (0, 0))
    ∧ (machine_eps < (((b1.dx - b2.dx : Int) : ℝ)) ^ 2 →
      (0 ≤ (((b2.ballx - b1.ballx : Int) : ℝ) - (b1.radius + b2.radius))
            / ((b1.dx - b2.dx : Int) : ℝ) →
        (((b2.ballx - b1.ballx : Int) : ℝ) - (b1.radius + b2.radius))
            / ((b1.dx - b2.dx : Int) : ℝ) < 1 →
        ball_math_will_collide Real.sqrt b1 b2 machine_eps
          = (1, (((b2.ballx - b1.ballx : Int) : ℝ) - (b1.radius + b2.radius))
            / ((b1.dx - b2.dx : Int) : ℝ)))
      ∧ (((((b2.ballx - b1.ballx : Int) : ℝ) - (b1.radius + b2.radius))
            / ((b1.dx - b2.dx : Int) : ℝ) < 0
          ∨ 1 < (((b2.ballx - b1.ballx : Int) : ℝ) - (b1.radius + b2.radius))
            / ((b1.dx - b2.dx : Int) : ℝ)) →
        ball_math_will_collide Real.sqrt b1 b2 machine_eps = (0, 0)))
    ∧ ball_math_will_collide Real.sqrt (make_ball 0 100 5 0 (10 : ℝ) 1)
        (make_ball 30 100 (-5) 0 (10 : ℝ) 1) 0 = (1, 1)
    ∧ ball_math_will_collide_rounded to_float to_double Real.sqrt
        (make_ball 0 100 5 0 (10 : ℝ) 1) (make_ball 30 100 (-5) 0 (10 : ℝ) 1) 0 = (1, 1) := by
  refine ⟨fun hv => ?_, fun hv => ?_, will_collide_head_on_eval,
    will_collide_rounded_head_on_eval⟩
  · apply will_collide_slow b1 b2 machine_eps heps
    have hd : ((b1.dy : ℝ) - b2.dy) = 0 := by rw [hdy]; ring
    rw [hd]
    push_cast at hv
    linarith
  · rw [will_collide_head_on_core b1 b2 machine_eps heps hR hy hdy hc hv]
    refine ⟨fun h0 h1 => ?_, fun h => ?_⟩
    · rw [if_pos ⟨h0, h1.le⟩]
    · rw [if_neg]
      rintro ⟨h0, h1⟩
      rcases h with h | h
      · exact absurd h0 (not_le.mpr h)
      · exact absurd h1 (not_le.mpr h)

/-- Witness for the amended C21: balls at (0,100) and (25,100), radius 10,
velocities (5,0) and (-5,0), `machine_eps = 0`; the quotient is 1/2 and the
predictor returns 1 with that time. -/
theorem will_collide_head_on_witness :
    ball_math_will_collide Real.sqrt (make_ball 0 100 5 0 (10 : ℝ) 1)
        (make_ball 25 100 (-5) 0 (10 : ℝ) 1) 0
      = (1, ((((make_ball 25 100 (-5) 0 (10 : ℝ) 1).ballx
              - (make_ball 0 100 5 0 (10 : ℝ) 1).ballx : Int) : ℝ)
            - ((make_ball 0 100 5 0 (10 : ℝ) 1).radius
              + (make_ball 25 100 (-5) 0 (10 : ℝ) 1).radius))
            / (((make_ball 0 100 5 0 (10 : ℝ) 1).dx
              - (make_ball 25 100 (-5) 0 (10 : ℝ) 1).dx : Int) : ℝ))
    ∧ ((((make_ball 25 100 (-5) 0 (10 : ℝ) 1).ballx
              - (make_ball 0 100 5 0 (10 : ℝ) 1).ballx : Int) : ℝ)
            - ((make_ball 0 100 5 0 (10 : ℝ) 1).radius
              + (make_ball 25 100 (-5) 0 (10 : ℝ) 1).radius))
            / (((make_ball 0 100 5 0 (10 : ℝ) 1).dx
              - (make_ball 25 100 (-5) 0 (10 : ℝ) 1).dx : Int) : ℝ) = 1 / 2 :=
  ⟨((will_collide_head_on (make_ball 0 100 5 0 (10 : ℝ) 1)
      (make_ball 25 100 (-5) 0 (10 : ℝ) 1) 0 (le_refl 0) (by norm_num [make_ball]) rfl rfl
      (by decide)).2.1 (by norm_num [make_ball])).1 (by norm_num [make_ball])
      (by norm_num [make_ball]),
    by norm_num [make_ball]⟩

/-! Steering of the paddle bounce by the hit position. -/

/-- Double-angle values at an arctangent: `sin(2 atan t) = 2t/(1+t^2)` and
`cos(2 atan t) = (1-t^2)/(1+t^2)`. -/
lemma sin_cos_two_arctan (t : ℝ) :
    Real.sin (2 * Real.arctan t) = 2 * t / (1 + t ^ 2)
    ∧ Real.cos (2 * Real.arctan t) = (1 - t ^ 2) / (1 + t ^ 2) := by
  have hpos : (0 : ℝ) < 1 + t ^ 2 := by positivity
  have hr : Real.sqrt (1 + t ^ 2) ^ 2 = 1 + t ^ 2 := Real.sq_sqrt hpos.le
  have hr0 : Real.sqrt (1 + t ^ 2) ≠ 0 := (Real.sqrt_pos.mpr hpos).ne'
  constructor
  · rw [Real.sin_two_mul, Real.sin_arctan, Real.cos_arctan]
    field_simp
  · rw [Real.cos_two_mul, Real.cos_arctan]
    field_simp
    ring

/-- For a straight-down ball on a stationary paddle, in exact arithmetic, the
velocity before rounding is `(vy*2t/(1+t^2), -vy*(1-t^2)/(1+t^2))` with
`t = hit_pos/pad_size`. -/
lemma paddle_bounce_V_straight (vy hit_pos pad_size : Int) (hvy : 0 < vy) :
    paddle_bounce_V Real.sqrt Real.arctan Real.sin Real.cos 0 vy hit_pos pad_size 0
      = ((vy : ℝ) * (2 * ((hit_pos : ℝ) / (pad_size : ℝ))
            / (1 + ((hit_pos : ℝ) / (pad_size : ℝ)) ^ 2)),
         -(vy : ℝ) * ((1 - ((hit_pos : ℝ) / (pad_size : ℝ)) ^ 2)
            / (1 + ((hit_pos : ℝ) / (pad_size : ℝ)) ^ 2))) := by
  have hy : (0 : ℝ) < (vy : ℝ) := by exact_mod_cast hvy
  have hS : paddle_speed Real.sqrt 0 vy = (vy : ℝ) := by
    simp only [paddle_speed, Int.cast_zero, mul_zero, zero_add]
    exact Real.sqrt_mul_self hy.le
  have hg : paddle_gamma Real.arctan 0 vy hit_pos pad_size
      = 2 * Real.arctan ((hit_pos : ℝ) / (pad_size : ℝ)) := by
    simp only [paddle_gamma, Int.cast_zero, zero_div, Real.arctan_zero, sub_zero, div_one]
  obtain ⟨hs, hc⟩ := sin_cos_two_arctan ((hit_pos : ℝ) / (pad_size : ℝ))
  rw [paddle_bounce_V_eq, hS, hg, hs, hc, Int.cast_zero, zero_div, add_zero]

/-- The paddle bounce always returns `new_dy ≤ -MIN_DY_BALL`. -/
lemma paddle_bounce_dy_le {F : Type} [LinearOrderedField F] [FloorRing F]
    (sqrt atan sin cos : F → F) (vx vy hit_pos pad_size paddle_dx : Int) :
    (ball_math_paddle_bounce sqrt atan sin cos vx vy hit_pos pad_size paddle_dx).2 ≤ -2 := by
  simp only [ball_math_paddle_bounce, MIN_DY_BALL]
  split_ifs <;> omega

/-- The paddle bounce evaluated from bounds on the velocity before rounding. -/
lemma paddle_bounce_of_bounds (vx vy hit_pos pad_size paddle_dx rx ry : Int) (X Y : ℝ)
    (hV : paddle_bounce_V Real.sqrt Real.arctan Real.sin Real.cos
      vx vy hit_pos pad_size paddle_dx = (X, Y))
    (hx1 : (rx : ℝ) - 1 / 2 < X) (hx2 : X < (rx : ℝ) + 1 / 2)
    (hy0 : Y < 0) (hy1 : (ry : ℝ) - 1 / 2 < Y) (hy2 : Y < (ry : ℝ) + 1 / 2)
    (hry : ry ≤ -2) :
    ball_math_paddle_bounce Real.sqrt Real.arctan Real.sin Real.cos
      vx vy hit_pos pad_size paddle_dx = (rx, ry) := by
  have hx := half_round_of_bounds X rx hx1 hx2
  have hy := half_round_of_bounds Y ry hy1 hy2
  rw [if_neg (not_lt.mpr hy0.le)] at hy
  simp only [ball_math_paddle_bounce, hV, hx, if_pos hy0, hy, MIN_DY_BALL]
  rw [if_neg (by omega)]

/-- The input `(0, 5, 1, 50, 0)`, a straight-down ball hitting one pixel right
of the paddle centre, bounces to `(0, -5)`. -/
lemma paddle_bounce_0_5_1_50 :
    ball_math_paddle_bounce Real.sqrt Real.arctan Real.sin Real.cos 0 5 1 50 0 = (0, -5) := by
  refine paddle_bounce_of_bounds 0 5 1 50 0 0 (-5) _ _
    (paddle_bounce_V_straight 5 1 50 (by decide)) ?_ ?_ ?_ ?_ ?_ (by decide) <;> norm_num

/-- The fixture of `test_paddle_bounce_right`, `(0, 5, 20, 50, 0)`, bounces to
`(3, -4)`. -/
lemma paddle_bounce_0_5_20_50 :
    ball_math_paddle_bounce Real.sqrt Real.arctan Real.sin Real.cos 0 5 20 50 0 = (3, -4) := by
  refine paddle_bounce_of_bounds 0 5 20 50 0 3 (-4) _ _
    (paddle_bounce_V_straight 5 20 50 (by decide)) ?_ ?_ ?_ ?_ ?_ (by decide) <;> norm_num

/-- The fixture of `test_paddle_bounce_left`, `(0, 5, -20, 50, 0)`, bounces to
`(-3, -4)`. -/
lemma paddle_bounce_0_5_m20_50 :
    ball_math_paddle_bounce Real.sqrt Real.arctan Real.sin Real.cos 0 5 (-20) 50 0
      = (-3, -4) := by
  refine paddle_bounce_of_bounds 0 5 (-20) 50 0 (-3) (-4) _ _
    (paddle_bounce_V_straight 5 (-20) 50 (by decide)) ?_ ?_ ?_ ?_ ?_ (by decide) <;> norm_num

/-- Counterexample to C23 as stated: the straight-down ball `(vx, vy) = (0, 5)`
hitting a stationary paddle of size 50 at `hit_pos = 1 > 0` gets `new_dx = 0`,
not `new_dx > 0`: the horizontal component `5*sin(2*atan(1/50))`, about 0.2,
rounds to 0. -/
theorem paddle_bounce_steer_counterexample :
    (0 : Int) < 5 ∧ (0 : Int) < 50 ∧ (0 : Int) < 1
    ∧ ball_math_paddle_bounce Real.sqrt Real.arctan Real.sin Real.cos 0 5 1 50 0 = (0, -5)
    ∧ ¬ (0 < (ball_math_paddle_bounce Real.sqrt Real.arctan Real.sin Real.cos
        0 5 1 50 0).1) := by
  refine ⟨by decide, by decide, by decide, paddle_bounce_0_5_1_50, ?_⟩
  rw [paddle_bounce_0_5_1_50]
  decide

/-- C23 (amended). Hit position steers the rebound, up to rounding: for every
straight-down ball (`vx = 0`, `vy > 0`), stationary paddle (`paddle_dx = 0`)
and `pad_size > 0`, in exact arithmetic, the paddle bounce returns `new_dx ≤ 0`
when `hit_pos < 0` and `new_dx ≥ 0` when `hit_pos > 0`; `new_dx` is strictly
negative (respectively positive) exactly when the horizontal component before
rounding is at most `-1/2` (respectively at least `1/2`); `new_dy < 0` in both
cases; and the test fixtures `(0, 5, -20, 50, 0)` and `(0, 5, 20, 50, 0)` give
`(-3, -4)` and `(3, -4)`. -/
theorem paddle_bounce_steer (vy hit_pos pad_size : Int) (hvy : 0 < vy) (hpad : 0 < pad_size) :
    (hit_pos < 0 →
      (ball_math_paddle_bounce Real.sqrt Real.arctan Real.sin Real.cos
        0 vy hit_pos pad_size 0).1 ≤ 0
      ∧ ((ball_math_paddle_bounce Real.sqrt Real.arctan Real.sin Real.cos
          0 vy hit_pos pad_size 0).1 < 0
        ↔ (paddle_bounce_V Real.sqrt Real.arctan Real.sin Real.cos
          0 vy hit_pos pad_size 0).1 ≤ -(1 / 2)))
    ∧ (0 < hit_pos →
      0 ≤ (ball_math_paddle_bounce Real.sqrt Real.arctan Real.sin Real.cos
        0 vy hit_pos pad_size 0).1
      ∧ (0 < (ball_math_paddle_bounce Real.sqrt Real.arctan Real.sin Real.cos
          0 vy hit_pos pad_size 0).1
        ↔ 1 / 2 ≤ (paddle_bounce_V Real.sqrt Real.arctan Real.sin Real.cos
          0 vy hit_pos pad_size 0).1))
    ∧ (ball_math_paddle_bounce Real.sqrt Real.arctan Real.sin Real.cos
        0 vy hit_pos pad_size 0).2 < 0
    ∧ ball_math_paddle_bounce Real.sqrt Real.arctan Real.sin Real.cos 0 5 (-20) 50 0
        = (-3, -4)
    ∧ ball_math_paddle_bounce Real.sqrt Real.arctan Real.sin Real.cos 0 5 20 50 0
        = (3, -4) := by
  have hy : (0 : ℝ) < (vy : ℝ) := by exact_mod_cast hvy
  have hp : (0 : ℝ) < (pad_size : ℝ) := by exact_mod_cast hpad
  have hden : (0 : ℝ) < 1 + ((hit_pos : ℝ) / (pad_size : ℝ)) ^ 2 := by positivity
  have hV := paddle_bounce_V_straight vy hit_pos pad_size hvy
  have hdy := paddle_bounce_dy_le Real.sqrt Real.arctan Real.sin Real.cos 0 vy hit_pos pad_size 0
  refine ⟨?_, ?_, by omega, paddle_bounce_0_5_m20_50, paddle_bounce_0_5_20_50⟩
  · intro hh
    have hh' : (hit_pos : ℝ) < 0 := by exact_mod_cast hh
    have ht : (hit_pos : ℝ) / (pad_size : ℝ) < 0 := div_neg_of_neg_of_pos hh' hp
    have hX : (vy : ℝ) * (2 * ((hit_pos : ℝ) / (pad_size : ℝ))
        / (1 + ((hit_pos : ℝ) / (pad_size : ℝ)) ^ 2)) < 0 :=
      mul_neg_of_pos_of_neg hy (div_neg_of_neg_of_pos (by linarith) hden)
    simp only [ball_math_paddle_bounce, hV]
    rw [if_neg (not_lt.mpr hX.le)]
    unfold castInt
    rw [if_neg (by intro hc; linarith)]
    constructor
    · rw [Int.ceil_le]
      push_cast
      linarith
    · rw [show ((-(1 / 2) : ℝ)) = ((-1 : Int) : ℝ) + 1 / 2 by push_cast; ring,
        ← sub_le_iff_le_add, ← Int.ceil_le]
      omega
  · intro hh
    have hh' : (0 : ℝ) < (hit_pos : ℝ) := by exact_mod_cast hh
    have ht : 0 < (hit_pos : ℝ) / (pad_size : ℝ) := div_pos hh' hp
    have hX : 0 < (vy : ℝ) * (2 * ((hit_pos : ℝ) / (pad_size : ℝ))
        / (1 + ((hit_pos : ℝ) / (pad_size : ℝ)) ^ 2)) :=
      mul_pos hy (div_pos (by linarith) hden)
    simp only [ball_math_paddle_bounce, hV]
    rw [if_pos hX]
    unfold castInt
    rw [if_pos (by linarith)]
    constructor
    · exact Int.floor_nonneg.mpr (by linarith)
    · rw [Int.floor_pos]
      constructor <;> intro h <;> linarith

/-- Witness for the amended C23 on the fixture of `test_paddle_bounce_right`. -/
theorem paddle_bounce_steer_witness :
    ((20 : Int) < 0 →
      (ball_math_paddle_bounce Real.sqrt Real.arctan Real.sin Real.cos 0 5 20 50 0).1 ≤ 0
      ∧ ((ball_math_paddle_bounce Real.sqrt Real.arctan Real.sin Real.cos 0 5 20 50 0).1 < 0
        ↔ (paddle_bounce_V Real.sqrt Real.arctan Real.sin Real.cos 0 5 20 50 0).1
          ≤ -(1 / 2)))
    ∧ ((0 : Int) < 20 →
      0 ≤ (ball_math_paddle_bounce Real.sqrt Real.arctan Real.sin Real.cos 0 5 20 50 0).1
      ∧ (0 < (ball_math_paddle_bounce Real.sqrt Real.arctan Real.sin Real.cos 0 5 20 50 0).1
        ↔ 1 / 2 ≤ (paddle_bounce_V Real.sqrt Real.arctan Real.sin Real.cos 0 5 20 50 0).1))
    ∧ (ball_math_paddle_bounce Real.sqrt Real.arctan Real.sin Real.cos 0 5 20 50 0).2 < 0
    ∧ ball_math_paddle_bounce Real.sqrt Real.arctan Real.sin Real.cos 0 5 (-20) 50 0
        = (-3, -4)
    ∧ ball_math_paddle_bounce Real.sqrt Real.arctan Real.sin Real.cos 0 5 20 50 0
        = (3, -4) :=
  paddle_bounce_steer 5 20 50 (by decide) (by decide)

/-! Properties of the scoring arithmetic. -/

/-- C24. The multiplier returns `2*inc` when `x2_active` is non-zero (also when
`x4_active` is non-zero too: x2 wins), `4*inc` when only `x4_active` is
non-zero, and `inc` unchanged when neither is active, the products being taken
modulo `2^w` for a `w`-bit `u_long` (so they are exact when they fit); the
values of `test_score.c` are reproduced for `w = 64`. -/
theorem score_multiplier_cases (w : Nat) (inc : Nat) (x2_active x4_active : Int) :
    (x2_active ≠ 0 → score_apply_multiplier w inc x2_active x4_active = (2 * inc) % 2 ^ w)
    ∧ (x2_active ≠ 0 → 2 * inc < 2 ^ w →
        score_apply_multiplier w inc x2_active x4_active = 2 * inc)
    ∧ (x2_active = 0 → x4_active ≠ 0 →
        score_apply_multiplier w inc x2_active x4_active = (4 * inc) % 2 ^ w)
    ∧ (x2_active = 0 → x4_active ≠ 0 → 4 * inc < 2 ^ w →
        score_apply_multiplier w inc x2_active x4_active = 4 * inc)
    ∧ (x2_active = 0 → x4_active = 0 →
        score_apply_multiplier w inc x2_active x4_active = inc)
    ∧ score_apply_multiplier 64 100 1 1 = 200
    ∧ score_apply_multiplier 64 100 1 0 = 200
    ∧ score_apply_multiplier 64 100 0 1 = 400
    ∧ score_apply_multiplier 64 100 0 0 = 100 := by
  refine ⟨?_, ?_, ?_, ?_, ?_, by decide, by decide, by decide, by decide⟩
  · intro h
    simp only [score_apply_multiplier, if_pos h, Nat.mul_comm]
  · intro h hlt
    simp only [score_apply_multiplier, if_pos h, Nat.mul_comm inc 2, Nat.mod_eq_of_lt hlt]
  · intro h2 h4
    simp only [score_apply_multiplier, h2, ne_eq, not_true_eq_false, if_false, if_pos h4,
      Nat.mul_comm]
  · intro h2 h4 hlt
    simp only [score_apply_multiplier, h2, ne_eq, not_true_eq_false, if_false, if_pos h4,
      Nat.mul_comm inc 4, Nat.mod_eq_of_lt hlt]
  · intro h2 h4
    simp only [score_apply_multiplier, h2, h4, ne_eq, not_true_eq_false, if_false]

/-- Witness for C24 on the fixture of `test_multiplier_both_x2_wins`. -/
theorem score_multiplier_cases_witness :
    ((1 : Int) ≠ 0 → score_apply_multiplier 64 100 1 1 = (2 * 100) % 2 ^ 64)
    ∧ ((1 : Int) ≠ 0 → 2 * 100 < 2 ^ 64 → score_apply_multiplier 64 100 1 1 = 2 * 100)
    ∧ ((1 : Int) = 0 → (1 : Int) ≠ 0 → score_apply_multiplier 64 100 1 1 = (4 * 100) % 2 ^ 64)
    ∧ ((1 : Int) = 0 → (1 : Int) ≠ 0 → 4 * 100 < 2 ^ 64 →
        score_apply_multiplier 64 100 1 1 = 4 * 100)
    ∧ ((1 : Int) = 0 → (1 : Int) = 0 → score_apply_multiplier 64 100 1 1 = 100)
    ∧ score_apply_multiplier 64 100 1 1 = 200
    ∧ score_apply_multiplier 64 100 1 0 = 200
    ∧ score_apply_multiplier 64 100 0 1 = 400
    ∧ score_apply_multiplier 64 100 0 0 = 100 :=
  score_multiplier_cases 64 100 1 1

/-- The narrowing cast to `int` is the identity on values in range. -/
lemma to_int32_of_range (x : Int) (h0 : -(2 ^ 31) ≤ x) (h1 : x < 2 ^ 31) : to_int32 x = x := by
  unfold to_int32
  have : (x + 2 ^ 31) % 2 ^ 32 = x + 2 ^ 31 :=
    Int.emod_eq_of_lt (by omega) (by omega)
  omega

/-- For a non-negative score whose quotient fits an `int`, the threshold index
is the floor quotient by 100000. -/
lemma extra_life_eq_div (s : Int) (h0 : 0 ≤ s) (hr : s / 100000 < 2 ^ 31) :
    score_extra_life_threshold s = s / 100000 := by
  unfold score_extra_life_threshold NEW_LIVE_SCORE_INC
  rw [Int.tdiv_eq_ediv h0 (by decide)]
  exact to_int32_of_range _ (by omega) hr

/-- C25. For every score `s ≥ 0` with `s/100000` within `int` range, the
threshold index `k = score_extra_life_threshold s` is the unique `k` with
`k*100000 ≤ s < (k+1)*100000`; it is non-decreasing in `s`, 0 below 100000,
1 from 100000 to 199999 and 2 at 200000. -/
theorem extra_life_threshold_spec (s : Int) (h0 : 0 ≤ s) (hr : s / 100000 < 2 ^ 31) :
    score_extra_life_threshold s * 100000 ≤ s
    ∧ s < (score_extra_life_threshold s + 1) * 100000
    ∧ (∀ k : Int, k * 100000 ≤ s → s < (k + 1) * 100000 → k = score_extra_life_threshold s)
    ∧ (∀ s2 : Int, s ≤ s2 → s2 / 100000 < 2 ^ 31 →
        score_extra_life_threshold s ≤ score_extra_life_threshold s2)
    ∧ (s < 100000 → score_extra_life_threshold s = 0)
    ∧ (100000 ≤ s → s ≤ 199999 → score_extra_life_threshold s = 1)
    ∧ score_extra_life_threshold 200000 = 2 := by
  rw [extra_life_eq_div s h0 hr]
  refine ⟨by omega, by omega, ?_, ?_, by omega, by omega, by decide⟩
  · intro k hk1 hk2
    omega
  · intro s2 h12 hr2
    rw [extra_life_eq_div s2 (le_trans h0 h12) hr2]
    omega

/-- Witness for C25 at the score 150000 of `test_extra_life_second_threshold`. -/
theorem extra_life_threshold_spec_witness :
    score_extra_life_threshold 150000 * 100000 ≤ 150000
    ∧ 150000 < (score_extra_life_threshold 150000 + 1) * 100000
    ∧ (∀ k : Int, k * 100000 ≤ 150000 → 150000 < (k + 1) * 100000 →
        k = score_extra_life_threshold 150000)
    ∧ (∀ s2 : Int, 150000 ≤ s2 → s2 / 100000 < 2 ^ 31 →
        score_extra_life_threshold 150000 ≤ score_extra_life_threshold s2)
    ∧ ((150000 : Int) < 100000 → score_extra_life_threshold 150000 = 0)
    ∧ ((100000 : Int) ≤ 150000 → (150000 : Int) ≤ 199999 →
        score_extra_life_threshold 150000 = 1)
    ∧ score_extra_life_threshold 200000 = 2 :=
  extra_life_threshold_spec 150000 (by decide) (by decide)

/-- The conversion to `u_long` is the identity on values that fit. -/
lemma to_u_long_cast (w : Nat) (x : Int) (hx0 : 0 ≤ x) (hx : x < 2 ^ w) :
    ((to_u_long w x : Nat) : Int) = x := by
  unfold to_u_long
  rw [Int.emod_eq_of_lt hx0 hx]
  exact Int.toNat_of_nonneg hx0

/-- Adding a converted non-negative `int` to a `u_long` accumulator is exact
when the sum fits. -/
lemma acc_fit (w : Nat) (a : Nat) (x : Int) (hx0 : 0 ≤ x) (h : (a : Int) + x < 2 ^ w) :
    (((a + to_u_long w x) % 2 ^ w : Nat) : Int) = (a : Int) + x := by
  have ha : (0 : Int) ≤ (a : Int) := Int.ofNat_nonneg a
  have hx : x < 2 ^ w := by linarith
  have hc := to_u_long_cast w x hx0 hx
  have hlt : a + to_u_long w x < 2 ^ w := by
    have : ((a + to_u_long w x : Nat) : Int) < ((2 ^ w : Nat) : Int) := by
      push_cast
      rw [hc]
      exact h
    exact_mod_cast this
  rw [Nat.mod_eq_of_lt hlt]
  push_cast
  rw [hc]

/-- A product of non-negative `int`s that stays below `2^31` is formed without
wrap. -/
lemma int_mul_of_fit (a b : Int) (h0 : 0 ≤ a * b) (h1 : a * b < 2 ^ 31) :
    int_mul a b = a * b :=
  to_int32_of_range _ (by linarith) h1

/-- The bonus for `time_bonus > 0`, for non-negative inputs whose products fit
an `int` and whose total fits the `u_long`. -/
lemma compute_bonus_pos (w : Nat) (tb nb mb nbul la : Int)
    (htb : 0 < tb) (hnb : 0 ≤ nb) (hbul : 0 ≤ nbul) (hla : 0 ≤ la)
    (hcoin : nb ≤ mb → 3000 * nb < 2 ^ 31) (hlev : 100 * la < 2 ^ 31)
    (hbl : 500 * nbul < 2 ^ 31) (htime : 100 * tb < 2 ^ 31)
    (hfit : (if nb > mb then 50000 else 3000 * nb) + 100 * la + 500 * nbul + 100 * tb
      < 2 ^ w) :
    ((score_compute_bonus w tb nb mb nbul la : Nat) : Int)
      = (if nb > mb then 50000 else 3000 * nb) + 100 * la + 500 * nbul + 100 * tb := by
  simp only [score_compute_bonus, if_pos htb, SUPER_BONUS_SCORE, BONUS_COIN_SCORE, LEVEL_SCORE,
    BULLET_SCORE, TIME_BONUS_POINTS]
  rw [int_mul_of_fit 100 la (by linarith) (by linarith),
    int_mul_of_fit nbul 500 (by linarith) (by linarith),
    int_mul_of_fit 100 tb (by linarith) (by linarith)]
  by_cases hs : nb > mb
  · simp only [if_pos hs] at hfit ⊢
    have h1 := acc_fit w 0 50000 (by norm_num) (by push_cast; linarith)
    have h2 := acc_fit w ((0 + to_u_long w 50000) % 2 ^ w) (100 * la) (by linarith)
      (by rw [h1]; push_cast; linarith)
    by_cases hb : nbul = 0
    · rw [if_neg (not_not.mpr hb)]
      have h4 := acc_fit w (((0 + to_u_long w 50000) % 2 ^ w + to_u_long w (100 * la)) % 2 ^ w)
        (100 * tb) (by linarith) (by rw [h2, h1]; push_cast; linarith)
      rw [h4, h2, h1, hb]
      push_cast
      ring
    · rw [if_pos hb]
      have h3 := acc_fit w (((0 + to_u_long w 50000) % 2 ^ w + to_u_long w (100 * la)) % 2 ^ w)
        (nbul * 500) (by linarith) (by rw [h2, h1]; push_cast; linarith)
      have h4 := acc_fit w
        ((((0 + to_u_long w 50000) % 2 ^ w + to_u_long w (100 * la)) % 2 ^ w
          + to_u_long w (nbul * 500)) % 2 ^ w)
        (100 * tb) (by linarith) (by rw [h3, h2, h1]; push_cast; linarith)
      rw [h4, h3, h2, h1]
      push_cast
      ring
  · simp only [if_neg hs] at hfit ⊢
    rw [int_mul_of_fit nb 3000 (by linarith) (by linarith [hcoin (not_lt.mp hs)])]
    have h1 := acc_fit w 0 (nb * 3000) (by linarith) (by push_cast; linarith)
    have h2 := acc_fit w ((0 + to_u_long w (nb * 3000)) % 2 ^ w) (100 * la) (by linarith)
      (by rw [h1]; push_cast; linarith)
    by_cases hb : nbul = 0
    · rw [if_neg (not_not.mpr hb)]
      have h4 := acc_fit w
        (((0 + to_u_long w (nb * 3000)) % 2 ^ w + to_u_long w (100 * la)) % 2 ^ w)
        (100 * tb) (by linarith) (by rw [h2, h1]; push_cast; linarith)
      rw [h4, h2, h1, hb]
      push_cast
      ring
    · rw [if_pos hb]
      have h3 := acc_fit w
        (((0 + to_u_long w (nb * 3000)) % 2 ^ w + to_u_long w (100 * la)) % 2 ^ w)
        (nbul * 500) (by linarith) (by rw [h2, h1]; push_cast; linarith)
      have h4 := acc_fit w
        ((((0 + to_u_long w (nb * 3000)) % 2 ^ w + to_u_long w (100 * la)) % 2 ^ w
          + to_u_long w (nbul * 500)) % 2 ^ w)
        (100 * tb) (by linarith) (by rw [h3, h2, h1]; push_cast; linarith)
      rw [h4, h3, h2, h1]
      push_cast
      ring

/-- The bonus for `time_bonus ≤ 0`, for a non-negative bullet count whose bonus
fits an `int` and the `u_long`: only the bullet bonus is awarded. -/
lemma compute_bonus_nonpos (w : Nat) (tb nb mb nbul la : Int)
    (htb : tb ≤ 0) (hbul : 0 ≤ nbul) (hbl : 500 * nbul < 2 ^ 31) (hfit : 500 * nbul < 2 ^ w) :
    ((score_compute_bonus w tb nb mb nbul la : Nat) : Int) = 500 * nbul := by
  simp only [score_compute_bonus, if_neg (not_lt.mpr htb), BULLET_SCORE]
  rw [int_mul_of_fit nbul 500 (by linarith) (by linarith)]
  by_cases hb : nbul = 0
  · rw [if_neg (not_not.mpr hb), hb]
    norm_num
  · rw [if_pos hb]
    have h3 := acc_fit w 0 (nbul * 500) (by linarith) (by push_cast; linarith)
    rw [h3]
    push_cast
    ring

/-- C26. For non-negative inputs without overflow (every `int` product that the
call forms stays below `2^31`, and the total fits the `w`-bit `u_long`), the
bonus equals `500*num_bullets` when `time_bonus ≤ 0`, and when `time_bonus > 0`
it equals `coins + 100*level_adj + 500*num_bullets + 100*time_bonus`, where
`coins = 50000` if `num_bonus > max_bonus` (strictly) and `3000*num_bonus`
otherwise, so `num_bonus = max_bonus` is not a super bonus; the values of
`test_score.c` are reproduced for `w = 64`. -/
theorem compute_bonus_spec (w : Nat) (time_bonus num_bonus max_bonus num_bullets level_adj : Int)
    (htb : 0 ≤ time_bonus) (hnb : 0 ≤ num_bonus) (_hmb : 0 ≤ max_bonus)
    (hbul : 0 ≤ num_bullets) (hla : 0 ≤ level_adj)
    (hbullets : 500 * num_bullets < 2 ^ 31)
    (hcoin : 0 < time_bonus → num_bonus ≤ max_bonus → 3000 * num_bonus < 2 ^ 31)
    (hlevel : 0 < time_bonus → 100 * level_adj < 2 ^ 31)
    (htime : 0 < time_bonus → 100 * time_bonus < 2 ^ 31)
    (hfit : (if num_bonus > max_bonus then 50000 else 3000 * num_bonus) + 100 * level_adj
      + 500 * num_bullets + 100 * time_bonus < 2 ^ w) :
    (time_bonus ≤ 0 →
      ((score_compute_bonus w time_bonus num_bonus max_bonus num_bullets level_adj : Nat) : Int)
        = 500 * num_bullets)
    ∧ (0 < time_bonus →
      ((score_compute_bonus w time_bonus num_bonus max_bonus num_bullets level_adj : Nat) : Int)
        = (if num_bonus > max_bonus then 50000 else 3000 * num_bonus) + 100 * level_adj
          + 500 * num_bullets + 100 * time_bonus)
    ∧ score_compute_bonus 64 0 3 8 4 1 = 2000
    ∧ score_compute_bonus 64 60 3 8 0 2 = 15200
    ∧ score_compute_bonus 64 10 9 8 0 1 = 51100
    ∧ score_compute_bonus 64 1 8 8 0 1 = 24200 := by
  have hc : (0 : Int) ≤ (if num_bonus > max_bonus then 50000 else 3000 * num_bonus) := by
    split_ifs
    · norm_num
    · linarith
  refine ⟨?_, ?_, by decide, by decide, by decide, by decide⟩
  · intro h
    exact compute_bonus_nonpos w _ _ _ _ _ h hbul hbullets (by linarith)
  · intro h
    exact compute_bonus_pos w _ _ _ _ _ h hnb hbul hla (hcoin h) (hlevel h) hbullets (htime h)
      hfit

/-- Witness for C26 on the fixture of
`test_bonus_exactly_at_threshold_not_super`. -/
theorem compute_bonus_spec_witness :
    ((1 : Int) ≤ 0 → ((score_compute_bonus 64 1 8 8 0 1 : Nat) : Int) = 500 * 0)
    ∧ ((0 : Int) < 1 → ((score_compute_bonus 64 1 8 8 0 1 : Nat) : Int)
        = (if (8 : Int) > 8 then 50000 else 3000 * 8) + 100 * 1 + 500 * 0 + 100 * 1)
    ∧ score_compute_bonus 64 0 3 8 4 1 = 2000
    ∧ score_compute_bonus 64 60 3 8 0 2 = 15200
    ∧ score_compute_bonus 64 10 9 8 0 1 = 51100
    ∧ score_compute_bonus 64 1 8 8 0 1 = 24200 :=
  compute_bonus_spec 64 1 8 8 0 1 (by decide) (by decide) (by decide) (by decide) (by decide)
    (by decide) (fun _ _ => by decide) (fun _ => by decide) (fun _ => by decide) (by decide)

/-- The `DROP_BLK` value for a row whose product fits an `int`. -/
lemma drop_points_of_fit (row : Int) (h0 : -(2 ^ 31) ≤ (MAX_ROW - row) * 100)
    (h1 : (MAX_ROW - row) * 100 < 2 ^ 31) :
    score_block_hit_points DROP_BLK row = (MAX_ROW - row) * 100 := by
  have hs : int_sub MAX_ROW row = MAX_ROW - row :=
    to_int32_of_range _ (by simp only [MAX_ROW] at h0 h1 ⊢; omega)
      (by simp only [MAX_ROW] at h0 h1 ⊢; omega)
  have hm : int_mul (int_sub MAX_ROW row) 100 = (MAX_ROW - row) * 100 := by
    rw [hs]
    exact to_int32_of_range _ h0 h1
  rw [← hm]
  simp [score_block_hit_points, BULLET_BLK, MAXAMMO_BLK, RED_BLK, GREEN_BLK, BLUE_BLK, TAN_BLK,
    YELLOW_BLK, PURPLE_BLK, BOMB_BLK, ROAMER_BLK, DROP_BLK]

/-- C27, as stated, fails for rows whose product `(MAX_ROW - row) * 100` leaves
the 32-bit `int` range: at row 30000000 the function returns 1294969096, which
is not `(MAX_ROW - row) * 100` and is above the 1800 of row 0, so the value is
neither the table value nor decreasing in the row. -/
theorem block_hit_points_counterexample :
    score_block_hit_points DROP_BLK 30000000 = 1294969096
    ∧ score_block_hit_points DROP_BLK 30000000 ≠ (MAX_ROW - 30000000) * 100
    ∧ score_block_hit_points DROP_BLK 0 = 1800
    ∧ ¬ (∀ r1 r2 : Int, r1 < r2 →
        score_block_hit_points DROP_BLK r2 < score_block_hit_points DROP_BLK r1) := by
  have h1 : score_block_hit_points DROP_BLK 30000000 = 1294969096 := by decide
  have h0 : score_block_hit_points DROP_BLK 0 = 1800 := by decide
  refine ⟨h1, ?_, h0, fun h => ?_⟩
  · rw [h1]
    decide
  · have := h 0 30000000 (by decide)
    rw [h1, h0] at this
    exact absurd this (by decide)

/-- C27. The block hit points equal the reference table for every block type,
and for DROP_BLK for every row whose product `(MAX_ROW - row) * 100` fits the
32-bit `int` in which the source forms it: colour blocks RED..PURPLE (types
0..5) score `100 + 10*type`; BULLET, MAXAMMO and BOMB score 50; COUNTER 200;
ROAMER 400; the ten action blocks score 100; DROP_BLK scores
`(MAX_ROW - row)*100` (1800 at row 0, 100 at row 17, strictly decreasing in row
over that range); every other type (DEATH, BLACK, DYNAMITE, BONUSX2, BONUSX4,
BONUS, BLACKHIT, RANDOM, NONE, KILL or any unknown value) scores 0 for every
row. -/
theorem block_hit_points_table (block_type row : Int) :
    (0 ≤ block_type → block_type ≤ 5 →
      score_block_hit_points block_type row = 100 + 10 * block_type)
    ∧ RED_BLK = 0 ∧ PURPLE_BLK = 5
    ∧ score_block_hit_points BULLET_BLK row = 50
    ∧ score_block_hit_points MAXAMMO_BLK row = 50
    ∧ score_block_hit_points BOMB_BLK row = 50
    ∧ score_block_hit_points COUNTER_BLK row = 200
    ∧ score_block_hit_points ROAMER_BLK row = 400
    ∧ score_block_hit_points EXTRABALL_BLK row = 100
    ∧ score_block_hit_points TIMER_BLK row = 100
    ∧ score_block_hit_points HYPERSPACE_BLK row = 100
    ∧ score_block_hit_points MGUN_BLK row = 100
    ∧ score_block_hit_points WALLOFF_BLK row = 100
    ∧ score_block_hit_points REVERSE_BLK row = 100
    ∧ score_block_hit_points MULTIBALL_BLK row = 100
    ∧ score_block_hit_points STICKY_BLK row = 100
    ∧ score_block_hit_points PAD_SHRINK_BLK row = 100
    ∧ score_block_hit_points PAD_EXPAND_BLK row = 100
    ∧ (-(2 ^ 31) ≤ (MAX_ROW - row) * 100 → (MAX_ROW - row) * 100 < 2 ^ 31 →
        score_block_hit_points DROP_BLK row = (MAX_ROW - row) * 100)
    ∧ score_block_hit_points DROP_BLK 0 = 1800
    ∧ score_block_hit_points DROP_BLK 17 = 100
    ∧ (∀ r1 r2 : Int, r1 < r2 →
        -(2 ^ 31) ≤ (MAX_ROW - r2) * 100 → (MAX_ROW - r1) * 100 < 2 ^ 31 →
        score_block_hit_points DROP_BLK r2 < score_block_hit_points DROP_BLK r1)
    ∧ score_block_hit_points DEATH_BLK row = 0
    ∧ score_block_hit_points BLACK_BLK row = 0
    ∧ score_block_hit_points DYNAMITE_BLK row = 0
    ∧ score_block_hit_points BONUSX2_BLK row = 0
    ∧ score_block_hit_points BONUSX4_BLK row = 0
    ∧ score_block_hit_points BONUS_BLK row = 0
    ∧ score_block_hit_points BLACKHIT_BLK row = 0
    ∧ score_block_hit_points RANDOM_BLK row = 0
    ∧ score_block_hit_points NONE_BLK row = 0
    ∧ score_block_hit_points KILL_BLK row = 0
    ∧ ((block_type < 0 ∨ block_type = 7 ∨ block_type = 10 ∨ 24 ≤ block_type) →
        score_block_hit_points block_type row = 0) := by
  have hval : ∀ r : Int,
      score_block_hit_points BULLET_BLK r = 50
      ∧ score_block_hit_points MAXAMMO_BLK r = 50
      ∧ score_block_hit_points BOMB_BLK r = 50
      ∧ score_block_hit_points COUNTER_BLK r = 200
      ∧ score_block_hit_points ROAMER_BLK r = 400
      ∧ score_block_hit_points EXTRABALL_BLK r = 100
      ∧ score_block_hit_points TIMER_BLK r = 100
      ∧ score_block_hit_points HYPERSPACE_BLK r = 100
      ∧ score_block_hit_points MGUN_BLK r = 100
      ∧ score_block_hit_points WALLOFF_BLK r = 100
      ∧ score_block_hit_points REVERSE_BLK r = 100
      ∧ score_block_hit_points MULTIBALL_BLK r = 100
      ∧ score_block_hit_points STICKY_BLK r = 100
      ∧ score_block_hit_points PAD_SHRINK_BLK r = 100
      ∧ score_block_hit_points PAD_EXPAND_BLK r = 100
      ∧ score_block_hit_points DEATH_BLK r = 0
      ∧ score_block_hit_points BLACK_BLK r = 0
      ∧ score_block_hit_points DYNAMITE_BLK r = 0
      ∧ score_block_hit_points BONUSX2_BLK r = 0
      ∧ score_block_hit_points BONUSX4_BLK r = 0
      ∧ score_block_hit_points BONUS_BLK r = 0
      ∧ score_block_hit_points BLACKHIT_BLK r = 0
      ∧ score_block_hit_points RANDOM_BLK r = 0
      ∧ score_block_hit_points NONE_BLK r = 0
      ∧ score_block_hit_points KILL_BLK r = 0 := by
    intro r
    simp [score_block_hit_points, BULLET_BLK, MAXAMMO_BLK, RED_BLK, GREEN_BLK, BLUE_BLK, TAN_BLK,
      YELLOW_BLK, PURPLE_BLK, BOMB_BLK, ROAMER_BLK, DROP_BLK, COUNTER_BLK, EXTRABALL_BLK,
      TIMER_BLK, HYPERSPACE_BLK, MGUN_BLK, WALLOFF_BLK, REVERSE_BLK, MULTIBALL_BLK, STICKY_BLK,
      PAD_SHRINK_BLK, PAD_EXPAND_BLK, DEATH_BLK, BLACK_BLK, DYNAMITE_BLK, BONUSX2_BLK,
      BONUSX4_BLK, BONUS_BLK, BLACKHIT_BLK, RANDOM_BLK, NONE_BLK, KILL_BLK]
  obtain ⟨v1, v2, v3, v4, v5, v6, v7, v8, v9, v10, v11, v12, v13, v14, v15, v17, v18, v19,
    v20, v21, v22, v23, v24, v25, v26⟩ := hval row
  refine ⟨?_, rfl, rfl, v1, v2, v3, v4, v5, v6, v7, v8, v9, v10, v11, v12, v13, v14, v15,
    drop_points_of_fit row, by decide, by decide, ?_, v17, v18, v19, v20, v21, v22, v23, v24,
    v25, v26, ?_⟩
  · intro h0 h5
    interval_cases block_type <;>
      simp [score_block_hit_points, BULLET_BLK, MAXAMMO_BLK, RED_BLK, GREEN_BLK, BLUE_BLK,
        TAN_BLK, YELLOW_BLK, PURPLE_BLK, BOMB_BLK, ROAMER_BLK, DROP_BLK, COUNTER_BLK,
        EXTRABALL_BLK, TIMER_BLK, HYPERSPACE_BLK, MGUN_BLK, WALLOFF_BLK, REVERSE_BLK,
        MULTIBALL_BLK, STICKY_BLK, PAD_SHRINK_BLK, PAD_EXPAND_BLK, DEATH_BLK, BLACK_BLK,
        DYNAMITE_BLK, BONUSX2_BLK, BONUSX4_BLK, BONUS_BLK, BLACKHIT_BLK, RANDOM_BLK, NONE_BLK,
        KILL_BLK, MAX_ROW]
  · intro r1 r2 h hlo hhi
    simp only [MAX_ROW] at hlo hhi
    rw [drop_points_of_fit r1 (by simp only [MAX_ROW]; omega) (by simp only [MAX_ROW]; omega),
      drop_points_of_fit r2 (by simp only [MAX_ROW]; omega) (by simp only [MAX_ROW]; omega)]
    simp only [MAX_ROW]
    omega
  · intro h
    have e0 : block_type ≠ 0 := by omega
    have e1 : block_type ≠ 1 := by omega
    have e2 : block_type ≠ 2 := by omega
    have e3 : block_type ≠ 3 := by omega
    have e4 : block_type ≠ 4 := by omega
    have e5 : block_type ≠ 5 := by omega
    have e6 : block_type ≠ 6 := by omega
    have e8 : block_type ≠ 8 := by omega
    have e9 : block_type ≠ 9 := by omega
    have e11 : block_type ≠ 11 := by omega
    have e12 : block_type ≠ 12 := by omega
    have e13 : block_type ≠ 13 := by omega
    have e14 : block_type ≠ 14 := by omega
    have e15 : block_type ≠ 15 := by omega
    have e16 : block_type ≠ 16 := by omega
    have e17 : block_type ≠ 17 := by omega
    have e18 : block_type ≠ 18 := by omega
    have e19 : block_type ≠ 19 := by omega
    have e20 : block_type ≠ 20 := by omega
    have e21 : block_type ≠ 21 := by omega
    have e22 : block_type ≠ 22 := by omega
    have e23 : block_type ≠ 23 := by omega
    simp [score_block_hit_points, BULLET_BLK, MAXAMMO_BLK, RED_BLK, GREEN_BLK, BLUE_BLK, TAN_BLK,
      YELLOW_BLK, PURPLE_BLK, BOMB_BLK, ROAMER_BLK, DROP_BLK, COUNTER_BLK, EXTRABALL_BLK,
      TIMER_BLK, HYPERSPACE_BLK, MGUN_BLK, WALLOFF_BLK, REVERSE_BLK, MULTIBALL_BLK, STICKY_BLK,
      PAD_SHRINK_BLK, PAD_EXPAND_BLK, DEATH_BLK, BLACK_BLK, DYNAMITE_BLK, BONUSX2_BLK,
      BONUSX4_BLK, BONUS_BLK, BLACKHIT_BLK, RANDOM_BLK, NONE_BLK, KILL_BLK, MAX_ROW,
      e0, e1, e2, e3, e4, e5, e6, e8, e9, e11, e12, e13, e14, e15, e16, e17, e18, e19, e20, e21,
      e22, e23]

/-- Witness for C27 at the bottom grid row: a DROP_BLK at row 17 scores 100,
below the 1800 of row 0. -/
theorem block_hit_points_table_witness :
    score_block_hit_points DROP_BLK 17 = (MAX_ROW - 17) * 100
    ∧ score_block_hit_points DROP_BLK 17 < score_block_hit_points DROP_BLK 0 :=
  ⟨(block_hit_points_table DROP_BLK 17).2.2.2.2.2.2.2.2.2.2.2.2.2.2.2.2.2.2.1
      (by decide) (by decide),
    (block_hit_points_table DROP_BLK 17).2.2.2.2.2.2.2.2.2.2.2.2.2.2.2.2.2.2.2.2.2.1 0 17
      (by decide) (by decide) (by decide)⟩

/-! Properties of the path initialisation. -/

/-- The score-file step returns `PATHS_OK` or `PATHS_TRUNCATED`. -/
lemma init_score_file_status (cfg : paths_config_t) (sc : Option (List Char)) :
    (init_score_file cfg sc).1 = paths_status_t.PATHS_OK
    ∨ (init_score_file cfg sc).1 = paths_status_t.PATHS_TRUNCATED := by
  unfold init_score_file
  simp only
  repeat' split
  all_goals first
    | exact Or.inr rfl
    | exact Or.inl rfl

/-- The steps from the sound directory on return `PATHS_OK` or
`PATHS_TRUNCATED`. -/
lemma init_sound_dir_status (cfg : paths_config_t) (sn sc : Option (List Char)) :
    (init_sound_dir cfg sn sc).1 = paths_status_t.PATHS_OK
    ∨ (init_sound_dir cfg sn sc).1 = paths_status_t.PATHS_TRUNCATED := by
  unfold init_sound_dir
  simp only
  repeat' split
  all_goals first
    | exact Or.inr rfl
    | exact init_score_file_status _ _

/-- The steps from the levels directory on return `PATHS_OK` or
`PATHS_TRUNCATED`. -/
lemma init_levels_dir_status (cfg : paths_config_t) (lv sn sc : Option (List Char)) :
    (init_levels_dir cfg lv sn sc).1 = paths_status_t.PATHS_OK
    ∨ (init_levels_dir cfg lv sn sc).1 = paths_status_t.PATHS_TRUNCATED := by
  unfold init_levels_dir
  simp only
  repeat' split
  all_goals first
    | exact Or.inr rfl
    | exact init_sound_dir_status _ _ _

/-- The steps from the data directories on return `PATHS_OK` or
`PATHS_TRUNCATED`. -/
lemma init_data_dirs_status (cfg : paths_config_t) (dirs lv sn sc : Option (List Char)) :
    (init_data_dirs cfg dirs lv sn sc).1 = paths_status_t.PATHS_OK
    ∨ (init_data_dirs cfg dirs lv sn sc).1 = paths_status_t.PATHS_TRUNCATED := by
  unfold init_data_dirs
  exact init_levels_dir_status _ _ _ _

/-- The steps from the configuration home on return `PATHS_OK` or
`PATHS_TRUNCATED`. -/
lemma init_config_home_status (cfg : paths_config_t) (ch dirs lv sn sc : Option (List Char)) :
    (init_config_home cfg ch dirs lv sn sc).1 = paths_status_t.PATHS_OK
    ∨ (init_config_home cfg ch dirs lv sn sc).1 = paths_status_t.PATHS_TRUNCATED := by
  unfold init_config_home
  simp only
  generalize (if ch ≠ none ∧ ch ≠ some [] then safe_copy cfg.xdg_config_home PATHS_MAX_PATH ch
    else ((if (snprintf PATHS_MAX_PATH (cfg.home ++ "/.config".toList)).1 < 0
        ∨ (snprintf PATHS_MAX_PATH (cfg.home ++ "/.config".toList)).1 ≥ (PATHS_MAX_PATH : Int)
        then -1 else 0), (snprintf PATHS_MAX_PATH (cfg.home ++ "/.config".toList)).2)) = r
  by_cases h : r.1 ≠ 0
  · rw [if_pos h]
    exact Or.inr rfl
  · rw [if_neg h]
    exact init_data_dirs_status _ _ _ _ _

/-- The steps from the data home on return `PATHS_OK` or `PATHS_TRUNCATED`. -/
lemma init_data_home_status (cfg : paths_config_t)
    (dh ch dirs lv sn sc : Option (List Char)) :
    (init_data_home cfg dh ch dirs lv sn sc).1 = paths_status_t.PATHS_OK
    ∨ (init_data_home cfg dh ch dirs lv sn sc).1 = paths_status_t.PATHS_TRUNCATED := by
  unfold init_data_home
  simp only
  generalize (if dh ≠ none ∧ dh ≠ some [] then safe_copy cfg.xdg_data_home PATHS_MAX_PATH dh
    else ((if (snprintf PATHS_MAX_PATH (cfg.home ++ "/.local/share".toList)).1 < 0
        ∨ (snprintf PATHS_MAX_PATH (cfg.home ++ "/.local/share".toList)).1 ≥ (PATHS_MAX_PATH : Int)
        then -1 else 0), (snprintf PATHS_MAX_PATH (cfg.home ++ "/.local/share".toList)).2)) = r
  by_cases h : r.1 ≠ 0
  · rw [if_pos h]
    exact Or.inr rfl
  · rw [if_neg h]
    exact init_config_home_status _ _ _ _ _ _

/-- When `home` is neither `NULL` nor empty, `paths_init_explicit` returns
`PATHS_OK` or `PATHS_TRUNCATED`. -/
lemma init_status_of_home (home dh ch dirs lv sn sc : Option (List Char))
    (hh : ¬ (home = none ∨ home = some [])) :
    (paths_init_explicit home dh ch dirs lv sn sc).1 = paths_status_t.PATHS_OK
    ∨ (paths_init_explicit home dh ch dirs lv sn sc).1 = paths_status_t.PATHS_TRUNCATED := by
  unfold paths_init_explicit
  simp only [if_neg hh]
  split
  · exact Or.inr rfl
  · exact init_data_home_status _ _ _ _ _ _ _

/-- C28. The function `paths_init_explicit` returns `PATHS_NO_HOME` if and
only if `home` is `NULL` or the empty string, whatever the other six arguments
are; for every other input it returns `PATHS_OK` or `PATHS_TRUNCATED`. -/
theorem init_no_home_iff
    (home xdg_data_home xdg_config_home xdg_data_dirs xboing_levels xboing_sounds
      xboing_scores : Option (List Char)) :
    ((paths_init_explicit home xdg_data_home xdg_config_home xdg_data_dirs xboing_levels
        xboing_sounds xboing_scores).1 = paths_status_t.PATHS_NO_HOME
      ↔ (home = none ∨ home = some []))
    ∧ (¬ (home = none ∨ home = some []) →
      (paths_init_explicit home xdg_data_home xdg_config_home xdg_data_dirs xboing_levels
          xboing_sounds xboing_scores).1 = paths_status_t.PATHS_OK
        ∨ (paths_init_explicit home xdg_data_home xdg_config_home xdg_data_dirs xboing_levels
          xboing_sounds xboing_scores).1 = paths_status_t.PATHS_TRUNCATED) := by
  refine ⟨⟨fun h => ?_, fun hh => ?_⟩, fun hh => init_status_of_home _ _ _ _ _ _ _ hh⟩
  · by_contra hh
    rcases init_status_of_home home xdg_data_home xdg_config_home xdg_data_dirs xboing_levels
      xboing_sounds xboing_scores hh with h1 | h1
    · rw [h1] at h
      exact absurd h (by decide)
    · rw [h1] at h
      exact absurd h (by decide)
  · unfold paths_init_explicit
    simp only [if_pos hh]

/-- The claim C28 on the call of `test_init_xdg_defaults`: `home` is set, and
the call returns `PATHS_OK` or `PATHS_TRUNCATED`. -/
theorem init_no_home_iff_witness :
    ¬ ((some "/home/test".toList : Option (List Char)) = none
        ∨ (some "/home/test".toList : Option (List Char)) = some [])
    ∧ ((paths_init_explicit (some "/home/test".toList) none none none none none none).1
          = paths_status_t.PATHS_OK
        ∨ (paths_init_explicit (some "/home/test".toList) none none none none none none).1
          = paths_status_t.PATHS_TRUNCATED) :=
  ⟨by decide,
    (init_no_home_iff (some "/home/test".toList) none none none none none none).2
      (by decide)⟩

/-- Leading colons do not change the non-empty segments. -/
lemma segments_cons_colon (l : List Char) :
    data_dir_segments (':' :: l) = data_dir_segments l := by
  unfold data_dir_segments List.splitOn
  rw [List.splitOnP_cons]
  simp

/-- Skipping the leading colons does not change the non-empty segments. -/
lemma segments_dropWhile (s : List Char) :
    data_dir_segments (s.dropWhile (fun c => c == ':')) = data_dir_segments s := by
  induction s with
  | nil => rfl
  | cons c l ih =>
    by_cases hc : c = ':'
    · subst hc
      rw [segments_cons_colon]
      simpa [List.dropWhile] using ih
    · have : (c == ':') = false := by simpa using hc
      simp [List.dropWhile, this]

/-- The segments of a text that starts with a character other than a colon:
the first is the text up to the first colon, the others are the segments of the
text after that colon. -/
lemma segments_of_token (s : List Char) (hs : s ≠ [])
    (hhead : ∀ c ∈ s.head?, c ≠ ':') :
    data_dir_segments s
      = s.takeWhile (fun c => c != ':')
        :: data_dir_segments ((s.dropWhile (fun c => c != ':')).drop 1) := by
  have hsplit : s = s.takeWhile (fun c => c != ':') ++ s.dropWhile (fun c => c != ':') :=
    (List.takeWhile_append_dropWhile _ _).symm
  have hno : ∀ x ∈ s.takeWhile (fun c => c != ':'), ¬ ((fun c => c == ':') x = true) := by
    intro x hx
    have := List.mem_takeWhile_imp hx
    simpa using this
  have htok : s.takeWhile (fun c => c != ':') ≠ [] := by
    cases s with
    | nil => exact absurd rfl hs
    | cons c l =>
      have hc : c ≠ ':' := hhead c (by simp)
      have hb : (c != ':') = true := by simpa using hc
      simp [List.takeWhile, hb]
  cases hd : s.dropWhile (fun c => c != ':') with
  | nil =>
    have e : s = s.takeWhile (fun c => c != ':') := by
      rw [hd, List.append_nil] at hsplit
      exact hsplit
    have e1 : data_dir_segments s = [s.takeWhile (fun c => c != ':')] := by
      conv_lhs => rw [e]
      unfold data_dir_segments List.splitOn
      rw [List.splitOnP_eq_single _ _ hno]
      simp [htok]
    rw [e1]
    simp [data_dir_segments, List.splitOn]
  | cons x r =>
    have hx : x = ':' := by
      have := List.head_dropWhile_not (fun c => c != ':') s
      simp [hd] at this
      exact this
    subst hx
    have e1 : data_dir_segments s
        = s.takeWhile (fun c => c != ':') :: data_dir_segments r := by
      conv_lhs => rw [hsplit, hd]
      unfold data_dir_segments List.splitOn
      rw [List.splitOnP_first _ _ hno ':' (by simp)]
      simp [htok]
    rw [e1]
    simp

/-- When `strtok_r` finds no token, the text has no non-empty segment. -/
lemma strtok_r_none (s : List Char) (h : (strtok_r ':' s).1 = none) :
    data_dir_segments s = [] := by
  unfold strtok_r at h
  by_cases h1 : s.dropWhile (fun c => c == ':') = []
  · rw [← segments_dropWhile, h1]
    rfl
  · simp [h1] at h

/-- When `strtok_r` finds a token, the token is the first non-empty segment of
the text, the segments of the text left in `saveptr` are the other non-empty
segments, and that text is shorter than the scanned text. -/
lemma strtok_r_some (s t : List Char) (h : (strtok_r ':' s).1 = some t) :
    t ≠ [] ∧ data_dir_segments s = t :: data_dir_segments (strtok_r ':' s).2
      ∧ (strtok_r ':' s).2.length < s.length := by
  unfold strtok_r at h ⊢
  by_cases h1 : s.dropWhile (fun c => c == ':') = []
  · simp [h1] at h
  · simp only [h1, if_false] at h ⊢
    have ht : t = (s.dropWhile (fun c => c == ':')).takeWhile (fun c => c != ':') := by
      simpa using h.symm
    have hhead : ∀ c ∈ (s.dropWhile (fun c => c == ':')).head?, c ≠ ':' := by
      intro c hc
      have := List.head?_dropWhile_not (fun c => c == ':') s
      rw [Option.mem_def] at hc
      rw [hc] at this
      simpa using this
    have hseg := segments_of_token _ h1 hhead
    rw [segments_dropWhile] at hseg
    refine ⟨?_, ?_, ?_⟩
    · rw [ht]
      cases hs1 : s.dropWhile (fun c => c == ':') with
      | nil => exact absurd hs1 h1
      | cons c l =>
        have hc : c ≠ ':' := hhead c (by simp [hs1])
        have hb : (c != ':') = true := by simpa using hc
        simp [List.takeWhile, hb]
    · rw [ht]
      exact hseg
    · cases hs1 : s.dropWhile (fun c => c == ':') with
      | nil => exact absurd hs1 h1
      | cons c l =>
        have hc : c ≠ ':' := hhead c (by simp [hs1])
        have hb : (c != ':') = true := by simpa using hc
        have h2 : (c :: l).length ≤ s.length := by
          rw [← hs1]
          exact (List.dropWhile_sublist _).length_le
        have h3 : (List.dropWhile (fun c => c != ':') (c :: l)).length ≤ l.length := by
          simp only [List.dropWhile, hb]
          exact (List.dropWhile_sublist _).length_le
        have h4 : ((List.dropWhile (fun c => c != ':') (c :: l)).drop 1).length
            ≤ (List.dropWhile (fun c => c != ':') (c :: l)).length := by
          simp
        simp only [List.length_cons] at h2
        omega

/-- The copy made by `safe_copy` into a buffer of non-zero size does not
depend on the previous contents of the buffer. -/
lemma safe_copy_dst (dst dst2 : List Char) (src : Option (List Char)) :
    safe_copy dst PATHS_MAX_PATH src = safe_copy dst2 PATHS_MAX_PATH src := by
  unfold safe_copy
  simp [PATHS_MAX_PATH]

/-- A text shorter than the buffer is copied whole. -/
lemma safe_copy_fits (dst str : List Char) (h : str.length < PATHS_MAX_PATH) :
    safe_copy dst PATHS_MAX_PATH (some str) = (0, str) := by
  unfold safe_copy
  have h1 : ¬ (PATHS_MAX_PATH = 0) := by simp [PATHS_MAX_PATH]
  have h2 : ¬ (str.length ≥ PATHS_MAX_PATH) := by omega
  simp only [h1, if_false, h2]

/-- Writing entry `k` of an array and reading the first `k + 1` entries. -/
lemma take_succ_set {α : Type} (l : List α) (k : Nat) (a : α) (h : k < l.length) :
    (l.set k a).take (k + 1) = l.take k ++ [a] := by
  induction l generalizing k with
  | nil => simp at h
  | cons x l ih =>
    cases k with
    | zero => simp
    | succ k =>
      simp only [List.length_cons, Nat.add_lt_add_iff_right] at h
      simp [ih k h]

/-- The loop of `parse_data_dirs`, started on the tokens of the text `s` with
enough iterations: the count grows by the number of non-empty segments of `s`
up to `PATHS_MAX_DATA_DIRS`, the entries below the old count are kept and the
new entries are the stripped copies of the first segments in order. -/
lemma parse_data_dirs_loop_spec : ∀ (fuel : Nat) (cfg : paths_config_t) (s : List Char),
    s.length < fuel → cfg.xdg_data_dirs.length = PATHS_MAX_DATA_DIRS →
    cfg.xdg_data_dirs_count ≤ PATHS_MAX_DATA_DIRS →
    (parse_data_dirs_loop fuel cfg (strtok_r ':' s).1 (strtok_r ':' s).2).xdg_data_dirs_count
        = min (cfg.xdg_data_dirs_count + (data_dir_segments s).length) PATHS_MAX_DATA_DIRS
    ∧ (parse_data_dirs_loop fuel cfg (strtok_r ':' s).1 (strtok_r ':' s).2).xdg_data_dirs.take
          (parse_data_dirs_loop fuel cfg (strtok_r ':' s).1
            (strtok_r ':' s).2).xdg_data_dirs_count
        = cfg.xdg_data_dirs.take cfg.xdg_data_dirs_count
          ++ ((data_dir_segments s).take (PATHS_MAX_DATA_DIRS - cfg.xdg_data_dirs_count)).map
              (fun seg => strip_trailing_slash (safe_copy [] PATHS_MAX_PATH (some seg)).2)
    ∧ (parse_data_dirs_loop fuel cfg (strtok_r ':' s).1
          (strtok_r ':' s).2).xdg_data_dirs.length = PATHS_MAX_DATA_DIRS := by
  intro fuel
  induction fuel with
  | zero => intro cfg s h; omega
  | succ fuel ih =>
    intro cfg s hlen hA hk
    cases htok : (strtok_r ':' s).1 with
    | none =>
      have hseg := strtok_r_none s htok
      rw [hseg]
      simp only [parse_data_dirs_loop, List.length_nil, Nat.add_zero, List.take_nil, List.map_nil,
        List.append_nil]
      exact ⟨(Nat.min_eq_left hk).symm, trivial, hA⟩
    | some t =>
      obtain ⟨htne, hseg, hrest⟩ := strtok_r_some s t htok
      rw [hseg]
      by_cases hk8 : cfg.xdg_data_dirs_count < PATHS_MAX_DATA_DIRS
      · have hstep : parse_data_dirs_loop (fuel + 1) cfg (some t) (strtok_r ':' s).2
            = parse_data_dirs_loop fuel
                { cfg with
                  xdg_data_dirs := cfg.xdg_data_dirs.set cfg.xdg_data_dirs_count
                    (strip_trailing_slash (safe_copy [] PATHS_MAX_PATH (some t)).2)
                  xdg_data_dirs_count := cfg.xdg_data_dirs_count + 1 }
                (strtok_r ':' (strtok_r ':' s).2).1 (strtok_r ':' (strtok_r ':' s).2).2 := by
          rw [parse_data_dirs_loop]
          simp only [hk8, if_true, htne, ne_eq, not_false_eq_true]
          rw [safe_copy_dst _ []]
        rw [hstep]
        have hlen2 : (strtok_r ':' s).2.length < fuel := by omega
        obtain ⟨h1, h2, h3⟩ := ih
          { cfg with
            xdg_data_dirs := cfg.xdg_data_dirs.set cfg.xdg_data_dirs_count
              (strip_trailing_slash (safe_copy [] PATHS_MAX_PATH (some t)).2)
            xdg_data_dirs_count := cfg.xdg_data_dirs_count + 1 }
          (strtok_r ':' s).2 hlen2 (by simpa using hA) (by simpa using hk8)
        simp only at h1 h2 h3
        refine ⟨?_, ?_, h3⟩
        · rw [h1, List.length_cons]
          congr 1
          omega
        · rw [h2]
          have hpos : PATHS_MAX_DATA_DIRS - cfg.xdg_data_dirs_count
              = (PATHS_MAX_DATA_DIRS - (cfg.xdg_data_dirs_count + 1)) + 1 := by omega
          rw [hpos, List.take_succ_cons, List.map_cons]
          have hset : (cfg.xdg_data_dirs.set cfg.xdg_data_dirs_count
                (strip_trailing_slash (safe_copy [] PATHS_MAX_PATH (some t)).2)).take
                  (cfg.xdg_data_dirs_count + 1)
              = cfg.xdg_data_dirs.take cfg.xdg_data_dirs_count
                ++ [strip_trailing_slash (safe_copy [] PATHS_MAX_PATH (some t)).2] := by
            exact take_succ_set _ _ _ (by rw [hA]; exact hk8)
          rw [hset, List.append_assoc]
          rfl
      · have hstep : parse_data_dirs_loop (fuel + 1) cfg (some t) (strtok_r ':' s).2 = cfg := by
          rw [parse_data_dirs_loop]
          simp only [hk8, if_false]
        rw [hstep]
        have hk' : cfg.xdg_data_dirs_count = PATHS_MAX_DATA_DIRS := by omega
        refine ⟨?_, ?_, hA⟩
        · rw [hk']; simp
        · rw [hk']; simp

/-- The loop of `parse_data_dirs` changes no field other than the directory
array and its count, and keeps the count at most `PATHS_MAX_DATA_DIRS`. -/
lemma parse_data_dirs_loop_frame : ∀ (fuel : Nat) (cfg : paths_config_t)
    (tok : Option (List Char)) (saveptr : List Char),
    (parse_data_dirs_loop fuel cfg tok saveptr).home = cfg.home
    ∧ (parse_data_dirs_loop fuel cfg tok saveptr).xdg_data_home = cfg.xdg_data_home
    ∧ (parse_data_dirs_loop fuel cfg tok saveptr).xdg_config_home = cfg.xdg_config_home
    ∧ (parse_data_dirs_loop fuel cfg tok saveptr).xboing_levels_dir = cfg.xboing_levels_dir
    ∧ (parse_data_dirs_loop fuel cfg tok saveptr).xboing_sound_dir = cfg.xboing_sound_dir
    ∧ (parse_data_dirs_loop fuel cfg tok saveptr).xboing_score_file = cfg.xboing_score_file
    ∧ (cfg.xdg_data_dirs_count ≤ PATHS_MAX_DATA_DIRS →
        (parse_data_dirs_loop fuel cfg tok saveptr).xdg_data_dirs_count
          ≤ PATHS_MAX_DATA_DIRS) := by
  intro fuel
  induction fuel with
  | zero =>
    intro cfg tok saveptr
    simp [parse_data_dirs_loop]
  | succ fuel ih =>
    intro cfg tok saveptr
    cases tok with
    | none => simp [parse_data_dirs_loop]
    | some t =>
      rw [parse_data_dirs_loop]
      by_cases hk8 : cfg.xdg_data_dirs_count < PATHS_MAX_DATA_DIRS
      · by_cases ht : t ≠ []
        · simp only [hk8, if_true, ht, ne_eq, not_false_eq_true]
          obtain ⟨h1, h2, h3, h4, h5, h6, h7⟩ := ih
            { cfg with
              xdg_data_dirs := cfg.xdg_data_dirs.set cfg.xdg_data_dirs_count
                (strip_trailing_slash (safe_copy (cfg.xdg_data_dirs.getD cfg.xdg_data_dirs_count [])
                  PATHS_MAX_PATH (some t)).2)
              xdg_data_dirs_count := cfg.xdg_data_dirs_count + 1 }
            (strtok_r ':' saveptr).1 (strtok_r ':' saveptr).2
          exact ⟨h1, h2, h3, h4, h5, h6, fun _ => h7 hk8⟩
        · have ht2 : t = [] := by simpa using ht
          subst ht2
          simp only [hk8, if_true, ne_eq, not_true_eq_false, if_false]
          exact ih cfg (strtok_r ':' saveptr).1 (strtok_r ':' saveptr).2
      · simp only [hk8, if_false]
        simp

/-- When `safe_copy` into a buffer of `PATHS_MAX_PATH` bytes returns 0, the
buffer holds the source text (the empty text for `NULL`), which is shorter
than the buffer. -/
lemma safe_copy_ok (dst : List Char) (src : Option (List Char))
    (h : (safe_copy dst PATHS_MAX_PATH src).1 = 0) :
    (safe_copy dst PATHS_MAX_PATH src).2 = src.getD []
      ∧ (src.getD []).length < PATHS_MAX_PATH := by
  unfold safe_copy at h ⊢
  have h1 : ¬ (PATHS_MAX_PATH = 0) := by simp [PATHS_MAX_PATH]
  simp only [h1, if_false] at h ⊢
  cases src with
  | none => simp [PATHS_MAX_PATH]
  | some str =>
    by_cases h2 : str.length ≥ PATHS_MAX_PATH
    · simp [h2] at h
    · simp only [h2, if_false, Option.getD_some]
      exact ⟨trivial, by omega⟩

/-- When the `snprintf` test of `paths_init_explicit` passes, the buffer holds
the whole output. -/
lemma snprintf_ok (out : List Char)
    (h : ¬ ((if (snprintf PATHS_MAX_PATH out).1 < 0
        ∨ (snprintf PATHS_MAX_PATH out).1 ≥ (PATHS_MAX_PATH : Int) then (-1 : Int) else 0) ≠ 0)) :
    (snprintf PATHS_MAX_PATH out).2 = out := by
  unfold snprintf at h ⊢
  simp only
  have h4 : out.length < PATHS_MAX_PATH := by
    by_contra hc
    apply h
    have h5 : (out.length : Int) ≥ (PATHS_MAX_PATH : Int) := by
      exact_mod_cast Nat.le_of_not_lt hc
    rw [if_pos (Or.inr h5)]
    decide
  exact List.take_of_length_le (by omega)

/-- The result of the score-file step when it returns `PATHS_OK`. -/
lemma init_score_file_ok (cfg : paths_config_t) (sc : Option (List Char))
    (h : (init_score_file cfg sc).1 = paths_status_t.PATHS_OK) :
    (init_score_file cfg sc).2
      = { cfg with
          xboing_score_file :=
            if sc ≠ none ∧ sc ≠ some [] then sc.getD [] else cfg.xboing_score_file } := by
  unfold init_score_file at h ⊢
  by_cases hc : sc ≠ none ∧ sc ≠ some []
  · simp only [if_pos hc] at h ⊢
    by_cases hr : (safe_copy cfg.xboing_score_file PATHS_MAX_PATH sc).1 ≠ 0
    · rw [if_pos hr] at h
      simp at h
    · rw [if_neg hr]
      have h0 : (safe_copy cfg.xboing_score_file PATHS_MAX_PATH sc).1 = 0 := by
        simpa using hr
      rw [(safe_copy_ok _ _ h0).1]
  · simp only [if_neg hc]

/-- The result of the steps from the sound directory on when they return
`PATHS_OK`. -/
lemma init_sound_dir_ok (cfg : paths_config_t) (sn sc : Option (List Char))
    (h : (init_sound_dir cfg sn sc).1 = paths_status_t.PATHS_OK) :
    (init_sound_dir cfg sn sc).2
      = { cfg with
          xboing_sound_dir :=
            if sn ≠ none ∧ sn ≠ some [] then strip_trailing_slash (sn.getD [])
            else cfg.xboing_sound_dir
          xboing_score_file :=
            if sc ≠ none ∧ sc ≠ some [] then sc.getD [] else cfg.xboing_score_file } := by
  unfold init_sound_dir at h ⊢
  by_cases hc : sn ≠ none ∧ sn ≠ some []
  · simp only [if_pos hc] at h ⊢
    by_cases hr : (safe_copy cfg.xboing_sound_dir PATHS_MAX_PATH sn).1 ≠ 0
    · rw [if_pos hr] at h
      simp at h
    · rw [if_neg hr] at h ⊢
      have h0 : (safe_copy cfg.xboing_sound_dir PATHS_MAX_PATH sn).1 = 0 := by
        simpa using hr
      rw [init_score_file_ok _ _ h, (safe_copy_ok _ _ h0).1]
  · simp only [if_neg hc] at h ⊢
    rw [init_score_file_ok _ _ h]

/-- The result of the steps from the levels directory on when they return
`PATHS_OK`. -/
lemma init_levels_dir_ok (cfg : paths_config_t) (lv sn sc : Option (List Char))
    (h : (init_levels_dir cfg lv sn sc).1 = paths_status_t.PATHS_OK) :
    (init_levels_dir cfg lv sn sc).2
      = { cfg with
          xboing_levels_dir :=
            if lv ≠ none ∧ lv ≠ some [] then strip_trailing_slash (lv.getD [])
            else cfg.xboing_levels_dir
          xboing_sound_dir :=
            if sn ≠ none ∧ sn ≠ some [] then strip_trailing_slash (sn.getD [])
            else cfg.xboing_sound_dir
          xboing_score_file :=
            if sc ≠ none ∧ sc ≠ some [] then sc.getD [] else cfg.xboing_score_file } := by
  unfold init_levels_dir at h ⊢
  by_cases hc : lv ≠ none ∧ lv ≠ some []
  · simp only [if_pos hc] at h ⊢
    by_cases hr : (safe_copy cfg.xboing_levels_dir PATHS_MAX_PATH lv).1 ≠ 0
    · rw [if_pos hr] at h
      simp at h
    · rw [if_neg hr] at h ⊢
      have h0 : (safe_copy cfg.xboing_levels_dir PATHS_MAX_PATH lv).1 = 0 := by
        simpa using hr
      rw [init_sound_dir_ok _ _ _ h, (safe_copy_ok _ _ h0).1]
  · simp only [if_neg hc] at h ⊢
    rw [init_sound_dir_ok _ _ _ h]

/-- The helper `parse_data_dirs` changes no field other than the directory
array and its count, and leaves a count of at most `PATHS_MAX_DATA_DIRS`. -/
lemma parse_data_dirs_frame (cfg : paths_config_t) (dirs : Option (List Char)) :
    (parse_data_dirs cfg dirs).home = cfg.home
    ∧ (parse_data_dirs cfg dirs).xdg_data_home = cfg.xdg_data_home
    ∧ (parse_data_dirs cfg dirs).xdg_config_home = cfg.xdg_config_home
    ∧ (parse_data_dirs cfg dirs).xboing_levels_dir = cfg.xboing_levels_dir
    ∧ (parse_data_dirs cfg dirs).xboing_sound_dir = cfg.xboing_sound_dir
    ∧ (parse_data_dirs cfg dirs).xboing_score_file = cfg.xboing_score_file
    ∧ (parse_data_dirs cfg dirs).xdg_data_dirs_count ≤ PATHS_MAX_DATA_DIRS := by
  unfold parse_data_dirs
  cases dirs with
  | none => simp
  | some d =>
    by_cases hd : d = []
    · simp [hd]
    · simp only [hd, if_false]
      obtain ⟨h1, h2, h3, h4, h5, h6, h7⟩ := parse_data_dirs_loop_frame
        ((d.take (if d.length ≥ PATHS_MAX_PATH * PATHS_MAX_DATA_DIRS
            then PATHS_MAX_PATH * PATHS_MAX_DATA_DIRS - 1 else d.length)).length + 1)
        { cfg with xdg_data_dirs_count := 0 }
        (strtok_r ':' (d.take (if d.length ≥ PATHS_MAX_PATH * PATHS_MAX_DATA_DIRS
            then PATHS_MAX_PATH * PATHS_MAX_DATA_DIRS - 1 else d.length))).1
        (strtok_r ':' (d.take (if d.length ≥ PATHS_MAX_PATH * PATHS_MAX_DATA_DIRS
            then PATHS_MAX_PATH * PATHS_MAX_DATA_DIRS - 1 else d.length))).2
      exact ⟨h1, h2, h3, h4, h5, h6, h7 (Nat.zero_le _)⟩

/-- The helper `parse_data_dirs` on a non-empty text that fits its local
buffer, with an array of `PATHS_MAX_DATA_DIRS` entries: the count is the number
of non-empty segments capped at `PATHS_MAX_DATA_DIRS`, and the entries below
the count are the stripped copies of the first segments in order. -/
lemma parse_data_dirs_spec (cfg : paths_config_t) (d : List Char) (hd : d ≠ [])
    (hlen : d.length < PATHS_MAX_PATH * PATHS_MAX_DATA_DIRS)
    (hA : cfg.xdg_data_dirs.length = PATHS_MAX_DATA_DIRS) :
    (parse_data_dirs cfg (some d)).xdg_data_dirs_count
        = min (data_dir_segments d).length PATHS_MAX_DATA_DIRS
    ∧ (parse_data_dirs cfg (some d)).xdg_data_dirs.take
          (parse_data_dirs cfg (some d)).xdg_data_dirs_count
        = ((data_dir_segments d).take PATHS_MAX_DATA_DIRS).map
            (fun seg => strip_trailing_slash (safe_copy [] PATHS_MAX_PATH (some seg)).2) := by
  unfold parse_data_dirs
  have hl : ¬ (d.length ≥ PATHS_MAX_PATH * PATHS_MAX_DATA_DIRS) := by omega
  simp only [hd, if_false, hl, List.take_length]
  obtain ⟨h1, h2, _⟩ := parse_data_dirs_loop_spec (d.length + 1)
    { cfg with xdg_data_dirs_count := 0 } d (Nat.lt_succ_self _) hA (Nat.zero_le _)
  simp only [Nat.zero_add, List.take_zero, List.nil_append, Nat.sub_zero] at h1 h2
  exact ⟨h1, h2⟩

/-- The result of the steps from the data directories on when they return
`PATHS_OK`. -/
lemma init_data_dirs_ok (cfg : paths_config_t) (dirs lv sn sc : Option (List Char))
    (h : (init_data_dirs cfg dirs lv sn sc).1 = paths_status_t.PATHS_OK) :
    (init_data_dirs cfg dirs lv sn sc).2
      = { parse_data_dirs cfg
            (if dirs ≠ none ∧ dirs ≠ some [] then dirs
              else some "/usr/local/share:/usr/share".toList) with
          xboing_levels_dir :=
            if lv ≠ none ∧ lv ≠ some [] then strip_trailing_slash (lv.getD [])
            else cfg.xboing_levels_dir
          xboing_sound_dir :=
            if sn ≠ none ∧ sn ≠ some [] then strip_trailing_slash (sn.getD [])
            else cfg.xboing_sound_dir
          xboing_score_file :=
            if sc ≠ none ∧ sc ≠ some [] then sc.getD [] else cfg.xboing_score_file } := by
  have e : init_data_dirs cfg dirs lv sn sc
      = init_levels_dir (parse_data_dirs cfg
            (if dirs ≠ none ∧ dirs ≠ some [] then dirs
              else some "/usr/local/share:/usr/share".toList)) lv sn sc := by
    unfold init_data_dirs
    by_cases hc : dirs ≠ none ∧ dirs ≠ some []
    · simp only [if_pos hc]
    · simp only [if_neg hc]
  rw [e] at h ⊢
  rw [init_levels_dir_ok _ _ _ _ h]
  obtain ⟨_, _, _, h4, h5, h6, _⟩ := parse_data_dirs_frame cfg
    (if dirs ≠ none ∧ dirs ≠ some [] then dirs else some "/usr/local/share:/usr/share".toList)
  rw [h4, h5, h6]

/-- The result of the steps from the configuration home on when they return
`PATHS_OK`. -/
lemma init_config_home_ok (cfg : paths_config_t) (ch dirs lv sn sc : Option (List Char))
    (h : (init_config_home cfg ch dirs lv sn sc).1 = paths_status_t.PATHS_OK) :
    (init_config_home cfg ch dirs lv sn sc).2
      = { parse_data_dirs
            { cfg with
              xdg_config_home := strip_trailing_slash
                (if ch ≠ none ∧ ch ≠ some [] then ch.getD []
                  else cfg.home ++ "/.config".toList) }
            (if dirs ≠ none ∧ dirs ≠ some [] then dirs
              else some "/usr/local/share:/usr/share".toList) with
          xboing_levels_dir :=
            if lv ≠ none ∧ lv ≠ some [] then strip_trailing_slash (lv.getD [])
            else cfg.xboing_levels_dir
          xboing_sound_dir :=
            if sn ≠ none ∧ sn ≠ some [] then strip_trailing_slash (sn.getD [])
            else cfg.xboing_sound_dir
          xboing_score_file :=
            if sc ≠ none ∧ sc ≠ some [] then sc.getD [] else cfg.xboing_score_file } := by
  unfold init_config_home at h ⊢
  by_cases hc : ch ≠ none ∧ ch ≠ some []
  · simp only [if_pos hc] at h ⊢
    by_cases hr : (safe_copy cfg.xdg_config_home PATHS_MAX_PATH ch).1 ≠ 0
    · rw [if_pos hr] at h
      simp at h
    · rw [if_neg hr] at h ⊢
      have h0 : (safe_copy cfg.xdg_config_home PATHS_MAX_PATH ch).1 = 0 := by
        simpa using hr
      rw [init_data_dirs_ok _ _ _ _ _ h, (safe_copy_ok _ _ h0).1]
  · simp only [if_neg hc] at h ⊢
    by_cases hr : (if (snprintf PATHS_MAX_PATH (cfg.home ++ "/.config".toList)).1 < 0
        ∨ (snprintf PATHS_MAX_PATH (cfg.home ++ "/.config".toList)).1 ≥ (PATHS_MAX_PATH : Int)
        then (-1 : Int) else 0) ≠ 0
    · rw [if_pos hr] at h
      simp at h
    · rw [if_neg hr] at h ⊢
      rw [init_data_dirs_ok _ _ _ _ _ h, snprintf_ok _ hr]

/-- The result of the steps from the data home on when they return
`PATHS_OK`. -/
lemma init_data_home_ok (cfg : paths_config_t) (dh ch dirs lv sn sc : Option (List Char))
    (h : (init_data_home cfg dh ch dirs lv sn sc).1 = paths_status_t.PATHS_OK) :
    (init_data_home cfg dh ch dirs lv sn sc).2
      = { parse_data_dirs
            { cfg with
              xdg_data_home := strip_trailing_slash
                (if dh ≠ none ∧ dh ≠ some [] then dh.getD []
                  else cfg.home ++ "/.local/share".toList)
              xdg_config_home := strip_trailing_slash
                (if ch ≠ none ∧ ch ≠ some [] then ch.getD []
                  else cfg.home ++ "/.config".toList) }
            (if dirs ≠ none ∧ dirs ≠ some [] then dirs
              else some "/usr/local/share:/usr/share".toList) with
          xboing_levels_dir :=
            if lv ≠ none ∧ lv ≠ some [] then strip_trailing_slash (lv.getD [])
            else cfg.xboing_levels_dir
          xboing_sound_dir :=
            if sn ≠ none ∧ sn ≠ some [] then strip_trailing_slash (sn.getD [])
            else cfg.xboing_sound_dir
          xboing_score_file :=
            if sc ≠ none ∧ sc ≠ some [] then sc.getD [] else cfg.xboing_score_file } := by
  unfold init_data_home at h ⊢
  by_cases hc : dh ≠ none ∧ dh ≠ some []
  · simp only [if_pos hc] at h ⊢
    by_cases hr : (safe_copy cfg.xdg_data_home PATHS_MAX_PATH dh).1 ≠ 0
    · rw [if_pos hr] at h
      simp at h
    · rw [if_neg hr] at h ⊢
      have h0 : (safe_copy cfg.xdg_data_home PATHS_MAX_PATH dh).1 = 0 := by
        simpa using hr
      rw [init_config_home_ok _ _ _ _ _ _ h, (safe_copy_ok _ _ h0).1]
  · simp only [if_neg hc] at h ⊢
    by_cases hr : (if (snprintf PATHS_MAX_PATH (cfg.home ++ "/.local/share".toList)).1 < 0
        ∨ (snprintf PATHS_MAX_PATH (cfg.home ++ "/.local/share".toList)).1
          ≥ (PATHS_MAX_PATH : Int)
        then (-1 : Int) else 0) ≠ 0
    · rw [if_pos hr] at h
      simp at h
    · rw [if_neg hr] at h ⊢
      rw [init_config_home_ok _ _ _ _ _ _ h, snprintf_ok _ hr]

/-- The configuration left by a call of `paths_init_explicit` that returns
`PATHS_OK`: `home` is set, and every field is given in closed form. -/
lemma init_ok_form (home dh ch dirs lv sn sc : Option (List Char))
    (h : (paths_init_explicit home dh ch dirs lv sn sc).1 = paths_status_t.PATHS_OK) :
    (home ≠ none ∧ home ≠ some [])
    ∧ (paths_init_explicit home dh ch dirs lv sn sc).2
      = { parse_data_dirs
            { paths_config_zero with
              home := strip_trailing_slash (home.getD [])
              xdg_data_home := strip_trailing_slash
                (if dh ≠ none ∧ dh ≠ some [] then dh.getD []
                  else strip_trailing_slash (home.getD []) ++ "/.local/share".toList)
              xdg_config_home := strip_trailing_slash
                (if ch ≠ none ∧ ch ≠ some [] then ch.getD []
                  else strip_trailing_slash (home.getD []) ++ "/.config".toList) }
            (if dirs ≠ none ∧ dirs ≠ some [] then dirs
              else some "/usr/local/share:/usr/share".toList) with
          xboing_levels_dir :=
            if lv ≠ none ∧ lv ≠ some [] then strip_trailing_slash (lv.getD []) else []
          xboing_sound_dir :=
            if sn ≠ none ∧ sn ≠ some [] then strip_trailing_slash (sn.getD []) else []
          xboing_score_file :=
            if sc ≠ none ∧ sc ≠ some [] then sc.getD [] else [] } := by
  unfold paths_init_explicit at h ⊢
  by_cases hh : home = none ∨ home = some []
  · simp only [if_pos hh] at h
    simp at h
  · simp only [if_neg hh] at h ⊢
    refine ⟨by tauto, ?_⟩
    by_cases hr : (safe_copy paths_config_zero.home PATHS_MAX_PATH home).1 ≠ 0
    · rw [if_pos hr] at h
      simp at h
    · rw [if_neg hr] at h ⊢
      have h0 : (safe_copy paths_config_zero.home PATHS_MAX_PATH home).1 = 0 := by
        simpa using hr
      rw [init_data_home_ok _ _ _ _ _ _ _ h, (safe_copy_ok _ _ h0).1]
      rfl

/-- The score-file step keeps the directory count. -/
lemma init_score_file_count (cfg : paths_config_t) (sc : Option (List Char)) :
    (init_score_file cfg sc).2.xdg_data_dirs_count = cfg.xdg_data_dirs_count := by
  unfold init_score_file
  simp only
  repeat' split
  all_goals rfl

/-- The steps from the sound directory on keep the directory count. -/
lemma init_sound_dir_count (cfg : paths_config_t) (sn sc : Option (List Char)) :
    (init_sound_dir cfg sn sc).2.xdg_data_dirs_count = cfg.xdg_data_dirs_count := by
  unfold init_sound_dir
  simp only
  repeat' split
  all_goals first
    | rfl
    | exact init_score_file_count _ _

/-- The steps from the levels directory on keep the directory count. -/
lemma init_levels_dir_count (cfg : paths_config_t) (lv sn sc : Option (List Char)) :
    (init_levels_dir cfg lv sn sc).2.xdg_data_dirs_count = cfg.xdg_data_dirs_count := by
  unfold init_levels_dir
  simp only
  repeat' split
  all_goals first
    | rfl
    | exact init_sound_dir_count _ _ _

/-- The steps from the data directories on leave a count of at most
`PATHS_MAX_DATA_DIRS`. -/
lemma init_data_dirs_count_le (cfg : paths_config_t) (dirs lv sn sc : Option (List Char)) :
    (init_data_dirs cfg dirs lv sn sc).2.xdg_data_dirs_count ≤ PATHS_MAX_DATA_DIRS := by
  unfold init_data_dirs
  simp only
  rw [init_levels_dir_count]
  split
  · exact (parse_data_dirs_frame _ _).2.2.2.2.2.2
  · exact (parse_data_dirs_frame _ _).2.2.2.2.2.2

/-- The steps from the configuration home on leave a count of at most
`PATHS_MAX_DATA_DIRS`. -/
lemma init_config_home_count_le (cfg : paths_config_t) (ch dirs lv sn sc : Option (List Char))
    (hk : cfg.xdg_data_dirs_count ≤ PATHS_MAX_DATA_DIRS) :
    (init_config_home cfg ch dirs lv sn sc).2.xdg_data_dirs_count ≤ PATHS_MAX_DATA_DIRS := by
  unfold init_config_home
  simp only
  generalize (if ch ≠ none ∧ ch ≠ some [] then safe_copy cfg.xdg_config_home PATHS_MAX_PATH ch
    else ((if (snprintf PATHS_MAX_PATH (cfg.home ++ "/.config".toList)).1 < 0
        ∨ (snprintf PATHS_MAX_PATH (cfg.home ++ "/.config".toList)).1 ≥ (PATHS_MAX_PATH : Int)
        then -1 else 0), (snprintf PATHS_MAX_PATH (cfg.home ++ "/.config".toList)).2)) = r
  by_cases h : r.1 ≠ 0
  · rw [if_pos h]
    exact hk
  · rw [if_neg h]
    exact init_data_dirs_count_le _ _ _ _ _

/-- The steps from the data home on leave a count of at most
`PATHS_MAX_DATA_DIRS`. -/
lemma init_data_home_count_le (cfg : paths_config_t)
    (dh ch dirs lv sn sc : Option (List Char))
    (hk : cfg.xdg_data_dirs_count ≤ PATHS_MAX_DATA_DIRS) :
    (init_data_home cfg dh ch dirs lv sn sc).2.xdg_data_dirs_count ≤ PATHS_MAX_DATA_DIRS := by
  unfold init_data_home
  simp only
  generalize (if dh ≠ none ∧ dh ≠ some [] then safe_copy cfg.xdg_data_home PATHS_MAX_PATH dh
    else ((if (snprintf PATHS_MAX_PATH (cfg.home ++ "/.local/share".toList)).1 < 0
        ∨ (snprintf PATHS_MAX_PATH (cfg.home ++ "/.local/share".toList)).1 ≥ (PATHS_MAX_PATH : Int)
        then -1 else 0), (snprintf PATHS_MAX_PATH (cfg.home ++ "/.local/share".toList)).2)) = r
  by_cases h : r.1 ≠ 0
  · rw [if_pos h]
    exact hk
  · rw [if_neg h]
    exact init_config_home_count_le _ _ _ _ _ _ hk

/-- Every call of `paths_init_explicit` leaves a count of at most
`PATHS_MAX_DATA_DIRS`. -/
lemma init_count_le (home dh ch dirs lv sn sc : Option (List Char)) :
    (paths_init_explicit home dh ch dirs lv sn sc).2.xdg_data_dirs_count
      ≤ PATHS_MAX_DATA_DIRS := by
  unfold paths_init_explicit
  simp only
  by_cases hh : home = none ∨ home = some []
  · rw [if_pos hh]
    exact Nat.zero_le _
  · rw [if_neg hh]
    by_cases hr : (safe_copy paths_config_zero.home PATHS_MAX_PATH home).1 ≠ 0
    · rw [if_pos hr]
      exact Nat.zero_le _
    · rw [if_neg hr]
      exact init_data_home_count_le _ _ _ _ _ _ _ (Nat.zero_le _)


/-- A call of `paths_init_explicit` that returns `PATHS_NO_HOME` leaves the
zeroed configuration, whose directory count is 0. -/
lemma init_no_home_count (home dh ch dirs lv sn sc : Option (List Char))
    (h : (paths_init_explicit home dh ch dirs lv sn sc).1 = paths_status_t.PATHS_NO_HOME) :
    (paths_init_explicit home dh ch dirs lv sn sc).2.xdg_data_dirs_count = 0 := by
  by_cases hh : home = none ∨ home = some []
  · unfold paths_init_explicit
    simp only
    rw [if_pos hh]
    rfl
  · rcases init_status_of_home home dh ch dirs lv sn sc hh with h1 | h1
    · rw [h1] at h
      cases h
    · rw [h1] at h
      cases h

/-- A segment shorter than the entry buffer is stored as its stripped form. -/
lemma stored_segments_fit (segs : List (List Char))
    (h : ∀ seg ∈ segs, seg.length < PATHS_MAX_PATH) :
    segs.map (fun seg => strip_trailing_slash (safe_copy [] PATHS_MAX_PATH (some seg)).2)
      = segs.map strip_trailing_slash := by
  apply List.map_congr_left
  intro seg hseg
  rw [safe_copy_fits _ _ (h seg hseg)]

/-- The directory array and count left by a call of `paths_init_explicit`
that returns `PATHS_OK` and was given a non-empty `xdg_data_dirs` text that
fits the local buffer of `parse_data_dirs`. -/
lemma init_ok_data_dirs (home dh ch dirs lv sn sc : Option (List Char)) (d : List Char)
    (h : (paths_init_explicit home dh ch dirs lv sn sc).1 = paths_status_t.PATHS_OK)
    (hd : dirs = some d) (hne : d ≠ [])
    (hlen : d.length < PATHS_MAX_PATH * PATHS_MAX_DATA_DIRS) :
    (paths_init_explicit home dh ch dirs lv sn sc).2.xdg_data_dirs_count
        = min (data_dir_segments d).length PATHS_MAX_DATA_DIRS
    ∧ (paths_init_explicit home dh ch dirs lv sn sc).2.xdg_data_dirs.take
          (paths_init_explicit home dh ch dirs lv sn sc).2.xdg_data_dirs_count
        = ((data_dir_segments d).take PATHS_MAX_DATA_DIRS).map
            (fun seg => strip_trailing_slash (safe_copy [] PATHS_MAX_PATH (some seg)).2) := by
  obtain ⟨_, hform⟩ := init_ok_form home dh ch dirs lv sn sc h
  rw [hform]
  subst hd
  have hc : (some d ≠ none ∧ some d ≠ some []) := ⟨by simp, by simpa using hne⟩
  simp only [if_pos hc]
  exact parse_data_dirs_spec _ d hne hlen rfl

/-- The directory array and count left by a call of `paths_init_explicit`
that returns `PATHS_OK` and was given no `xdg_data_dirs` text. -/
lemma init_ok_default_dirs (home dh ch dirs lv sn sc : Option (List Char))
    (h : (paths_init_explicit home dh ch dirs lv sn sc).1 = paths_status_t.PATHS_OK)
    (hd : dirs = none ∨ dirs = some []) :
    (paths_init_explicit home dh ch dirs lv sn sc).2.xdg_data_dirs_count = 2
    ∧ (paths_init_explicit home dh ch dirs lv sn sc).2.xdg_data_dirs.take
          (paths_init_explicit home dh ch dirs lv sn sc).2.xdg_data_dirs_count
        = ["/usr/local/share".toList, "/usr/share".toList] := by
  obtain ⟨_, hform⟩ := init_ok_form home dh ch dirs lv sn sc h
  rw [hform]
  have hc : ¬ (dirs ≠ none ∧ dirs ≠ some []) := by tauto
  simp only [if_neg hc]
  obtain ⟨h1, h2⟩ := parse_data_dirs_spec
    { paths_config_zero with
      home := strip_trailing_slash (home.getD [])
      xdg_data_home := strip_trailing_slash
        (if dh ≠ none ∧ dh ≠ some [] then dh.getD []
          else strip_trailing_slash (home.getD []) ++ "/.local/share".toList)
      xdg_config_home := strip_trailing_slash
        (if ch ≠ none ∧ ch ≠ some [] then ch.getD []
          else strip_trailing_slash (home.getD []) ++ "/.config".toList) }
    "/usr/local/share:/usr/share".toList (by decide) (by decide) rfl
  have hs : data_dir_segments "/usr/local/share:/usr/share".toList
      = ["/usr/local/share".toList, "/usr/share".toList] := by decide
  rw [hs] at h1 h2
  refine ⟨h1, ?_⟩
  rw [h2]
  decide

/-- C29 as stated fails: on the call of `test_init_trailing_slash`, which
returns `PATHS_OK`, the non-empty segments of the `xdg_data_dirs` text are
"/opt/share/" and "/usr/share/", while the two stored entries are "/opt/share"
and "/usr/share". -/
theorem init_data_dirs_counterexample :
    (paths_init_explicit (some "/home/test/".toList) (some "/data/share/".toList)
        (some "/data/config/".toList) (some "/opt/share/:/usr/share/".toList)
        (some "/levels/".toList) (some "/sounds/".toList) none).1
      = paths_status_t.PATHS_OK
    ∧ data_dir_segments "/opt/share/:/usr/share/".toList
      = ["/opt/share/".toList, "/usr/share/".toList]
    ∧ (paths_init_explicit (some "/home/test/".toList) (some "/data/share/".toList)
        (some "/data/config/".toList) (some "/opt/share/:/usr/share/".toList)
        (some "/levels/".toList) (some "/sounds/".toList) none).2.xdg_data_dirs_count = 2
    ∧ (paths_init_explicit (some "/home/test/".toList) (some "/data/share/".toList)
        (some "/data/config/".toList) (some "/opt/share/:/usr/share/".toList)
        (some "/levels/".toList) (some "/sounds/".toList) none).2.xdg_data_dirs.take 2
      = ["/opt/share".toList, "/usr/share".toList]
    ∧ (paths_init_explicit (some "/home/test/".toList) (some "/data/share/".toList)
        (some "/data/config/".toList) (some "/opt/share/:/usr/share/".toList)
        (some "/levels/".toList) (some "/sounds/".toList) none).2.xdg_data_dirs.take 2
      ≠ (data_dir_segments "/opt/share/:/usr/share/".toList).take 2 := by
  decide

/-- C29, amended. Every call of `paths_init_explicit` leaves
`xdg_data_dirs_count` at most `PATHS_MAX_DATA_DIRS` (8). On a call that returns
`PATHS_OK` with a non-empty `xdg_data_dirs` text shorter than the local buffer
of `PATHS_MAX_PATH * PATHS_MAX_DATA_DIRS` bytes whose non-empty segments are
each shorter than `PATHS_MAX_PATH`, the count is the minimum of the number `n`
of non-empty segments and `PATHS_MAX_DATA_DIRS`, and the stored entries are the
first that many non-empty segments, in their original order, each with one
trailing slash stripped by `strip_trailing_slash`. When the argument is `NULL`
or empty, the stored list is "/usr/local/share", "/usr/share". A call that
returns `PATHS_NO_HOME` stores no entry: its count is 0. -/
theorem init_data_dirs_stored
    (home xdg_data_home xdg_config_home xdg_data_dirs xboing_levels xboing_sounds
      xboing_scores : Option (List Char)) :
    PATHS_MAX_DATA_DIRS = 8
    ∧ (paths_init_explicit home xdg_data_home xdg_config_home xdg_data_dirs xboing_levels
        xboing_sounds xboing_scores).2.xdg_data_dirs_count ≤ PATHS_MAX_DATA_DIRS
    ∧ ((paths_init_explicit home xdg_data_home xdg_config_home xdg_data_dirs xboing_levels
          xboing_sounds xboing_scores).1 = paths_status_t.PATHS_OK →
        (∀ d : List Char, xdg_data_dirs = some d → d ≠ [] →
          d.length < PATHS_MAX_PATH * PATHS_MAX_DATA_DIRS →
          (∀ seg ∈ data_dir_segments d, seg.length < PATHS_MAX_PATH) →
          (paths_init_explicit home xdg_data_home xdg_config_home xdg_data_dirs xboing_levels
              xboing_sounds xboing_scores).2.xdg_data_dirs_count
            = min (data_dir_segments d).length PATHS_MAX_DATA_DIRS
          ∧ (paths_init_explicit home xdg_data_home xdg_config_home xdg_data_dirs xboing_levels
              xboing_sounds xboing_scores).2.xdg_data_dirs.take
                (paths_init_explicit home xdg_data_home xdg_config_home xdg_data_dirs
                  xboing_levels xboing_sounds xboing_scores).2.xdg_data_dirs_count
            = ((data_dir_segments d).take PATHS_MAX_DATA_DIRS).map strip_trailing_slash)
        ∧ ((xdg_data_dirs = none ∨ xdg_data_dirs = some []) →
          (paths_init_explicit home xdg_data_home xdg_config_home xdg_data_dirs xboing_levels
              xboing_sounds xboing_scores).2.xdg_data_dirs_count = 2
          ∧ (paths_init_explicit home xdg_data_home xdg_config_home xdg_data_dirs xboing_levels
              xboing_sounds xboing_scores).2.xdg_data_dirs.take
                (paths_init_explicit home xdg_data_home xdg_config_home xdg_data_dirs
                  xboing_levels xboing_sounds xboing_scores).2.xdg_data_dirs_count
            = ["/usr/local/share".toList, "/usr/share".toList]))
    ∧ ((paths_init_explicit home xdg_data_home xdg_config_home xdg_data_dirs xboing_levels
          xboing_sounds xboing_scores).1 = paths_status_t.PATHS_NO_HOME →
        (paths_init_explicit home xdg_data_home xdg_config_home xdg_data_dirs xboing_levels
          xboing_sounds xboing_scores).2.xdg_data_dirs_count = 0) := by
  refine ⟨rfl, init_count_le _ _ _ _ _ _ _, fun hok => ⟨?_, ?_⟩,
    init_no_home_count _ _ _ _ _ _ _⟩
  · intro d hd hne hlen hseg
    obtain ⟨h1, h2⟩ := init_ok_data_dirs _ _ _ _ _ _ _ d hok hd hne hlen
    refine ⟨h1, ?_⟩
    rw [h2]
    exact stored_segments_fit _ (fun seg hs => hseg seg (List.mem_of_mem_take hs))
  · intro hd
    exact init_ok_default_dirs _ _ _ _ _ _ _ hok hd

/-- The amended C29 on the call of `test_init_data_dirs_truncation`: ten
segments are given and the call returns `PATHS_OK`, so the count is the minimum
of 10 and 8 and the stored entries are the first 8 segments. -/
theorem init_data_dirs_stored_witness :
    (paths_init_explicit (some "/home/test".toList) none none
        (some "/1:/2:/3:/4:/5:/6:/7:/8:/9:/10".toList) none none none).1
      = paths_status_t.PATHS_OK
    ∧ (paths_init_explicit (some "/home/test".toList) none none
        (some "/1:/2:/3:/4:/5:/6:/7:/8:/9:/10".toList) none none none).2.xdg_data_dirs_count
      = min (data_dir_segments "/1:/2:/3:/4:/5:/6:/7:/8:/9:/10".toList).length
          PATHS_MAX_DATA_DIRS
    ∧ (paths_init_explicit (some "/home/test".toList) none none
        (some "/1:/2:/3:/4:/5:/6:/7:/8:/9:/10".toList) none none none).2.xdg_data_dirs.take
          (paths_init_explicit (some "/home/test".toList) none none
            (some "/1:/2:/3:/4:/5:/6:/7:/8:/9:/10".toList) none none none).2.xdg_data_dirs_count
      = ((data_dir_segments "/1:/2:/3:/4:/5:/6:/7:/8:/9:/10".toList).take
          PATHS_MAX_DATA_DIRS).map strip_trailing_slash :=
  ⟨by decide,
    ((init_data_dirs_stored (some "/home/test".toList) none none
        (some "/1:/2:/3:/4:/5:/6:/7:/8:/9:/10".toList) none none none).2.2.1 (by decide)).1
      "/1:/2:/3:/4:/5:/6:/7:/8:/9:/10".toList rfl (by decide) (by decide) (by decide)⟩

/-- The fields other than the directory array of the configuration left by a
call of `paths_init_explicit` that returns `PATHS_OK`. -/
lemma init_ok_fields (home dh ch dirs lv sn sc : Option (List Char))
    (h : (paths_init_explicit home dh ch dirs lv sn sc).1 = paths_status_t.PATHS_OK) :
    (paths_init_explicit home dh ch dirs lv sn sc).2.home
        = strip_trailing_slash (home.getD [])
    ∧ (paths_init_explicit home dh ch dirs lv sn sc).2.xdg_data_home
        = strip_trailing_slash
            (if dh ≠ none ∧ dh ≠ some [] then dh.getD []
              else strip_trailing_slash (home.getD []) ++ "/.local/share".toList)
    ∧ (paths_init_explicit home dh ch dirs lv sn sc).2.xdg_config_home
        = strip_trailing_slash
            (if ch ≠ none ∧ ch ≠ some [] then ch.getD []
              else strip_trailing_slash (home.getD []) ++ "/.config".toList)
    ∧ (paths_init_explicit home dh ch dirs lv sn sc).2.xboing_levels_dir
        = (if lv ≠ none ∧ lv ≠ some [] then strip_trailing_slash (lv.getD []) else [])
    ∧ (paths_init_explicit home dh ch dirs lv sn sc).2.xboing_sound_dir
        = (if sn ≠ none ∧ sn ≠ some [] then strip_trailing_slash (sn.getD []) else [])
    ∧ (paths_init_explicit home dh ch dirs lv sn sc).2.xboing_score_file
        = (if sc ≠ none ∧ sc ≠ some [] then sc.getD [] else []) := by
  obtain ⟨_, hform⟩ := init_ok_form home dh ch dirs lv sn sc h
  rw [hform]
  obtain ⟨h1, h2, h3, _⟩ := parse_data_dirs_frame
    { paths_config_zero with
      home := strip_trailing_slash (home.getD [])
      xdg_data_home := strip_trailing_slash
        (if dh ≠ none ∧ dh ≠ some [] then dh.getD []
          else strip_trailing_slash (home.getD []) ++ "/.local/share".toList)
      xdg_config_home := strip_trailing_slash
        (if ch ≠ none ∧ ch ≠ some [] then ch.getD []
          else strip_trailing_slash (home.getD []) ++ "/.config".toList) }
    (if dirs ≠ none ∧ dirs ≠ some [] then dirs else some "/usr/local/share:/usr/share".toList)
  exact ⟨h1, h2, h3, rfl, rfl, rfl⟩

/-- A text left by `strip_trailing_slash` ends with a slash only when it is
exactly "/" or the text given ended with two slashes, of which one was
dropped. -/
lemma strip_trailing_slash_ends (s : List Char)
    (h : (strip_trailing_slash s).getLast? = some '/') :
    strip_trailing_slash s = ['/']
      ∨ (['/', '/'] <:+ s ∧ strip_trailing_slash s = s.dropLast) := by
  unfold strip_trailing_slash at h ⊢
  by_cases hc : s.length > 1 ∧ s.getLast? = some '/'
  · simp only [if_pos hc] at h ⊢
    right
    refine ⟨?_, trivial⟩
    obtain ⟨_, hl⟩ := hc
    rw [List.getLast?_eq_some_iff] at h hl
    obtain ⟨ys, hys⟩ := hl
    obtain ⟨zs, hzs⟩ := h
    rw [hys, List.dropLast_concat] at hzs
    refine ⟨zs, ?_⟩
    rw [hys, hzs]
    simp
  · simp only [if_neg hc] at h ⊢
    left
    rw [List.getLast?_eq_some_iff] at h
    obtain ⟨ys, hys⟩ := h
    have hlen : ¬ (s.length > 1) := fun hl => hc ⟨hl, by rw [hys]; simp⟩
    rw [hys] at hlen ⊢
    cases ys with
    | nil => rfl
    | cons y ys => simp at hlen

/-- A text that ends with a letter is not changed by `strip_trailing_slash`
and does not end with a slash. -/
lemma strip_trailing_slash_append (x t : List Char) (c : Char) (hc : c ≠ '/') :
    (strip_trailing_slash (x ++ (t ++ [c]))).getLast? ≠ some '/' := by
  have hl : (x ++ (t ++ [c])).getLast? = some c := by
    rw [← List.append_assoc]
    simp
  unfold strip_trailing_slash
  have hcond : ¬ ((x ++ (t ++ [c])).length > 1 ∧ (x ++ (t ++ [c])).getLast? = some '/') := by
    rintro ⟨_, h2⟩
    rw [hl] at h2
    exact hc (Option.some.inj h2)
  simp only [if_neg hcond]
  rw [hl]
  intro h
  exact hc (Option.some.inj h)

/-- C30 as stated fails: with `home` = "/home/test//" the call returns
`PATHS_OK` and stores "/home/test/", which ends with a slash and is not
"/". -/
theorem init_strips_one_slash_counterexample :
    (paths_init_explicit (some "/home/test//".toList) none none none none none none).1
      = paths_status_t.PATHS_OK
    ∧ (paths_init_explicit (some "/home/test//".toList) none none none none none none).2.home
      = "/home/test/".toList
    ∧ (paths_init_explicit (some "/home/test//".toList) none none none none none
        none).2.home.getLast? = some '/'
    ∧ (paths_init_explicit (some "/home/test//".toList) none none none none none none).2.home
      ≠ "/".toList := by
  decide

/-- C30, amended. One trailing slash is stripped from each path. After any call
of `paths_init_explicit` that returns `PATHS_OK`, with the `xdg_data_dirs` text
and its segments shorter than the internal buffers, each of `home`,
`xdg_data_home`, `xdg_config_home`, `xboing_levels_dir`, `xboing_sound_dir` and
the stored `xdg_data_dirs` entries ends with a slash only if it is exactly "/",
or it is an argument (for the entries: a non-empty segment of the
`xdg_data_dirs` argument) that ended with two slashes, less its last
character. -/
theorem init_strips_one_slash
    (home xdg_data_home xdg_config_home xdg_data_dirs xboing_levels xboing_sounds
      xboing_scores : Option (List Char))
    (hok : (paths_init_explicit home xdg_data_home xdg_config_home xdg_data_dirs xboing_levels
        xboing_sounds xboing_scores).1 = paths_status_t.PATHS_OK)
    (hlen : (xdg_data_dirs.getD []).length < PATHS_MAX_PATH * PATHS_MAX_DATA_DIRS)
    (hseg : ∀ seg ∈ data_dir_segments (xdg_data_dirs.getD []), seg.length < PATHS_MAX_PATH) :
    ∀ v ∈ [(paths_init_explicit home xdg_data_home xdg_config_home xdg_data_dirs xboing_levels
              xboing_sounds xboing_scores).2.home,
            (paths_init_explicit home xdg_data_home xdg_config_home xdg_data_dirs xboing_levels
              xboing_sounds xboing_scores).2.xdg_data_home,
            (paths_init_explicit home xdg_data_home xdg_config_home xdg_data_dirs xboing_levels
              xboing_sounds xboing_scores).2.xdg_config_home,
            (paths_init_explicit home xdg_data_home xdg_config_home xdg_data_dirs xboing_levels
              xboing_sounds xboing_scores).2.xboing_levels_dir,
            (paths_init_explicit home xdg_data_home xdg_config_home xdg_data_dirs xboing_levels
              xboing_sounds xboing_scores).2.xboing_sound_dir]
          ++ (paths_init_explicit home xdg_data_home xdg_config_home xdg_data_dirs xboing_levels
              xboing_sounds xboing_scores).2.xdg_data_dirs.take
                (paths_init_explicit home xdg_data_home xdg_config_home xdg_data_dirs
                  xboing_levels xboing_sounds xboing_scores).2.xdg_data_dirs_count,
      v.getLast? = some '/' →
      v = ['/']
      ∨ ∃ src ∈ [home.getD [], xdg_data_home.getD [], xdg_config_home.getD [],
                  xboing_levels.getD [], xboing_sounds.getD []]
                ++ data_dir_segments (xdg_data_dirs.getD []),
          ['/', '/'] <:+ src ∧ v = src.dropLast := by
  intro v hv hlast
  obtain ⟨f1, f2, f3, f4, f5, _⟩ := init_ok_fields home xdg_data_home xdg_config_home
    xdg_data_dirs xboing_levels xboing_sounds xboing_scores hok
  have key : ∀ src : List Char,
      src ∈ [home.getD [], xdg_data_home.getD [], xdg_config_home.getD [],
                  xboing_levels.getD [], xboing_sounds.getD []]
                ++ data_dir_segments (xdg_data_dirs.getD []) →
      v = strip_trailing_slash src →
      v = ['/']
      ∨ ∃ src ∈ [home.getD [], xdg_data_home.getD [], xdg_config_home.getD [],
                  xboing_levels.getD [], xboing_sounds.getD []]
                ++ data_dir_segments (xdg_data_dirs.getD []),
          ['/', '/'] <:+ src ∧ v = src.dropLast := by
    intro src hsrc hvs
    rw [hvs] at hlast ⊢
    rcases strip_trailing_slash_ends src hlast with h1 | ⟨h1, h2⟩
    · exact Or.inl h1
    · exact Or.inr ⟨src, hsrc, h1, h2⟩
  have e1 : "/.local/share".toList = "/.local/shar".toList ++ ['e'] := by decide
  have e2 : "/.config".toList = "/.confi".toList ++ ['g'] := by decide
  rw [List.mem_append] at hv
  rcases hv with hv | hv
  · simp only [List.mem_cons, List.mem_singleton, List.not_mem_nil, or_false] at hv
    rcases hv with hv | hv | hv | hv | hv
    · exact key _ (by simp) (hv.trans f1)
    · rw [f2] at hv
      by_cases hc : xdg_data_home ≠ none ∧ xdg_data_home ≠ some []
      · rw [if_pos hc] at hv
        exact key _ (by simp) hv
      · rw [if_neg hc, e1] at hv
        rw [hv] at hlast
        exact absurd hlast (strip_trailing_slash_append _ _ 'e' (by decide))
    · rw [f3] at hv
      by_cases hc : xdg_config_home ≠ none ∧ xdg_config_home ≠ some []
      · rw [if_pos hc] at hv
        exact key _ (by simp) hv
      · rw [if_neg hc, e2] at hv
        rw [hv] at hlast
        exact absurd hlast (strip_trailing_slash_append _ _ 'g' (by decide))
    · rw [f4] at hv
      by_cases hc : xboing_levels ≠ none ∧ xboing_levels ≠ some []
      · rw [if_pos hc] at hv
        exact key _ (by simp) hv
      · rw [if_neg hc] at hv
        rw [hv] at hlast
        simp at hlast
    · rw [f5] at hv
      by_cases hc : xboing_sounds ≠ none ∧ xboing_sounds ≠ some []
      · rw [if_pos hc] at hv
        exact key _ (by simp) hv
      · rw [if_neg hc] at hv
        rw [hv] at hlast
        simp at hlast
  · by_cases hc : xdg_data_dirs = none ∨ xdg_data_dirs = some []
    · rw [(init_ok_default_dirs _ _ _ _ _ _ _ hok hc).2] at hv
      simp only [List.mem_cons, List.mem_singleton, List.not_mem_nil, or_false] at hv
      rcases hv with hv | hv
      · rw [hv] at hlast
        exact absurd hlast (by decide)
      · rw [hv] at hlast
        exact absurd hlast (by decide)
    · obtain ⟨d, hd⟩ : ∃ d, xdg_data_dirs = some d := by
        cases hx : xdg_data_dirs with
        | none => exact absurd (Or.inl hx) hc
        | some d => exact ⟨d, rfl⟩
      have hne : d ≠ [] := fun he => hc (Or.inr (by rw [hd, he]))
      have hgd : xdg_data_dirs.getD [] = d := by rw [hd]; rfl
      rw [hgd] at hlen hseg
      rw [(init_ok_data_dirs _ _ _ _ _ _ _ d hok hd hne hlen).2,
        stored_segments_fit _ (fun seg hs => hseg seg (List.mem_of_mem_take hs))] at hv
      rw [List.mem_map] at hv
      obtain ⟨seg, hmem, hseq⟩ := hv
      refine key seg ?_ hseq.symm
      rw [List.mem_append, hgd]
      right
      exact List.mem_of_mem_take hmem

/-- The amended C30 on the call of `test_init_trailing_slash`: it returns
`PATHS_OK`, no argument ends with two slashes, and none of the stored paths
ends with a slash. -/
theorem init_strips_one_slash_witness :
    (paths_init_explicit (some "/home/test/".toList) (some "/data/share/".toList)
        (some "/data/config/".toList) (some "/opt/share/:/usr/share/".toList)
        (some "/levels/".toList) (some "/sounds/".toList) none).1
      = paths_status_t.PATHS_OK
    ∧ ∀ v ∈ [(paths_init_explicit (some "/home/test/".toList) (some "/data/share/".toList)
              (some "/data/config/".toList) (some "/opt/share/:/usr/share/".toList)
              (some "/levels/".toList) (some "/sounds/".toList) none).2.home,
            (paths_init_explicit (some "/home/test/".toList) (some "/data/share/".toList)
              (some "/data/config/".toList) (some "/opt/share/:/usr/share/".toList)
              (some "/levels/".toList) (some "/sounds/".toList) none).2.xdg_data_home,
            (paths_init_explicit (some "/home/test/".toList) (some "/data/share/".toList)
              (some "/data/config/".toList) (some "/opt/share/:/usr/share/".toList)
              (some "/levels/".toList) (some "/sounds/".toList) none).2.xdg_config_home,
            (paths_init_explicit (some "/home/test/".toList) (some "/data/share/".toList)
              (some "/data/config/".toList) (some "/opt/share/:/usr/share/".toList)
              (some "/levels/".toList) (some "/sounds/".toList) none).2.xboing_levels_dir,
            (paths_init_explicit (some "/home/test/".toList) (some "/data/share/".toList)
              (some "/data/config/".toList) (some "/opt/share/:/usr/share/".toList)
              (some "/levels/".toList) (some "/sounds/".toList) none).2.xboing_sound_dir]
          ++ (paths_init_explicit (some "/home/test/".toList) (some "/data/share/".toList)
              (some "/data/config/".toList) (some "/opt/share/:/usr/share/".toList)
              (some "/levels/".toList) (some "/sounds/".toList) none).2.xdg_data_dirs.take
                (paths_init_explicit (some "/home/test/".toList) (some "/data/share/".toList)
                  (some "/data/config/".toList) (some "/opt/share/:/usr/share/".toList)
                  (some "/levels/".toList) (some "/sounds/".toList)
                  none).2.xdg_data_dirs_count,
      v.getLast? = some '/' →
      v = ['/']
      ∨ ∃ src ∈ [(some "/home/test/".toList).getD [], (some "/data/share/".toList).getD [],
                  (some "/data/config/".toList).getD [], (some "/levels/".toList).getD [],
                  (some "/sounds/".toList).getD []]
                ++ data_dir_segments ((some "/opt/share/:/usr/share/".toList).getD []),
          ['/', '/'] <:+ src ∧ v = src.dropLast :=
  ⟨by decide,
    init_strips_one_slash (some "/home/test/".toList) (some "/data/share/".toList)
      (some "/data/config/".toList) (some "/opt/share/:/usr/share/".toList)
      (some "/levels/".toList) (some "/sounds/".toList) none (by decide) (by decide)
      (by decide)⟩

/-! Further properties of the ball physics. -/

/-- The cast to `int` is an odd function. -/
lemma castInt_neg {F : Type} [LinearOrderedField F] [FloorRing F] (x : F) :
    castInt (-x) = -castInt x := by
  unfold castInt
  rcases lt_trichotomy x 0 with h | h | h
  · rw [if_pos (by linarith), if_neg (by linarith), Int.floor_neg]
  · subst h
    simp
  · rw [if_neg (by linarith), if_pos (by linarith), Int.ceil_neg]

/-- C36. Speed level 0 erases the velocity: for every input `(dx, dy)`, the
normalizer with `speed_level = 0` returns exactly `(MIN_DX_BALL, MIN_DY_BALL)`,
which is `(2, 2)`, whatever the input direction (exact arithmetic, every
square-root function). -/
theorem normalize_speed_level_zero {F : Type} [LinearOrderedField F] [FloorRing F]
    (sqrt : F → F) (dx dy : Int) :
    ball_math_normalize_speed sqrt dx dy 0 = (MIN_DX_BALL, MIN_DY_BALL)
    ∧ (MIN_DX_BALL, MIN_DY_BALL) = ((2 : Int), (2 : Int)) := by
  have h0 : castInt ((0 : F) - 1 / 2) = 0 := by
    unfold castInt
    rw [if_neg (by norm_num)]
    rw [Int.ceil_eq_iff]
    constructor <;> norm_num
  refine ⟨?_, rfl⟩
  simp only [ball_math_normalize_speed, Int.cast_zero, mul_zero, zero_div, lt_self_iff_false,
    if_false, gt_iff_lt, h0, if_true]

/-- The cast of an integer value is that integer. -/
lemma castInt_intCast {F : Type} [LinearOrderedField F] [FloorRing F] (z : Int) :
    castInt (z : F) = z := by
  unfold castInt
  split_ifs <;> simp

/-- The magnitude of the cast is the floor of the magnitude. -/
lemma abs_castInt {F : Type} [LinearOrderedField F] [FloorRing F] (x : F) :
    |castInt x| = Int.floor |x| := by
  unfold castInt
  by_cases h : 0 ≤ x
  · rw [if_pos h, abs_of_nonneg h, abs_of_nonneg (Int.floor_nonneg.mpr h)]
  · have hx : x < 0 := not_le.mp h
    rw [if_neg h, abs_of_neg hx, Int.floor_neg]
    have hc : Int.ceil x ≤ 0 := Int.ceil_le.mpr (by simpa using hx.le)
    rw [abs_of_nonpos hc]

/-- The magnitude of the cast is monotone in the magnitude of the argument. -/
lemma abs_castInt_le {F : Type} [LinearOrderedField F] [FloorRing F] (x y : F)
    (h : |x| ≤ |y|) : |castInt x| ≤ |castInt y| := by
  rw [abs_castInt, abs_castInt]
  exact Int.floor_le_floor h

/-- With `ball1.x = ball2.y` (the transposed `py` is 0), different `x` and
equal non-zero masses, the resolver exchanges the horizontal velocities and
leaves both `dy` unchanged. -/
lemma collide_swap_core (b1 b2 : BALL ℝ) (hy : b1.ballx = b2.bally)
    (hx : b1.ballx ≠ b2.ballx) (hm : b1.mass = b2.mass) (h0 : b2.mass ≠ 0) :
    (ball_math_collide Real.sqrt b1 b2).1.dx = b2.dx
    ∧ (ball_math_collide Real.sqrt b1 b2).2.dx = b1.dx
    ∧ (ball_math_collide Real.sqrt b1 b2).1.dy = b1.dy
    ∧ (ball_math_collide Real.sqrt b1 b2).2.dy = b2.dy := by
  have hp : ((b1.ballx - b2.ballx : Int) : ℝ) ≠ 0 := by
    exact_mod_cast sub_ne_zero.mpr hx
  have hs : Real.sqrt (((b1.ballx - b2.ballx : Int) : ℝ) * ((b1.ballx - b2.ballx : Int) : ℝ))
      = |((b1.ballx - b2.ballx : Int) : ℝ)| := Real.sqrt_mul_self_eq_abs _
  have hu : (((b1.ballx - b2.ballx : Int) : ℝ) / |((b1.ballx - b2.ballx : Int) : ℝ)|)
      * (((b1.ballx - b2.ballx : Int) : ℝ) / |((b1.ballx - b2.ballx : Int) : ℝ)|) = 1 := by
    rw [div_mul_div_comm, ← abs_mul_abs_self ((b1.ballx - b2.ballx : Int) : ℝ)]
    exact div_self (mul_ne_zero (abs_ne_zero.mpr hp) (abs_ne_zero.mpr hp))
  have hpy : ((b1.ballx - b2.bally : Int) : ℝ) = 0 := by
    rw [hy]
    simp
  simp only [ball_math_collide, SQR, hm, div_self h0, hpy, mul_zero, add_zero, zero_div, hs]
  set u : ℝ := ((b1.ballx - b2.ballx : Int) : ℝ) / |((b1.ballx - b2.ballx : Int) : ℝ)|
  have e1 : -2 * (((b1.dx - b2.dx : Int) : ℝ) * u) / (1 + 1) * u
      = ((b2.dx - b1.dx : Int) : ℝ) := by
    have : -2 * (((b1.dx - b2.dx : Int) : ℝ) * u) / (1 + 1) * u
        = -((b1.dx - b2.dx : Int) : ℝ) * (u * u) := by ring
    rw [this, hu]
    push_cast
    ring
  have e2 : -2 * (((b1.dx - b2.dx : Int) : ℝ) * u) / (1 + 1) * -1 * u
      = ((b1.dx - b2.dx : Int) : ℝ) := by
    have : -2 * (((b1.dx - b2.dx : Int) : ℝ) * u) / (1 + 1) * -1 * u
        = ((b1.dx - b2.dx : Int) : ℝ) * (u * u) := by ring
    rw [this, hu, mul_one]
  have h00 : castInt (0 : ℝ) = 0 := by simp [castInt]
  rw [e1, e2, castInt_intCast, castInt_intCast, h00]
  refine ⟨by ring, by ring, by ring, by ring⟩

/-- C33. Equal-mass head-on collision swaps velocities: when `ball1.x = ball2.y`
(so the transposed `py` is 0), the balls are at different `x` and have equal
non-zero masses, the resolver exchanges the horizontal velocities exactly and
leaves both `dy` unchanged (exact arithmetic with the real square root). -/
theorem collide_head_on_swap (b1 b2 : BALL ℝ) (hy : b1.ballx = b2.bally)
    (hx : b1.ballx ≠ b2.ballx) (hm : b1.mass = b2.mass) (h0 : b2.mass ≠ 0) :
    (ball_math_collide Real.sqrt b1 b2).1.dx = b2.dx
    ∧ (ball_math_collide Real.sqrt b1 b2).2.dx = b1.dx
    ∧ (ball_math_collide Real.sqrt b1 b2).1.dy = b1.dy
    ∧ (ball_math_collide Real.sqrt b1 b2).2.dy = b2.dy :=
  collide_swap_core b1 b2 hy hx hm h0

/-- Witness for C33: equal masses 2 at (100,100) and (120,100), so that
`ball1.x = ball2.y`, with horizontal velocities 10 and 0. -/
theorem collide_head_on_swap_witness :
    (ball_math_collide Real.sqrt (make_ball 100 100 10 0 (10 : ℝ) 2)
        (make_ball 120 100 0 0 (10 : ℝ) 2)).1.dx = (make_ball 120 100 0 0 (10 : ℝ) 2).dx
    ∧ (ball_math_collide Real.sqrt (make_ball 100 100 10 0 (10 : ℝ) 2)
        (make_ball 120 100 0 0 (10 : ℝ) 2)).2.dx = (make_ball 100 100 10 0 (10 : ℝ) 2).dx
    ∧ (ball_math_collide Real.sqrt (make_ball 100 100 10 0 (10 : ℝ) 2)
        (make_ball 120 100 0 0 (10 : ℝ) 2)).1.dy = (make_ball 100 100 10 0 (10 : ℝ) 2).dy
    ∧ (ball_math_collide Real.sqrt (make_ball 100 100 10 0 (10 : ℝ) 2)
        (make_ball 120 100 0 0 (10 : ℝ) 2)).2.dy = (make_ball 120 100 0 0 (10 : ℝ) 2).dy :=
  collide_head_on_swap (make_ball 100 100 10 0 (10 : ℝ) 2) (make_ball 120 100 0 0 (10 : ℝ) 2)
    rfl (by decide) rfl (by norm_num [make_ball])

/-- The real square root of 400 is 20. -/
lemma sqrt_400 : Real.sqrt 400 = 20 := by
  rw [show (400 : ℝ) = 20 * 20 by norm_num]
  exact Real.sqrt_mul_self (by norm_num)

/-- The resolver on the fixture of `test_collide_mass_ratio`: a ball of mass 3
at (100,100) with `dx = 10` and a resting ball of mass 1 at (120,100) end with
`dx = 5` and `dx = 15`, both `dy` staying 0. -/
lemma collide_mass_ratio_eval (radius : ℝ) :
    ball_math_collide Real.sqrt (make_ball 100 100 10 0 radius 3)
        (make_ball 120 100 0 0 radius 1)
      = (make_ball 100 100 5 0 radius 3, make_ball 120 100 15 0 radius 1) := by
  simp only [ball_math_collide, make_ball, SQR]
  norm_num
  rw [sqrt_400]
  norm_num
  have hm5 : castInt (-5 : ℝ) = -5 := by
    have := @castInt_intCast ℝ _ _ (-5)
    simpa using this
  have h15 : castInt (15 : ℝ) = 15 := by
    have := @castInt_intCast ℝ _ _ 15
    simpa using this
  have h00 : castInt (0 : ℝ) = 0 := by simp [castInt]
  rw [hm5, h15, h00]
  exact ⟨⟨by norm_num, rfl⟩, rfl, rfl⟩

/-- C34. The heavier ball's velocity changes less: in exact arithmetic, for
positive masses with `mass1 ≥ mass2`, each component of ball 1's velocity
change produced by the resolver is no larger in magnitude than the same
component of ball 2's change, and the inequality reverses when
`mass1 ≤ mass2`; the mass-3 ball at (100,100) with `dx = 10` hitting a resting
mass-1 ball at (120,100) ends with `dx = 5` and the light ball with
`dx = 15`. -/
theorem collide_heavier_changes_less (sqrt : ℝ → ℝ) (b1 b2 : BALL ℝ)
    (h1 : 0 < b1.mass) (h2 : 0 < b2.mass) :
    (b2.mass ≤ b1.mass →
      |(ball_math_collide sqrt b1 b2).1.dx - b1.dx|
          ≤ |(ball_math_collide sqrt b1 b2).2.dx - b2.dx|
      ∧ |(ball_math_collide sqrt b1 b2).1.dy - b1.dy|
          ≤ |(ball_math_collide sqrt b1 b2).2.dy - b2.dy|)
    ∧ (b1.mass ≤ b2.mass →
      |(ball_math_collide sqrt b1 b2).2.dx - b2.dx|
          ≤ |(ball_math_collide sqrt b1 b2).1.dx - b1.dx|
      ∧ |(ball_math_collide sqrt b1 b2).2.dy - b2.dy|
          ≤ |(ball_math_collide sqrt b1 b2).1.dy - b1.dy|)
    ∧ (ball_math_collide Real.sqrt (make_ball 100 100 10 0 (10 : ℝ) 3)
        (make_ball 120 100 0 0 (10 : ℝ) 1)).1.dx = 5
    ∧ (ball_math_collide Real.sqrt (make_ball 100 100 10 0 (10 : ℝ) 3)
        (make_ball 120 100 0 0 (10 : ℝ) 1)).2.dx = 15 := by
  have hm : 0 < b1.mass / b2.mass := div_pos h1 h2
  have habs : ∀ k p : ℝ, |k * -(b1.mass / b2.mass) * p| = b1.mass / b2.mass * |k * p| := by
    intro k p
    rw [show k * -(b1.mass / b2.mass) * p = -(b1.mass / b2.mass) * (k * p) by ring, abs_mul,
      abs_neg, abs_of_pos hm]
  refine ⟨?_, ?_, by rw [collide_mass_ratio_eval]; rfl, by rw [collide_mass_ratio_eval]; rfl⟩
  all_goals simp only [ball_math_collide, add_sub_cancel_left]
  all_goals intro hle
  · have hge : 1 ≤ b1.mass / b2.mass := (one_le_div h2).mpr hle
    constructor <;>
    · apply abs_castInt_le
      rw [habs]
      exact le_mul_of_one_le_left (abs_nonneg _) hge
  · have hge : b1.mass / b2.mass ≤ 1 := (div_le_one h2).mpr hle
    constructor <;>
    · apply abs_castInt_le
      rw [habs]
      exact mul_le_of_le_one_left (abs_nonneg _) hge

/-- Witness for C34 on the fixture of `test_collide_mass_ratio`. -/
theorem collide_heavier_changes_less_witness :
    (0 : ℝ) < (make_ball 100 100 10 0 (10 : ℝ) 3).mass
    ∧ (make_ball 120 100 0 0 (10 : ℝ) 1).mass ≤ (make_ball 100 100 10 0 (10 : ℝ) 3).mass
    ∧ |(ball_math_collide Real.sqrt (make_ball 100 100 10 0 (10 : ℝ) 3)
          (make_ball 120 100 0 0 (10 : ℝ) 1)).1.dx - (make_ball 100 100 10 0 (10 : ℝ) 3).dx|
        ≤ |(ball_math_collide Real.sqrt (make_ball 100 100 10 0 (10 : ℝ) 3)
          (make_ball 120 100 0 0 (10 : ℝ) 1)).2.dx - (make_ball 120 100 0 0 (10 : ℝ) 1).dx|
    ∧ |(ball_math_collide Real.sqrt (make_ball 100 100 10 0 (10 : ℝ) 3)
          (make_ball 120 100 0 0 (10 : ℝ) 1)).1.dy - (make_ball 100 100 10 0 (10 : ℝ) 3).dy|
        ≤ |(ball_math_collide Real.sqrt (make_ball 100 100 10 0 (10 : ℝ) 3)
          (make_ball 120 100 0 0 (10 : ℝ) 1)).2.dy - (make_ball 120 100 0 0 (10 : ℝ) 1).dy| :=
  ⟨by norm_num [make_ball], by norm_num [make_ball],
    (collide_heavier_changes_less Real.sqrt (make_ball 100 100 10 0 (10 : ℝ) 3)
      (make_ball 120 100 0 0 (10 : ℝ) 1) (by norm_num [make_ball])
      (by norm_num [make_ball])).1 (by norm_num [make_ball])⟩

/-- C38. Already-overlapping balls are never reported: in exact arithmetic with
`machine_eps ≥ 0`, if the centres are strictly closer than `radius1 + radius2`
at the start of the step, the predictor returns 0 (and writes the time 0) for
every pair of velocities: the smaller root of the contact equation is then
negative. -/
theorem will_collide_overlapping (b1 b2 : BALL ℝ) (machine_eps : ℝ) (heps : 0 ≤ machine_eps)
    (hov : centre_dist Real.sqrt b1 b2 0 < b1.radius + b2.radius) :
    ball_math_will_collide Real.sqrt b1 b2 machine_eps = (0, 0) := by
  rw [centre_dist_eq] at hov
  simp only [zero_mul, add_zero] at hov
  have hR : 0 < b1.radius + b2.radius := lt_of_le_of_lt (Real.sqrt_nonneg _) hov
  have hp : ((b1.ballx : ℝ) - b2.ballx) ^ 2 + ((b1.bally : ℝ) - b2.bally) ^ 2
      < (b1.radius + b2.radius) ^ 2 := by
    have := (Real.sqrt_lt' hR).mp hov
    exact this
  rw [will_collide_eq_spec b1 b2 machine_eps heps]
  simp only [will_collide_spec]
  rw [if_neg]
  rintro ⟨hD, hv, h0, _⟩
  have hv2 : 0 < ((b1.dx : ℝ) - b2.dx) ^ 2 + ((b1.dy : ℝ) - b2.dy) ^ 2 :=
    lt_of_le_of_lt heps hv
  have hlt : (((b1.ballx : ℝ) - b2.ballx) * ((b1.dx : ℝ) - b2.dx)
      + ((b1.bally : ℝ) - b2.bally) * ((b1.dy : ℝ) - b2.dy)) ^ 2
      < (((b1.dx : ℝ) - b2.dx) ^ 2 + ((b1.dy : ℝ) - b2.dy) ^ 2)
        * (b1.radius + b2.radius) ^ 2
        - (((b1.dx : ℝ) - b2.dx) * ((b1.bally : ℝ) - b2.bally)
          - ((b1.dy : ℝ) - b2.dy) * ((b1.ballx : ℝ) - b2.ballx)) ^ 2 := by
    nlinarith [mul_pos hv2 (sub_pos.mpr hp)]
  have hs : |((b1.ballx : ℝ) - b2.ballx) * ((b1.dx : ℝ) - b2.dx)
      + ((b1.bally : ℝ) - b2.bally) * ((b1.dy : ℝ) - b2.dy)|
      < Real.sqrt ((((b1.dx : ℝ) - b2.dx) ^ 2 + ((b1.dy : ℝ) - b2.dy) ^ 2)
        * (b1.radius + b2.radius) ^ 2
        - (((b1.dx : ℝ) - b2.dx) * ((b1.bally : ℝ) - b2.bally)
          - ((b1.dy : ℝ) - b2.dy) * ((b1.ballx : ℝ) - b2.ballx)) ^ 2) := by
    rw [← Real.sqrt_sq_eq_abs]
    exact Real.sqrt_lt_sqrt (sq_nonneg _) hlt
  have hneg := div_neg_of_neg_of_pos (show -(((b1.ballx : ℝ) - b2.ballx) * ((b1.dx : ℝ) - b2.dx)
      + ((b1.bally : ℝ) - b2.bally) * ((b1.dy : ℝ) - b2.dy))
      - Real.sqrt ((((b1.dx : ℝ) - b2.dx) ^ 2 + ((b1.dy : ℝ) - b2.dy) ^ 2)
        * (b1.radius + b2.radius) ^ 2
        - (((b1.dx : ℝ) - b2.dx) * ((b1.bally : ℝ) - b2.bally)
          - ((b1.dy : ℝ) - b2.dy) * ((b1.ballx : ℝ) - b2.ballx)) ^ 2) < 0 by
            have := neg_abs_le (((b1.ballx : ℝ) - b2.ballx) * ((b1.dx : ℝ) - b2.dx)
              + ((b1.bally : ℝ) - b2.bally) * ((b1.dy : ℝ) - b2.dy))
            have := neg_le_abs (((b1.ballx : ℝ) - b2.ballx) * ((b1.dx : ℝ) - b2.dx)
              + ((b1.bally : ℝ) - b2.bally) * ((b1.dy : ℝ) - b2.dy))
            linarith) hv2
  linarith

/-- Witness for C38: balls of radius 10 at (50,100) and (55,100), 5 apart,
moving toward each other with velocities (5,0) and (-5,0). -/
theorem will_collide_overlapping_witness :
    ball_math_will_collide Real.sqrt (make_ball 50 100 5 0 (10 : ℝ) 1)
      (make_ball 55 100 (-5) 0 (10 : ℝ) 1) 0 = (0, 0) :=
  will_collide_overlapping _ _ 0 (le_refl 0) (by
    rw [centre_dist_eq]
    simp only [make_ball]
    rw [Real.sqrt_lt' (by norm_num)]
    norm_num)

/-- Mirroring the inputs of the paddle bounce left to right negates the
horizontal component of the velocity before rounding and keeps the vertical
one. -/
lemma paddle_bounce_V_mirror (vx vy hit_pos pad_size paddle_dx : Int) :
    paddle_bounce_V Real.sqrt Real.arctan Real.sin Real.cos
        (-vx) vy (-hit_pos) pad_size (-paddle_dx)
      = (-(paddle_bounce_V Real.sqrt Real.arctan Real.sin Real.cos
            vx vy hit_pos pad_size paddle_dx).1,
         (paddle_bounce_V Real.sqrt Real.arctan Real.sin Real.cos
            vx vy hit_pos pad_size paddle_dx).2) := by
  simp only [paddle_bounce_V, Int.cast_neg, neg_mul_neg, neg_div, Real.arctan_neg]
  have hg : 2 * -Real.arctan ((hit_pos : ℝ) / ((pad_size : ℝ) / 1))
      - -Real.arctan ((vx : ℝ) / -(vy : ℝ))
      = -(2 * Real.arctan ((hit_pos : ℝ) / ((pad_size : ℝ) / 1))
        - Real.arctan ((vx : ℝ) / -(vy : ℝ))) := by ring
  rw [hg, Real.sin_neg, Real.cos_neg]
  refine Prod.ext ?_ rfl
  simp only
  ring

/-- C40. Paddle bounce is left-right mirror symmetric: for all inputs, in exact
arithmetic, negating `vx`, `hit_pos` and `paddle_dx` negates the returned
`new_dx` and leaves `new_dy` unchanged, the sign-aware half-rounding being an
odd function. Both calls divide by the same divisors `-vy` and `pad_size`, and
negating the dividend negates the quotient, so the statement does not depend
on the value given to a quotient by zero. -/
theorem paddle_bounce_mirror (vx vy hit_pos pad_size paddle_dx : Int) :
    ball_math_paddle_bounce Real.sqrt Real.arctan Real.sin Real.cos
        (-vx) vy (-hit_pos) pad_size (-paddle_dx)
      = (-(ball_math_paddle_bounce Real.sqrt Real.arctan Real.sin Real.cos
            vx vy hit_pos pad_size paddle_dx).1,
         (ball_math_paddle_bounce Real.sqrt Real.arctan Real.sin Real.cos
            vx vy hit_pos pad_size paddle_dx).2) := by
  simp only [ball_math_paddle_bounce, paddle_bounce_V_mirror]
  refine Prod.ext ?_ rfl
  simp only
  set X : ℝ := (paddle_bounce_V Real.sqrt Real.arctan Real.sin Real.cos
    vx vy hit_pos pad_size paddle_dx).1
  have e1 : -X + 1 / 2 = -(X - 1 / 2) := by ring
  have e2 : -X - 1 / 2 = -(X + 1 / 2) := by ring
  rcases lt_trichotomy X 0 with h | h | h
  · rw [if_pos (by linarith : -X > 0), if_neg (by linarith : ¬ X > 0), e1, castInt_neg]
  · have hc : Int.ceil (-(1 / 2) : ℝ) = 0 := by
      rw [Int.ceil_eq_iff]
      constructor <;> norm_num
    rw [h]
    norm_num [castInt]
    rw [hc]
    rfl
  · rw [if_neg (by linarith : ¬ -X > 0), if_pos (by linarith : X > 0), e2, castInt_neg]

/-- Over the reals, `plen` is zero exactly when both components of the
transposed separation are zero. -/
lemma collide_plen_eq_zero (b1 b2 : BALL ℝ) :
    collide_plen Real.sqrt b1 b2 = 0 ↔ (b1.ballx = b2.ballx ∧ b1.ballx = b2.bally) := by
  unfold collide_plen SQR
  simp only
  rw [Real.sqrt_eq_zero (add_nonneg (mul_self_nonneg _) (mul_self_nonneg _))]
  constructor
  · intro h
    have h1 : ((b1.ballx - b2.ballx : Int) : ℝ) = 0 := by
      nlinarith [mul_self_nonneg ((b1.ballx - b2.ballx : Int) : ℝ),
        mul_self_nonneg ((b1.ballx - b2.bally : Int) : ℝ)]
    have h2 : ((b1.ballx - b2.bally : Int) : ℝ) = 0 := by
      nlinarith [mul_self_nonneg ((b1.ballx - b2.ballx : Int) : ℝ),
        mul_self_nonneg ((b1.ballx - b2.bally : Int) : ℝ)]
    constructor
    · have : b1.ballx - b2.ballx = 0 := by exact_mod_cast h1
      omega
    · have : b1.ballx - b2.bally = 0 := by exact_mod_cast h2
      omega
  · rintro ⟨h1, h2⟩
    rw [← h1, ← h2]
    simp

/-- C35. The normalising length `plen` of the resolver is zero if and only if
`ball1.x = ball2.x` and `ball1.x = ball2.y` (a condition on the transposed
separation: the distinct balls at (5,0) and (5,5) have `plen = 0`, and two
balls both at (3,5) do not); hence under the preconditions `mass2 ≠ 0`,
`mass1/mass2 ≠ -1` and not `ball1.x = ball2.x = ball2.y`, every divisor of the
resolver is non-zero (exact arithmetic with the real square root). -/
theorem collide_divisors_nonzero (b1 b2 : BALL ℝ) :
    (collide_plen Real.sqrt b1 b2 = 0 ↔ (b1.ballx = b2.ballx ∧ b1.ballx = b2.bally))
    ∧ collide_plen Real.sqrt (make_ball 5 0 0 0 (10 : ℝ) 1) (make_ball 5 5 0 0 (10 : ℝ) 1) = 0
    ∧ collide_plen Real.sqrt (make_ball 3 5 0 0 (10 : ℝ) 1) (make_ball 3 5 0 0 (10 : ℝ) 1) ≠ 0
    ∧ (b2.mass ≠ 0 → b1.mass / b2.mass ≠ -1 →
        ¬ (b1.ballx = b2.ballx ∧ b1.ballx = b2.bally) →
        ∀ d ∈ collide_divisors Real.sqrt b1 b2, d ≠ 0) := by
  refine ⟨collide_plen_eq_zero b1 b2, ?_, ?_, ?_⟩
  · rw [collide_plen_eq_zero]
    exact ⟨rfl, rfl⟩
  · rw [Ne, collide_plen_eq_zero]
    rintro ⟨_, h⟩
    exact absurd h (by decide)
  · intro hm hr hx d hd
    have hp : collide_plen Real.sqrt b1 b2 ≠ 0 := fun h => hx ((collide_plen_eq_zero b1 b2).mp h)
    simp only [collide_divisors, List.mem_cons, List.mem_singleton, List.not_mem_nil,
      or_false] at hd
    rcases hd with rfl | rfl | rfl | rfl
    · exact hp
    · exact hp
    · exact hm
    · intro h
      apply hr
      linarith

/-- Witness for C35 on the fixture of `test_collide_mass_ratio`. -/
theorem collide_divisors_nonzero_witness :
    ∀ d ∈ collide_divisors Real.sqrt (make_ball 100 100 10 0 (10 : ℝ) 3)
      (make_ball 120 100 0 0 (10 : ℝ) 1), d ≠ 0 :=
  (collide_divisors_nonzero (make_ball 100 100 10 0 (10 : ℝ) 3)
    (make_ball 120 100 0 0 (10 : ℝ) 1)).2.2.2 (by norm_num [make_ball])
    (by norm_num [make_ball]) (by simp [make_ball])

/-- The resolver on the fixture of `test_collide_bug_ballx_for_bally` (mass 2,
radius 10): the balls end with velocities (14,1) and (-14,-1). -/
lemma collide_defect_eval :
    ball_math_collide Real.sqrt (make_ball 200 50 14 0 (10 : ℝ) 2)
        (make_ball 210 50 (-14) 0 (10 : ℝ) 2)
      = (make_ball 200 50 14 1 (10 : ℝ) 2, make_ball 210 50 (-14) (-1) (10 : ℝ) 2) := by
  have hP : Real.sqrt 22600 * Real.sqrt 22600 = 22600 := Real.mul_self_sqrt (by norm_num)
  simp only [ball_math_collide, make_ball, SQR]
  norm_num
  have e1 : -(2 * (28 * (-10 / Real.sqrt 22600))) / 2 * (-10 / Real.sqrt 22600)
      = -2800 / (Real.sqrt 22600 * Real.sqrt 22600) := by
    field_simp
    nlinarith [hP]
  have e2 : -(2 * (28 * (-10 / Real.sqrt 22600))) / 2 * (150 / Real.sqrt 22600)
      = 42000 / (Real.sqrt 22600 * Real.sqrt 22600) := by
    field_simp
    nlinarith [hP]
  rw [e1, e2, hP]
  refine ⟨⟨?_, ?_⟩, ?_, ?_⟩
  · exact castInt_of_neg _ 0 (by norm_num) (by norm_num) (by norm_num)
  · exact castInt_of_nonneg _ 1 (by norm_num) (by norm_num) (by norm_num)
  · exact castInt_of_nonneg _ 0 (by norm_num) (by norm_num) (by norm_num)
  · exact castInt_of_neg _ (-1) (by norm_num) (by norm_num) (by norm_num)

/-- The resolver on a mass-3 ball at (100,100) with `dx = 1` and a resting
mass-1 ball at (120,100): the increments before the cast are -1/2 and 3/2, so
ball 1 keeps `dx = 1` and ball 2 ends with `dx = 1`. -/
lemma collide_unequal_eval (radius : ℝ) :
    ball_math_collide Real.sqrt (make_ball 100 100 1 0 radius 3)
        (make_ball 120 100 0 0 radius 1)
      = (make_ball 100 100 1 0 radius 3, make_ball 120 100 1 0 radius 1) := by
  simp only [ball_math_collide, make_ball, SQR]
  norm_num
  rw [sqrt_400]
  norm_num
  have h00 : castInt (0 : ℝ) = 0 := by simp [castInt]
  have hh : castInt (-(1 / 2) : ℝ) = 0 :=
    castInt_of_neg _ 0 (by norm_num) (by norm_num) (by norm_num)
  have h32 : castInt (3 / 2 : ℝ) = 1 :=
    castInt_of_nonneg _ 1 (by norm_num) (by norm_num) (by norm_num)
  rw [h00, hh, h32]
  exact ⟨⟨by norm_num, rfl⟩, rfl, rfl⟩

/-- C37 as stated fails: on the fixture of `test_collide_bug_ballx_for_bally`
(positive masses 2, `plen` non-zero) the kinetic energy computed from the
integer velocities is 784 before the call and 788 after it; and for a mass-3
ball at (100,100) with `dx = 1` meeting a resting mass-1 ball at (120,100)
(so that `ball1.x = ball2.y`) it is 3 before the call and 4 after it. -/
theorem collide_energy_counterexample :
    (0 : ℝ) < (make_ball 200 50 14 0 (10 : ℝ) 2).mass
    ∧ (0 : ℝ) < (make_ball 210 50 (-14) 0 (10 : ℝ) 2).mass
    ∧ collide_plen Real.sqrt (make_ball 200 50 14 0 (10 : ℝ) 2)
        (make_ball 210 50 (-14) 0 (10 : ℝ) 2) ≠ 0
    ∧ kinetic_energy (make_ball 200 50 14 0 (10 : ℝ) 2)
        (make_ball 210 50 (-14) 0 (10 : ℝ) 2) = 784
    ∧ kinetic_energy
        (ball_math_collide Real.sqrt (make_ball 200 50 14 0 (10 : ℝ) 2)
          (make_ball 210 50 (-14) 0 (10 : ℝ) 2)).1
        (ball_math_collide Real.sqrt (make_ball 200 50 14 0 (10 : ℝ) 2)
          (make_ball 210 50 (-14) 0 (10 : ℝ) 2)).2 = 788
    ∧ kinetic_energy
        (ball_math_collide Real.sqrt (make_ball 200 50 14 0 (10 : ℝ) 2)
          (make_ball 210 50 (-14) 0 (10 : ℝ) 2)).1
        (ball_math_collide Real.sqrt (make_ball 200 50 14 0 (10 : ℝ) 2)
          (make_ball 210 50 (-14) 0 (10 : ℝ) 2)).2
      ≠ kinetic_energy (make_ball 200 50 14 0 (10 : ℝ) 2)
        (make_ball 210 50 (-14) 0 (10 : ℝ) 2)
    ∧ collide_plen Real.sqrt (make_ball 100 100 1 0 (10 : ℝ) 3)
        (make_ball 120 100 0 0 (10 : ℝ) 1) ≠ 0
    ∧ kinetic_energy (make_ball 100 100 1 0 (10 : ℝ) 3)
        (make_ball 120 100 0 0 (10 : ℝ) 1) = 3
    ∧ kinetic_energy
        (ball_math_collide Real.sqrt (make_ball 100 100 1 0 (10 : ℝ) 3)
          (make_ball 120 100 0 0 (10 : ℝ) 1)).1
        (ball_math_collide Real.sqrt (make_ball 100 100 1 0 (10 : ℝ) 3)
          (make_ball 120 100 0 0 (10 : ℝ) 1)).2 = 4 := by
  have hp : collide_plen Real.sqrt (make_ball 200 50 14 0 (10 : ℝ) 2)
      (make_ball 210 50 (-14) 0 (10 : ℝ) 2) ≠ 0 := by
    rw [Ne, collide_plen_eq_zero]
    rintro ⟨h, _⟩
    exact absurd h (by decide)
  have hp2 : collide_plen Real.sqrt (make_ball 100 100 1 0 (10 : ℝ) 3)
      (make_ball 120 100 0 0 (10 : ℝ) 1) ≠ 0 := by
    rw [Ne, collide_plen_eq_zero]
    rintro ⟨h, _⟩
    exact absurd h (by decide)
  rw [collide_defect_eval, collide_unequal_eval]
  refine ⟨by norm_num [make_ball], by norm_num [make_ball], hp, ?_, ?_, ?_, hp2, ?_, ?_⟩ <;>
    norm_num [kinetic_energy, make_ball]

/-- C37, amended. The resolver conserves the kinetic energy computed from the
integer velocities in the exchange of equal masses: when `ball1.x = ball2.y`
(the transposed `py` is 0), the balls are at different `x` and have equal
positive masses, the energy `mass1*(dx1^2 + dy1^2) + mass2*(dx2^2 + dy2^2)` is
the same after the call as before it; on the fixture of
`test_collide_mass_ratio` (masses 3 and 1) it is 300 before and after. -/
theorem collide_energy_exchange (b1 b2 : BALL ℝ) (hy : b1.ballx = b2.bally)
    (hx : b1.ballx ≠ b2.ballx) (hm : b1.mass = b2.mass) (h0 : 0 < b2.mass) :
    kinetic_energy (ball_math_collide Real.sqrt b1 b2).1 (ball_math_collide Real.sqrt b1 b2).2
      = kinetic_energy b1 b2
    ∧ kinetic_energy (make_ball 100 100 10 0 (10 : ℝ) 3) (make_ball 120 100 0 0 (10 : ℝ) 1)
      = 300
    ∧ kinetic_energy
        (ball_math_collide Real.sqrt (make_ball 100 100 10 0 (10 : ℝ) 3)
          (make_ball 120 100 0 0 (10 : ℝ) 1)).1
        (ball_math_collide Real.sqrt (make_ball 100 100 10 0 (10 : ℝ) 3)
          (make_ball 120 100 0 0 (10 : ℝ) 1)).2 = 300 := by
  obtain ⟨e1, e2, e3, e4⟩ := collide_swap_core b1 b2 hy hx hm h0.ne'
  have m1 : (ball_math_collide Real.sqrt b1 b2).1.mass = b1.mass := rfl
  have m2 : (ball_math_collide Real.sqrt b1 b2).2.mass = b2.mass := rfl
  refine ⟨?_, by norm_num [kinetic_energy, make_ball], ?_⟩
  · simp only [kinetic_energy, e1, e2, e3, e4, m1, m2, hm]
    ring
  · rw [collide_mass_ratio_eval]
    norm_num [kinetic_energy, make_ball]

/-- Witness for the amended C37: equal masses 2 at (100,100) and (120,100), so
that `ball1.x = ball2.y`, with velocities (10,3) and (-4,1); the energy is 252
before and after the call. -/
theorem collide_energy_exchange_witness :
    kinetic_energy
        (ball_math_collide Real.sqrt (make_ball 100 100 10 3 (10 : ℝ) 2)
          (make_ball 120 100 (-4) 1 (10 : ℝ) 2)).1
        (ball_math_collide Real.sqrt (make_ball 100 100 10 3 (10 : ℝ) 2)
          (make_ball 120 100 (-4) 1 (10 : ℝ) 2)).2
      = kinetic_energy (make_ball 100 100 10 3 (10 : ℝ) 2) (make_ball 120 100 (-4) 1 (10 : ℝ) 2)
    ∧ kinetic_energy (make_ball 100 100 10 3 (10 : ℝ) 2) (make_ball 120 100 (-4) 1 (10 : ℝ) 2)
      = 252 :=
  ⟨(collide_energy_exchange (make_ball 100 100 10 3 (10 : ℝ) 2)
      (make_ball 120 100 (-4) 1 (10 : ℝ) 2) rfl (by decide) rfl (by norm_num [make_ball])).1,
    by norm_num [kinetic_energy, make_ball]⟩

/-! Properties of the path resolution. -/

/-- When the whole path is shorter than the buffer, `build_path` returns
`PATHS_OK` and the buffer holds the path. -/
lemma build_path_fits (buf : List Char) (bufsize : Nat) (base : List Char)
    (a b c : Option (List Char))
    (h : (base ++ (if a ≠ none then "/".toList else []) ++ (a.getD [])
      ++ (if b ≠ none then "/".toList else []) ++ (b.getD [])
      ++ (if c ≠ none then "/".toList else []) ++ (c.getD [])).length < bufsize) :
    build_path buf bufsize base a b c
      = (paths_status_t.PATHS_OK,
          base ++ (if a ≠ none then "/".toList else []) ++ (a.getD [])
            ++ (if b ≠ none then "/".toList else []) ++ (b.getD [])
            ++ (if c ≠ none then "/".toList else []) ++ (c.getD [])) := by
  unfold build_path snprintf
  simp only
  have h0 : ¬ (bufsize = 0) := by omega
  have h1 : ¬ (((base ++ (if a ≠ none then "/".toList else []) ++ (a.getD [])
      ++ (if b ≠ none then "/".toList else []) ++ (b.getD [])
      ++ (if c ≠ none then "/".toList else []) ++ (c.getD [])).length : Int) < 0
      ∨ ((base ++ (if a ≠ none then "/".toList else []) ++ (a.getD [])
      ++ (if b ≠ none then "/".toList else []) ++ (b.getD [])
      ++ (if c ≠ none then "/".toList else []) ++ (c.getD [])).length : Int)
        ≥ (bufsize : Int)) := by
    rintro (hc | hc)
    · omega
    · have : bufsize ≤ (base ++ (if a ≠ none then "/".toList else []) ++ (a.getD [])
        ++ (if b ≠ none then "/".toList else []) ++ (b.getD [])
        ++ (if c ≠ none then "/".toList else []) ++ (c.getD [])).length := by
        exact_mod_cast hc
      omega
  rw [if_neg h1, if_neg h0, List.take_of_length_le (by omega)]

/-- A path `base/leaf` that fits the buffer. -/
lemma build_path_one (buf : List Char) (bufsize : Nat) (base leaf : List Char)
    (h : (base ++ "/".toList ++ leaf).length < bufsize) :
    build_path buf bufsize base (some leaf) none none
      = (paths_status_t.PATHS_OK, base ++ "/".toList ++ leaf) := by
  have e : base ++ (if (some leaf : Option (List Char)) ≠ none then "/".toList else [])
      ++ ((some leaf : Option (List Char)).getD [])
      ++ (if (none : Option (List Char)) ≠ none then "/".toList else [])
      ++ ((none : Option (List Char)).getD [])
      ++ (if (none : Option (List Char)) ≠ none then "/".toList else [])
      ++ ((none : Option (List Char)).getD []) = base ++ "/".toList ++ leaf := by
    simp
  have := build_path_fits buf bufsize base (some leaf) none none (by rw [e]; exact h)
  rw [e] at this
  exact this

/-- A path `base/xboing/levels/filename` that fits the buffer. -/
lemma build_path_levels (buf : List Char) (bufsize : Nat) (base filename : List Char)
    (h : (base ++ "/xboing/levels/".toList ++ filename).length < bufsize) :
    build_path buf bufsize base (some "xboing".toList) (some "levels".toList) (some filename)
      = (paths_status_t.PATHS_OK, base ++ "/xboing/levels/".toList ++ filename) := by
  have e : base ++ (if (some "xboing".toList : Option (List Char)) ≠ none then "/".toList
        else [])
      ++ ((some "xboing".toList : Option (List Char)).getD [])
      ++ (if (some "levels".toList : Option (List Char)) ≠ none then "/".toList else [])
      ++ ((some "levels".toList : Option (List Char)).getD [])
      ++ (if (some filename : Option (List Char)) ≠ none then "/".toList else [])
      ++ ((some filename : Option (List Char)).getD [])
      = base ++ "/xboing/levels/".toList ++ filename := by
    have hl : "/xboing/levels/".toList
        = "/".toList ++ ("xboing".toList ++ ("/".toList ++ ("levels".toList ++ "/".toList))) := by
      decide
    rw [hl]
    simp
  have := build_path_fits buf bufsize base (some "xboing".toList) (some "levels".toList)
    (some filename) (by rw [e]; exact h)
  rw [e] at this
  exact this

/-- Steps 3 and 4 of `resolve_asset` for a level file, when both candidates
fit the buffer: the first of them that exists is returned. -/
lemma resolve_asset_data_home_levels (file_exists : List Char → Bool) (cfg : paths_config_t)
    (f buf : List Char) (bufsize : Nat)
    (h1 : (cfg.xdg_data_home ++ "/xboing/levels/".toList ++ f).length < bufsize)
    (h2 : ("levels/".toList ++ f).length < bufsize) :
    resolve_asset_data_home file_exists cfg "levels".toList f buf bufsize
      = match [cfg.xdg_data_home ++ "/xboing/levels/".toList ++ f,
            "levels/".toList ++ f].find? file_exists with
        | some c => (paths_status_t.PATHS_OK, c)
        | none => (paths_status_t.PATHS_NOT_FOUND, "levels/".toList ++ f) := by
  have e : "levels/".toList = "levels".toList ++ "/".toList := by decide
  have hcwd : ∀ b : List Char, build_path b bufsize "levels".toList (some f) none none
      = (paths_status_t.PATHS_OK, "levels/".toList ++ f) := by
    intro b
    rw [e]
    exact build_path_one b bufsize _ f (by rw [← e]; exact h2)
  unfold resolve_asset_data_home resolve_asset_cwd
  simp only [build_path_levels _ bufsize _ f h1, hcwd, List.find?_cons, List.find?_nil]
  have hne : ¬ (paths_status_t.PATHS_OK = paths_status_t.PATHS_TRUNCATED) := by decide
  simp only [hne, if_false]
  cases hA : file_exists (cfg.xdg_data_home ++ "/xboing/levels/".toList ++ f) with
  | true => simp
  | false =>
    cases hB : file_exists ("levels/".toList ++ f) with
    | true => simp
    | false => simp

/-- The loop of `resolve_asset` for a level file from index `i` on, followed by
steps 3 and 4, when every candidate fits the buffer and the loop has enough
iterations: the first remaining candidate that exists is returned. -/
lemma resolve_asset_data_dirs_levels (file_exists : List Char → Bool) (cfg : paths_config_t)
    (f : List Char) (bufsize : Nat)
    (hcount : cfg.xdg_data_dirs_count ≤ cfg.xdg_data_dirs.length)
    (h1 : (cfg.xdg_data_home ++ "/xboing/levels/".toList ++ f).length < bufsize)
    (h2 : ("levels/".toList ++ f).length < bufsize) :
    ∀ (fuel i : Nat) (buf : List Char), cfg.xdg_data_dirs_count ≤ fuel + i →
      (∀ dir ∈ (cfg.xdg_data_dirs.take cfg.xdg_data_dirs_count).drop i,
        (dir ++ "/xboing/levels/".toList ++ f).length < bufsize) →
      resolve_asset_data_dirs file_exists cfg "levels".toList f bufsize fuel i buf
        = match (((cfg.xdg_data_dirs.take cfg.xdg_data_dirs_count).drop i).map
              (fun dir => dir ++ "/xboing/levels/".toList ++ f)
            ++ [cfg.xdg_data_home ++ "/xboing/levels/".toList ++ f,
                "levels/".toList ++ f]).find? file_exists with
          | some c => (paths_status_t.PATHS_OK, c)
          | none => (paths_status_t.PATHS_NOT_FOUND, "levels/".toList ++ f) := by
  have hexit : ∀ (i : Nat) (buf : List Char), cfg.xdg_data_dirs_count ≤ i →
      resolve_asset_data_home file_exists cfg "levels".toList f buf bufsize
        = match (((cfg.xdg_data_dirs.take cfg.xdg_data_dirs_count).drop i).map
              (fun dir => dir ++ "/xboing/levels/".toList ++ f)
            ++ [cfg.xdg_data_home ++ "/xboing/levels/".toList ++ f,
                "levels/".toList ++ f]).find? file_exists with
          | some c => (paths_status_t.PATHS_OK, c)
          | none => (paths_status_t.PATHS_NOT_FOUND, "levels/".toList ++ f) := by
    intro i buf hi
    have hnil : (cfg.xdg_data_dirs.take cfg.xdg_data_dirs_count).drop i = [] := by
      apply List.drop_eq_nil_of_le
      rw [List.length_take]
      omega
    rw [hnil, List.map_nil, List.nil_append]
    exact resolve_asset_data_home_levels file_exists cfg f buf bufsize h1 h2
  intro fuel
  induction fuel with
  | zero =>
    intro i buf hi _
    rw [resolve_asset_data_dirs]
    exact hexit i buf (by omega)
  | succ fuel ih =>
    intro i buf hi hfit
    rw [resolve_asset_data_dirs]
    by_cases hlt : i < cfg.xdg_data_dirs_count
    · have hlen : i < (cfg.xdg_data_dirs.take cfg.xdg_data_dirs_count).length := by
        rw [List.length_take]
        omega
      have hdrop : (cfg.xdg_data_dirs.take cfg.xdg_data_dirs_count).drop i
          = cfg.xdg_data_dirs.getD i []
            :: (cfg.xdg_data_dirs.take cfg.xdg_data_dirs_count).drop (i + 1) := by
        rw [List.drop_eq_getElem_cons hlen]
        congr 1
        rw [List.getElem_take, List.getD_eq_getElem?_getD, List.getElem?_eq_getElem (by omega)]
        rfl
      have hfit0 : (cfg.xdg_data_dirs.getD i [] ++ "/xboing/levels/".toList ++ f).length
          < bufsize := hfit _ (by rw [hdrop]; exact List.mem_cons_self _ _)
      have hrest := ih (i + 1) (cfg.xdg_data_dirs.getD i [] ++ "/xboing/levels/".toList ++ f)
        (by omega) (fun dir hd => hfit dir (by rw [hdrop]; exact List.mem_cons_of_mem _ hd))
      have hne : ¬ (paths_status_t.PATHS_OK = paths_status_t.PATHS_TRUNCATED) := by decide
      simp only [if_pos hlt, build_path_levels _ bufsize _ f hfit0, hne, if_false]
      rw [hdrop, List.map_cons, List.cons_append, List.find?_cons]
      cases hA : file_exists (cfg.xdg_data_dirs.getD i [] ++ "/xboing/levels/".toList ++ f) with
      | true => simp
      | false =>
        simp only [Bool.false_eq_true, if_false]
        exact hrest
    · simp only [if_neg hlt]
      exact hexit i buf (by omega)

/-- The function `paths_level_file` on a non-empty file name, when every
candidate fits the buffer: the first candidate that exists is returned with
`PATHS_OK`, and `PATHS_NOT_FOUND` when there is none. -/
lemma paths_level_file_closed (file_exists : List Char → Bool) (cfg : paths_config_t)
    (f buf : List Char) (bufsize : Nat) (hf : f ≠ [])
    (hcount : cfg.xdg_data_dirs_count ≤ cfg.xdg_data_dirs.length)
    (hfit : ∀ c ∈ level_candidates cfg f, c.length < bufsize) :
    paths_level_file file_exists cfg (some f) buf bufsize
      = match (level_candidates cfg f).find? file_exists with
        | some c => (paths_status_t.PATHS_OK, c)
        | none => (paths_status_t.PATHS_NOT_FOUND, "levels/".toList ++ f) := by
  have h1 : (cfg.xdg_data_home ++ "/xboing/levels/".toList ++ f).length < bufsize :=
    hfit _ (by
      unfold level_candidates
      exact List.mem_append_right _ (List.mem_cons_self _ _))
  have h2 : ("levels/".toList ++ f).length < bufsize :=
    hfit _ (by
      unfold level_candidates
      exact List.mem_append_right _ (List.mem_cons_of_mem _ (List.mem_cons_self _ _)))
  have hdirs : ∀ dir ∈ (cfg.xdg_data_dirs.take cfg.xdg_data_dirs_count).drop 0,
      (dir ++ "/xboing/levels/".toList ++ f).length < bufsize := by
    intro dir hd
    rw [List.drop_zero] at hd
    apply hfit
    unfold level_candidates
    exact List.mem_append_left _ (List.mem_append_right _ (List.mem_map.mpr ⟨dir, hd, rfl⟩))
  have hloop := fun b : List Char => resolve_asset_data_dirs_levels file_exists cfg f bufsize
    hcount h1 h2 cfg.xdg_data_dirs_count 0 b (by omega) hdirs
  simp only [List.drop_zero] at hloop
  unfold paths_level_file resolve_asset
  simp only [hf, if_false]
  by_cases hl : cfg.xboing_levels_dir ≠ []
  · have hcand : level_candidates cfg f
        = (cfg.xboing_levels_dir ++ "/".toList ++ f)
          :: ((cfg.xdg_data_dirs.take cfg.xdg_data_dirs_count).map
              (fun dir => dir ++ "/xboing/levels/".toList ++ f)
            ++ [cfg.xdg_data_home ++ "/xboing/levels/".toList ++ f,
                "levels/".toList ++ f]) := by
      unfold level_candidates
      rw [if_pos hl, List.append_assoc, List.singleton_append]
    have h0 : (cfg.xboing_levels_dir ++ "/".toList ++ f).length < bufsize :=
      hfit _ (by rw [hcand]; exact List.mem_cons_self _ _)
    have hne : ¬ (paths_status_t.PATHS_OK = paths_status_t.PATHS_TRUNCATED) := by decide
    simp only [if_pos hl, build_path_one _ bufsize _ f h0, hne, if_false]
    rw [hcand, List.find?_cons]
    cases hA : file_exists (cfg.xboing_levels_dir ++ "/".toList ++ f) with
    | true => rfl
    | false =>
      simp only [Bool.false_eq_true, if_false]
      rw [hloop]
  · have hcand : level_candidates cfg f
        = (cfg.xdg_data_dirs.take cfg.xdg_data_dirs_count).map
              (fun dir => dir ++ "/xboing/levels/".toList ++ f)
            ++ [cfg.xdg_data_home ++ "/xboing/levels/".toList ++ f,
                "levels/".toList ++ f] := by
      unfold level_candidates
      rw [if_neg hl, List.nil_append]
    simp only [if_neg hl]
    rw [hcand, hloop]

/-- C32. Asset resolution of a level file, with file existence as a predicate
and a buffer large enough for every candidate: `paths_level_file` returns
`PATHS_NOT_FOUND` when `filename` is `NULL` or empty; otherwise it returns
`PATHS_OK` with `buf` equal to the first of the candidates, in the order of
`level_candidates`, that exists, and it returns `PATHS_NOT_FOUND` if and only
if none exists. -/
theorem level_file_resolution (file_exists : List Char → Bool) (cfg : paths_config_t)
    (filename : Option (List Char)) (buf : List Char) (bufsize : Nat)
    (hcount : cfg.xdg_data_dirs_count ≤ cfg.xdg_data_dirs.length)
    (hfit : ∀ f, filename = some f → ∀ c ∈ level_candidates cfg f, c.length < bufsize) :
    ((filename = none ∨ filename = some []) →
      (paths_level_file file_exists cfg filename buf bufsize).1
        = paths_status_t.PATHS_NOT_FOUND)
    ∧ (∀ f, filename = some f → f ≠ [] →
        (∀ c, (level_candidates cfg f).find? file_exists = some c →
          paths_level_file file_exists cfg filename buf bufsize = (paths_status_t.PATHS_OK, c))
        ∧ ((paths_level_file file_exists cfg filename buf bufsize).1
              = paths_status_t.PATHS_NOT_FOUND
            ↔ ∀ c ∈ level_candidates cfg f, file_exists c = false)) := by
  constructor
  · rintro (h | h)
    · rw [h]
      rfl
    · rw [h]
      rfl
  · intro f hf hne
    have hclosed := paths_level_file_closed file_exists cfg f buf bufsize hne hcount
      (hfit f hf)
    rw [hf, hclosed]
    constructor
    · intro c hc
      rw [hc]
    · cases hfind : (level_candidates cfg f).find? file_exists with
      | none =>
        simp only [true_iff]
        intro c hc
        have := List.find?_eq_none.mp hfind c hc
        simpa using this
      | some c =>
        have hc1 : file_exists c = true := List.find?_some hfind
        have hc2 : c ∈ level_candidates cfg f := List.mem_of_find?_eq_some hfind
        constructor
        · intro h
          simp at h
        · intro h
          have := h c hc2
          rw [hc1] at this
          exact absurd this (by decide)

/-- C32 on the call of `test_level_cwd_fallback`, with a file system in which
only `levels/level01.data` exists: every candidate fits a buffer of
`PATHS_MAX_PATH` bytes and the call returns `PATHS_OK` with that path. -/
theorem level_file_resolution_witness :
    (level_candidates
        (paths_init_explicit (some "/nonexistent/home".toList) none none
          (some "/nonexistent/share".toList) none none none).2
        "level01.data".toList).find? (fun p => p == "levels/level01.data".toList)
      = some "levels/level01.data".toList
    ∧ paths_level_file (fun p => p == "levels/level01.data".toList)
        (paths_init_explicit (some "/nonexistent/home".toList) none none
          (some "/nonexistent/share".toList) none none none).2
        (some "level01.data".toList) [] PATHS_MAX_PATH
      = (paths_status_t.PATHS_OK, "levels/level01.data".toList) :=
  ⟨by decide,
    ((level_file_resolution (fun p => p == "levels/level01.data".toList)
      (paths_init_explicit (some "/nonexistent/home".toList) none none
          (some "/nonexistent/share".toList) none none none).2
      (some "level01.data".toList) [] PATHS_MAX_PATH (by decide)
      (by
        intro f hf
        cases hf
        decide)).2 "level01.data".toList rfl (by decide)).1 _ (by decide)⟩

/-- C31. Evaluation at the input of `test_score_global_legacy_fallback` and its
siblings (TC-22, TC-23, TC-25, TC-26 of `test_paths.c`): for the configuration
made from home "/home/test" with no `XBOING_SCORE_FILE` override, a buffer of
`PATHS_MAX_PATH` bytes and a file system in which no file exists, each of the
four functions returns `PATHS_OK` with the path under `XDG_DATA_HOME/xboing`,
where those tests expect the legacy dot-file under `home`. -/
theorem score_file_absent_legacy_eval :
    (paths_init_explicit (some "/home/test".toList) none none none none none
        none).2.xboing_score_file = []
    ∧ paths_score_file_global (fun _ => false)
        (paths_init_explicit (some "/home/test".toList) none none none none none none).2
        [] PATHS_MAX_PATH
      = (paths_status_t.PATHS_OK, "/home/test/.local/share/xboing/scores.dat".toList)
    ∧ paths_score_file_personal (fun _ => false)
        (paths_init_explicit (some "/home/test".toList) none none none none none none).2
        [] PATHS_MAX_PATH
      = (paths_status_t.PATHS_OK, "/home/test/.local/share/xboing/personal-scores.dat".toList)
    ∧ paths_save_info (fun _ => false)
        (paths_init_explicit (some "/home/test".toList) none none none none none none).2
        [] PATHS_MAX_PATH
      = (paths_status_t.PATHS_OK, "/home/test/.local/share/xboing/save-info.dat".toList)
    ∧ paths_save_level (fun _ => false)
        (paths_init_explicit (some "/home/test".toList) none none none none none none).2
        [] PATHS_MAX_PATH
      = (paths_status_t.PATHS_OK, "/home/test/.local/share/xboing/save-level.dat".toList)
    ∧ (paths_score_file_global (fun _ => false)
        (paths_init_explicit (some "/home/test".toList) none none none none none none).2
        [] PATHS_MAX_PATH).2 ≠ "/home/test/.xboing.scr".toList := by
  decide

end XBoing
